import Mathlib

/-!
Shallow embedding of the NEANDER-X lcc back end (src/build/neanderx.c):
the lburg-generated instruction-selection engine (`_label`, `_closure_*`,
`_rule`, `_kids`, `_nts`, decode tables) and the storage allocator
(`get_vreg_slot`, `local`, `function`), together with proofs about them.

Machine integers: all costs and slot counts are small nonnegative values
(costs are capped at 0x7fff before being stored into a C `short`), so they
are modelled as `Nat`; constant values carried by IR nodes are modelled as
`Int` (the C reads `p->syms[0]->u.c.v.i`, a signed long).
-/

namespace NeanderX

/-! ## Storage allocator: VREG slot table (get_vreg_slot) -/

/-- MAX_VREG_SLOTS from the C source. -/
def MAX_VREG_SLOTS : Nat := 32

/-- The per-function VREG slot table: `vreg_symbols[0..next_vreg_slot-1]`.
The C keeps a fixed array plus the counter `next_vreg_slot`; only the first
`next_vreg_slot` entries are ever read, so the live prefix is modelled as a
list whose length is `next_vreg_slot`. Symbols are identified by `Nat` ids. -/
structure VRegState where
  vreg_symbols : List Nat
deriving DecidableEq

/-- The scan loop of `get_vreg_slot`: first index `i < next_vreg_slot` with
`vreg_symbols[i] == reg`. -/
def lookup_slot (reg : Nat) : List Nat → Option Nat
  | [] => none
  | x :: xs => if x = reg then some 0 else (lookup_slot reg xs).map (· + 1)

/-- `get_vreg_slot` from the C source: return the existing slot for `reg`,
else allocate the next free slot, else (table full) fall back to slot 0
without registering anything. -/
def get_vreg_slot (s : VRegState) (reg : Nat) : Nat × VRegState :=
  match lookup_slot reg s.vreg_symbols with
  | some i => (i, s)
  | none =>
      if s.vreg_symbols.length < MAX_VREG_SLOTS then
        (s.vreg_symbols.length, ⟨s.vreg_symbols ++ [reg]⟩)
      else
        (0, s)

/-! ## Storage allocator: frame layout (local, function) -/

/-- lcc's `roundup(x, n)` macro rounds `x` up to a multiple of `n`.  The C
writes it with a bit mask, `(x + n - 1) & ~(n - 1)`, which agrees with the
arithmetic form below for the power-of-two alignments (1 and 2) this target
declares in its `Interface` metrics. -/
def roundup (x n : Nat) : Nat := (x + n - 1) / n * n

/-- `local(p)` from the C source: bump the running `offset` past the local,
rounding to its alignment but at least 2, and assign `-offset`.  Returns the
new running offset and the assigned frame-pointer-relative offset. -/
def localAlloc (offset size align : Nat) : Nat × Int :=
  let o := roundup (offset + size) (if align < 2 then 2 else align)
  (o, -(o : Int))

/-- Offsets assigned by successive `local` calls starting from running
offset `off`; each list element is a (size, align) pair. -/
def localOffsets (off : Nat) : List (Nat × Nat) → List Int
  | [] => []
  | (sz, al) :: rest =>
      (localAlloc off sz al).2 :: localOffsets (localAlloc off sz al).1 rest

/-- CALLEE_SAVE_VREGS from the C source. -/
def CALLEE_SAVE_VREGS : Nat := 4

/-- `save_vregs = (ncalls > 0) ? CALLEE_SAVE_VREGS : 0` in `function`. -/
def save_vregs (ncalls : Nat) : Nat := if 0 < ncalls then CALLEE_SAVE_VREGS else 0

/-- The parameter-offset loop of `function`, from a given starting offset:
each parameter gets the current offset, which then advances by its size
rounded up to 2. -/
def paramOffsetsFrom (off : Nat) : List Nat → List Nat
  | [] => []
  | sz :: rest => off :: paramOffsetsFrom (off + roundup sz 2) rest

/-- Parameter offsets assigned by `function`: the loop starts at
`4 + save_vregs * 2` (past saved FP, return address and callee-saved
slots). -/
def paramOffsets (ncalls : Nat) (sizes : List Nat) : List Nat :=
  paramOffsetsFrom (4 + save_vregs ncalls * 2) sizes

/-- One emitted line of `function`'s prologue/epilogue skeleton.  Each
`print` in the C becomes one constructor; `other` stands for lines produced
by the externally generated body (`gencode`/`emitcode`). -/
inductive Ins where
  | funcComment (name : String)
  | funcLabel (name : String)
  | prologueComment
  | push_fp
  | calleeSaveComment (n : Nat)
  | push_addr_vreg (i : Nat)
  | tsf
  | allocComment (n : Nat)
  | ldi (v : Int)
  | push
  | epilogueComment
  | tfs
  | calleeRestoreComment (n : Nat)
  | pop_addr_vreg (i : Nat)
  | pop_fp
  | ret
  | other (s : String)
deriving DecidableEq

/-- The prologue `function` prints before `gencode` runs: function label,
PUSH_FP, the callee-save pushes (ascending) when the function makes calls,
then TSF. -/
def prologue (f : String) (ncalls : Nat) : List Ins :=
  [Ins.funcComment f, Ins.funcLabel f, Ins.prologueComment, Ins.push_fp] ++
  (if 0 < save_vregs ncalls then
      Ins.calleeSaveComment (save_vregs ncalls) ::
        (List.range (save_vregs ncalls)).map Ins.push_addr_vreg
    else []) ++ [Ins.tsf]

/-- The epilogue `function` prints after `emitcode`: TFS, the callee-restore
pops (descending, mirroring the pushes), POP_FP, RET. -/
def epilogue (ncalls : Nat) : List Ins :=
  [Ins.epilogueComment, Ins.tfs] ++
  (if 0 < save_vregs ncalls then
      Ins.calleeRestoreComment (save_vregs ncalls) ::
        ((List.range (save_vregs ncalls)).reverse).map Ins.pop_addr_vreg
    else []) ++ [Ins.pop_fp, Ins.ret]

/-- Result of `function`: the emitted line stream, the VREG slot table it
starts gencode with, and the parameter offsets it assigned. -/
structure FunctionResult where
  code : List Ins
  vstate : VRegState
  offsets : List Nat
deriving DecidableEq

/-- `function(f, caller, callee, ncalls)` from the C source, with the
externally produced pieces (`gencode`, `emitcode` output and the final
`maxoffset`) passed in as parameters.  It resets the VREG slot table
(`next_vreg_slot = 0`, all `vreg_symbols` cleared), prints the prologue,
assigns parameter offsets, reserves `maxoffset` bytes of locals with
LDI 0/PUSH pairs, plays back the body, and prints the epilogue. -/
def function (f : String) (ncalls : Nat) (paramSizes : List Nat)
    (maxoffset : Nat) (body : List Ins) : FunctionResult :=
  { code := prologue f ncalls ++
      (if 0 < maxoffset then
          Ins.allocComment maxoffset ::
            (List.range maxoffset).flatMap (fun _ => [Ins.ldi 0, Ins.push])
        else []) ++ body ++ epilogue ncalls
    vstate := ⟨[]⟩
    offsets := paramOffsets ncalls paramSizes }

/-- The PUSH_ADDR _vregN instructions of a line stream, in order. -/
def savePushes (l : List Ins) : List Nat :=
  l.filterMap fun i => match i with | Ins.push_addr_vreg n => some n | _ => none

/-- The POP_ADDR _vregN instructions of a line stream, in order. -/
def restorePops (l : List Ins) : List Nat :=
  l.filterMap fun i => match i with | Ins.pop_addr_vreg n => some n | _ => none

/-! ## The BURS labeler: nonterminals, states, closures -/

/-- The eight nonterminals of the grammar, numbered 1..8 in the generated
`_X_NT` defines. -/
inductive NT where
  | stmt | reg | con2 | con1 | con4 | conN | addr | faddr
deriving DecidableEq

/-- LBURG_MAX (0x7fff), the "infinite" cost every `cost[]` entry starts
at. -/
def LBURG_MAX : Nat := 32767

/-- A node's `struct _state`: per-nonterminal best cost and winning rule
index (the per-nonterminal index that `_rule` later decodes through the
`_decode_*` arrays). -/
structure LState where
  cost : NT → Nat
  rule : NT → Nat

/-- The state `_label` starts from: every cost 0x7fff; `rule._stmt` is
zeroed explicitly and the remaining rule bitfields sit in freshly allocated
arena memory, modelled as 0. -/
def initState : LState := ⟨fun _ => LBURG_MAX, fun _ => 0⟩

/-- Record cost `c` and rule index `r` for nonterminal `n`. -/
def LState.upd (s : LState) (n : NT) (c r : Nat) : LState :=
  ⟨fun m => if m = n then c else s.cost m,
   fun m => if m = n then r else s.rule m⟩

/-- `_closure_reg`: chain rule `stmt: reg`, cost + 0, stmt rule index
133. -/
def closure_reg (s : LState) (c : Nat) : LState :=
  if c + 0 < s.cost NT.stmt then s.upd NT.stmt (c + 0) 133 else s

/-- `_closure_con2`: chain rule `reg: con2`, cost + 1, reg rule index 25,
then the reg closure. -/
def closure_con2 (s : LState) (c : Nat) : LState :=
  if c + 1 < s.cost NT.reg then closure_reg (s.upd NT.reg (c + 1) 25) (c + 1) else s

/-- `_closure_con1`: chain rule `reg: con1`, cost + 1, reg rule index 24,
then the reg closure. -/
def closure_con1 (s : LState) (c : Nat) : LState :=
  if c + 1 < s.cost NT.reg then closure_reg (s.upd NT.reg (c + 1) 24) (c + 1) else s

/-- `_closure_con4`: chain rule `reg: con4`, cost + 3, reg rule index 26,
then the reg closure. -/
def closure_con4 (s : LState) (c : Nat) : LState :=
  if c + 3 < s.cost NT.reg then closure_reg (s.upd NT.reg (c + 3) 26) (c + 3) else s

/-- `_closure_faddr`: chain rule `addr: faddr`, cost + 0, addr rule index
3. -/
def closure_faddr (s : LState) (c : Nat) : LState :=
  if c + 0 < s.cost NT.addr then s.upd NT.addr (c + 0) 3 else s

/-- Closure dispatch: the generated code calls `_closure_X(a, c)` exactly
after recording a cost for nonterminal X, for the five nonterminals that
have closure functions; the other three have none. -/
def closure : NT → LState → Nat → LState
  | NT.reg => closure_reg
  | NT.con2 => closure_con2
  | NT.con1 => closure_con1
  | NT.con4 => closure_con4
  | NT.faddr => closure_faddr
  | _ => fun s _ => s

/-! ## IR trees and the rule table -/

/-- An IR node: operator code (as in the generated switch), the constant
value of `syms[0]` for constant nodes (read only by the `range` cost
macro), and up to two children (lcc nodes carry `kids[2]`; absent children
are null). -/
inductive Tree where
  | node0 (op : Nat) (val : Int)
  | node1 (op : Nat) (val : Int) (k0 : Tree)
  | node2 (op : Nat) (val : Int) (k0 k1 : Tree)

def Tree.op : Tree → Nat
  | node0 o _ | node1 o _ _ | node2 o _ _ _ => o

def Tree.val : Tree → Int
  | node0 _ v | node1 _ v _ | node2 _ v _ _ => v

/-- A chain of LEFT_CHILD (0) / RIGHT_CHILD (1) steps, outermost first. -/
abbrev Path := List Nat

/-- The descendant reached by a path, when all the links exist. -/
def Tree.sub : Tree → Path → Option Tree
  | t, [] => some t
  | node1 _ _ k0, 0 :: p => k0.sub p
  | node2 _ _ k0 _, 0 :: p => k0.sub p
  | node2 _ _ _ k1, 1 :: p => k1.sub p
  | _, _ => none

/-- The constant part of a recording site's cost: a literal, `range(a, lo,
hi)` (0 inside the range, LBURG_MAX outside), or `move(a)`. -/
inductive CostBase where
  | const (k : Nat)
  | range (lo hi : Int)
  | move
deriving DecidableEq

/-- Modelled from the spec: `move` lives in lcc's gen.c, which is not among
the sources under verification; it marks the node as a register copy and
prices the LOAD chain rules at unit cost. -/
def move_cost : Nat := 1

/-- One recording site of `_label`: the operator guards of its enclosing
`if`, the child-state cost summands, the constant part of the cost, the
target nonterminal and the rule index stored into `p->rule`. -/
structure Attempt where
  guards : List (Path × Nat)
  summands : List (Path × NT)
  base : CostBase
  target : NT
  rule : Nat
deriving DecidableEq

/-- One `case` arm of `_label`'s switch: operator code, how many children
it labels (the number of leading `_label(LEFT/RIGHT_CHILD(a))` calls), and
its recording sites in source order. -/
structure OpEntry where
  op : Nat
  arity : Nat
  attempts : List Attempt
deriving DecidableEq

/-- The full switch of `_label`, one entry per handled operator, extracted
mechanically from the generated C. -/
def opTableList : List OpEntry := [
  /- ARGB -/ OpEntry.mk 41 0 [],
  /- ASGNB -/ OpEntry.mk 57 0 [],
  /- INDIRB -/ OpEntry.mk 73 0 [],
  /- CALLV -/ OpEntry.mk 216 1 [Attempt.mk [] [([0], NT.addr)] (CostBase.const 5) NT.stmt 123],
  /- CALLB -/ OpEntry.mk 217 0 [],
  /- RETV -/ OpEntry.mk 248 0 [Attempt.mk [] [] (CostBase.const 0) NT.stmt 132],
  /- JUMPV -/ OpEntry.mk 584 1 [Attempt.mk [] [([0], NT.addr)] (CostBase.const 1) NT.stmt 29,
    Attempt.mk [] [([0], NT.reg)] (CostBase.const 10) NT.stmt 30],
  /- LABELV -/ OpEntry.mk 600 0 [Attempt.mk [] [] (CostBase.const 0) NT.stmt 28],
  /- VREGP -/ OpEntry.mk 711 0 [],
  /- CNSTI1 -/ OpEntry.mk 1045 0 [Attempt.mk [] [] (CostBase.const 0) NT.con1 1,
    Attempt.mk [] [] (CostBase.range 1 1) NT.conN 1],
  /- CNSTU1 -/ OpEntry.mk 1046 0 [Attempt.mk [] [] (CostBase.const 0) NT.con1 2,
    Attempt.mk [] [] (CostBase.range 1 1) NT.conN 2],
  /- ARGI1 -/ OpEntry.mk 1061 1 [Attempt.mk [] [([0], NT.reg)] (CostBase.const 1) NT.stmt 115],
  /- ARGU1 -/ OpEntry.mk 1062 1 [Attempt.mk [] [([0], NT.reg)] (CostBase.const 1) NT.stmt 116],
  /- ASGNI1 -/ OpEntry.mk 1077 2 [Attempt.mk [([0], 711)] [([1], NT.reg)] (CostBase.const 0) NT.stmt 1,
    Attempt.mk [] [([0], NT.faddr), ([1], NT.reg)] (CostBase.const 1) NT.stmt 9,
    Attempt.mk [] [([0], NT.addr), ([1], NT.reg)] (CostBase.const 2) NT.stmt 14,
    Attempt.mk [([0], 2357)] [([0, 0], NT.addr), ([0, 1], NT.reg), ([1], NT.reg)] (CostBase.const 5) NT.stmt 22,
    Attempt.mk [([0], 2359)] [([0, 0], NT.addr), ([0, 1], NT.reg), ([1], NT.reg)] (CostBase.const 5) NT.stmt 24,
    Attempt.mk [([0], 2359)] [([0, 0], NT.reg), ([0, 1], NT.addr), ([1], NT.reg)] (CostBase.const 5) NT.stmt 26],
  /- ASGNU1 -/ OpEntry.mk 1078 2 [Attempt.mk [([0], 711)] [([1], NT.reg)] (CostBase.const 0) NT.stmt 2,
    Attempt.mk [] [([0], NT.faddr), ([1], NT.reg)] (CostBase.const 1) NT.stmt 10,
    Attempt.mk [] [([0], NT.addr), ([1], NT.reg)] (CostBase.const 2) NT.stmt 15,
    Attempt.mk [([0], 2357)] [([0, 0], NT.addr), ([0, 1], NT.reg), ([1], NT.reg)] (CostBase.const 5) NT.stmt 23,
    Attempt.mk [([0], 2359)] [([0, 0], NT.addr), ([0, 1], NT.reg), ([1], NT.reg)] (CostBase.const 5) NT.stmt 25,
    Attempt.mk [([0], 2359)] [([0, 0], NT.reg), ([0, 1], NT.addr), ([1], NT.reg)] (CostBase.const 5) NT.stmt 27],
  /- INDIRI1 -/ OpEntry.mk 1093 1 [Attempt.mk [([0], 711)] [] (CostBase.const 0) NT.reg 1,
    Attempt.mk [] [([0], NT.faddr)] (CostBase.const 1) NT.reg 30,
    Attempt.mk [] [([0], NT.addr)] (CostBase.const 2) NT.reg 35,
    Attempt.mk [([0], 2357)] [([0, 0], NT.addr), ([0, 1], NT.reg)] (CostBase.const 3) NT.reg 43,
    Attempt.mk [([0], 2359)] [([0, 0], NT.addr), ([0, 1], NT.reg)] (CostBase.const 3) NT.reg 45,
    Attempt.mk [([0], 2359)] [([0, 0], NT.reg), ([0, 1], NT.addr)] (CostBase.const 3) NT.reg 47],
  /- INDIRU1 -/ OpEntry.mk 1094 1 [Attempt.mk [([0], 711)] [] (CostBase.const 0) NT.reg 2,
    Attempt.mk [] [([0], NT.faddr)] (CostBase.const 1) NT.reg 31,
    Attempt.mk [] [([0], NT.addr)] (CostBase.const 2) NT.reg 36,
    Attempt.mk [([0], 2357)] [([0, 0], NT.addr), ([0, 1], NT.reg)] (CostBase.const 3) NT.reg 44,
    Attempt.mk [([0], 2359)] [([0, 0], NT.addr), ([0, 1], NT.reg)] (CostBase.const 3) NT.reg 46,
    Attempt.mk [([0], 2359)] [([0, 0], NT.reg), ([0, 1], NT.addr)] (CostBase.const 3) NT.reg 48],
  /- CVII1 -/ OpEntry.mk 1157 1 [Attempt.mk [] [([0], NT.reg)] (CostBase.const 1) NT.reg 215,
    Attempt.mk [([0], 2117)] [([0, 0], NT.addr)] (CostBase.const 2) NT.reg 223],
  /- CVIU1 -/ OpEntry.mk 1158 1 [Attempt.mk [] [([0], NT.reg)] (CostBase.const 1) NT.reg 216],
  /- CVUI1 -/ OpEntry.mk 1205 1 [Attempt.mk [] [([0], NT.reg)] (CostBase.const 1) NT.reg 217],
  /- CVUU1 -/ OpEntry.mk 1206 1 [Attempt.mk [] [([0], NT.reg)] (CostBase.const 1) NT.reg 218,
    Attempt.mk [([0], 2118)] [([0, 0], NT.addr)] (CostBase.const 2) NT.reg 224],
  /- NEGI1 -/ OpEntry.mk 1221 1 [Attempt.mk [] [([0], NT.reg)] (CostBase.const 1) NT.reg 73],
  /- CALLI1 -/ OpEntry.mk 1237 1 [Attempt.mk [] [([0], NT.addr)] (CostBase.const 5) NT.reg 233],
  /- CALLU1 -/ OpEntry.mk 1238 1 [Attempt.mk [] [([0], NT.addr)] (CostBase.const 5) NT.reg 234],
  /- LOADI1 -/ OpEntry.mk 1253 1 [Attempt.mk [] [([0], NT.reg)] (CostBase.move) NT.reg 241],
  /- LOADU1 -/ OpEntry.mk 1254 1 [Attempt.mk [] [([0], NT.reg)] (CostBase.move) NT.reg 242],
  /- RETI1 -/ OpEntry.mk 1269 1 [Attempt.mk [] [([0], NT.reg)] (CostBase.const 0) NT.stmt 124],
  /- RETU1 -/ OpEntry.mk 1270 1 [Attempt.mk [] [([0], NT.reg)] (CostBase.const 0) NT.stmt 125],
  /- ADDI1 -/ OpEntry.mk 1333 2 [Attempt.mk [([0], 1093), ([1], 1093)] [([0, 0], NT.addr), ([1, 0], NT.addr)] (CostBase.const 2) NT.reg 49,
    Attempt.mk [([0], 1094), ([1], 1094)] [([0, 0], NT.addr), ([1, 0], NT.addr)] (CostBase.const 2) NT.reg 51,
    Attempt.mk [([0], 1253), ([0, 0], 1094), ([1], 1253), ([1, 0], 1094)] [([0, 0, 0], NT.addr), ([1, 0, 0], NT.addr)] (CostBase.const 2) NT.reg 52,
    Attempt.mk [] [([0], NT.reg), ([1], NT.reg)] (CostBase.const 10) NT.reg 54,
    Attempt.mk [([1], 1093)] [([0], NT.reg), ([1, 0], NT.addr)] (CostBase.const 1) NT.reg 56,
    Attempt.mk [([1], 1094)] [([0], NT.reg), ([1, 0], NT.addr)] (CostBase.const 1) NT.reg 58,
    Attempt.mk [] [([0], NT.reg), ([1], NT.conN)] (CostBase.const 1) NT.reg 59],
  /- ADDU1 -/ OpEntry.mk 1334 2 [Attempt.mk [([0], 1094), ([1], 1094)] [([0, 0], NT.addr), ([1, 0], NT.addr)] (CostBase.const 2) NT.reg 50,
    Attempt.mk [([0], 1254), ([0, 0], 1094), ([1], 1254), ([1, 0], 1094)] [([0, 0, 0], NT.addr), ([1, 0, 0], NT.addr)] (CostBase.const 2) NT.reg 53,
    Attempt.mk [] [([0], NT.reg), ([1], NT.reg)] (CostBase.const 10) NT.reg 55,
    Attempt.mk [([1], 1094)] [([0], NT.reg), ([1, 0], NT.addr)] (CostBase.const 1) NT.reg 57,
    Attempt.mk [] [([0], NT.reg), ([1], NT.conN)] (CostBase.const 1) NT.reg 60],
  /- SUBI1 -/ OpEntry.mk 1349 2 [Attempt.mk [([0], 1093), ([1], 1093)] [([0, 0], NT.addr), ([1, 0], NT.addr)] (CostBase.const 2) NT.reg 61,
    Attempt.mk [([0], 1094), ([1], 1094)] [([0, 0], NT.addr), ([1, 0], NT.addr)] (CostBase.const 2) NT.reg 63,
    Attempt.mk [([0], 1253), ([0, 0], 1094), ([1], 1253), ([1, 0], 1094)] [([0, 0, 0], NT.addr), ([1, 0, 0], NT.addr)] (CostBase.const 2) NT.reg 64,
    Attempt.mk [] [([0], NT.reg), ([1], NT.reg)] (CostBase.const 10) NT.reg 66,
    Attempt.mk [([1], 1093)] [([0], NT.reg), ([1, 0], NT.addr)] (CostBase.const 1) NT.reg 68,
    Attempt.mk [([1], 1094)] [([0], NT.reg), ([1, 0], NT.addr)] (CostBase.const 1) NT.reg 70,
    Attempt.mk [] [([0], NT.reg), ([1], NT.conN)] (CostBase.const 1) NT.reg 71],
  /- SUBU1 -/ OpEntry.mk 1350 2 [Attempt.mk [([0], 1094), ([1], 1094)] [([0, 0], NT.addr), ([1, 0], NT.addr)] (CostBase.const 2) NT.reg 62,
    Attempt.mk [([0], 1254), ([0, 0], 1094), ([1], 1254), ([1, 0], 1094)] [([0, 0, 0], NT.addr), ([1, 0, 0], NT.addr)] (CostBase.const 2) NT.reg 65,
    Attempt.mk [] [([0], NT.reg), ([1], NT.reg)] (CostBase.const 10) NT.reg 67,
    Attempt.mk [([1], 1094)] [([0], NT.reg), ([1, 0], NT.addr)] (CostBase.const 1) NT.reg 69,
    Attempt.mk [] [([0], NT.reg), ([1], NT.conN)] (CostBase.const 1) NT.reg 72],
  /- LSHI1 -/ OpEntry.mk 1365 2 [Attempt.mk [] [([0], NT.reg), ([1], NT.conN)] (CostBase.const 1) NT.reg 207,
    Attempt.mk [] [([0], NT.reg), ([1], NT.reg)] (CostBase.const 15) NT.reg 211],
  /- LSHU1 -/ OpEntry.mk 1366 2 [Attempt.mk [] [([0], NT.reg), ([1], NT.conN)] (CostBase.const 1) NT.reg 208,
    Attempt.mk [] [([0], NT.reg), ([1], NT.reg)] (CostBase.const 15) NT.reg 212],
  /- MODI1 -/ OpEntry.mk 1381 2 [Attempt.mk [] [([0], NT.reg), ([1], NT.reg)] (CostBase.const 3) NT.reg 127],
  /- MODU1 -/ OpEntry.mk 1382 2 [Attempt.mk [] [([0], NT.reg), ([1], NT.reg)] (CostBase.const 3) NT.reg 128],
  /- RSHI1 -/ OpEntry.mk 1397 2 [Attempt.mk [] [([0], NT.reg), ([1], NT.conN)] (CostBase.const 1) NT.reg 210,
    Attempt.mk [] [([0], NT.reg), ([1], NT.reg)] (CostBase.const 15) NT.reg 214],
  /- RSHU1 -/ OpEntry.mk 1398 2 [Attempt.mk [] [([0], NT.reg), ([1], NT.conN)] (CostBase.const 1) NT.reg 209,
    Attempt.mk [] [([0], NT.reg), ([1], NT.reg)] (CostBase.const 15) NT.reg 213],
  /- BANDI1 -/ OpEntry.mk 1413 2 [Attempt.mk [([0], 1093), ([1], 1093)] [([0, 0], NT.addr), ([1, 0], NT.addr)] (CostBase.const 2) NT.reg 135,
    Attempt.mk [] [([0], NT.reg), ([1], NT.reg)] (CostBase.const 10) NT.reg 137,
    Attempt.mk [([1], 1093)] [([0], NT.reg), ([1, 0], NT.addr)] (CostBase.const 1) NT.reg 139],
  /- BANDU1 -/ OpEntry.mk 1414 2 [Attempt.mk [([0], 1094), ([1], 1094)] [([0, 0], NT.addr), ([1, 0], NT.addr)] (CostBase.const 2) NT.reg 136,
    Attempt.mk [] [([0], NT.reg), ([1], NT.reg)] (CostBase.const 10) NT.reg 138,
    Attempt.mk [([1], 1094)] [([0], NT.reg), ([1, 0], NT.addr)] (CostBase.const 1) NT.reg 140],
  /- BCOMI1 -/ OpEntry.mk 1429 1 [Attempt.mk [] [([0], NT.reg)] (CostBase.const 1) NT.reg 153],
  /- BCOMU1 -/ OpEntry.mk 1430 1 [Attempt.mk [] [([0], NT.reg)] (CostBase.const 1) NT.reg 154],
  /- BORI1 -/ OpEntry.mk 1445 2 [Attempt.mk [([0], 1093), ([1], 1093)] [([0, 0], NT.addr), ([1, 0], NT.addr)] (CostBase.const 2) NT.reg 141,
    Attempt.mk [] [([0], NT.reg), ([1], NT.reg)] (CostBase.const 10) NT.reg 143,
    Attempt.mk [([1], 1093)] [([0], NT.reg), ([1, 0], NT.addr)] (CostBase.const 1) NT.reg 145],
  /- BORU1 -/ OpEntry.mk 1446 2 [Attempt.mk [([0], 1094), ([1], 1094)] [([0, 0], NT.addr), ([1, 0], NT.addr)] (CostBase.const 2) NT.reg 142,
    Attempt.mk [] [([0], NT.reg), ([1], NT.reg)] (CostBase.const 10) NT.reg 144,
    Attempt.mk [([1], 1094)] [([0], NT.reg), ([1, 0], NT.addr)] (CostBase.const 1) NT.reg 146],
  /- BXORI1 -/ OpEntry.mk 1461 2 [Attempt.mk [([0], 1093), ([1], 1093)] [([0, 0], NT.addr), ([1, 0], NT.addr)] (CostBase.const 2) NT.reg 147,
    Attempt.mk [] [([0], NT.reg), ([1], NT.reg)] (CostBase.const 10) NT.reg 149,
    Attempt.mk [([1], 1093)] [([0], NT.reg), ([1, 0], NT.addr)] (CostBase.const 1) NT.reg 151],
  /- BXORU1 -/ OpEntry.mk 1462 2 [Attempt.mk [([0], 1094), ([1], 1094)] [([0, 0], NT.addr), ([1, 0], NT.addr)] (CostBase.const 2) NT.reg 148,
    Attempt.mk [] [([0], NT.reg), ([1], NT.reg)] (CostBase.const 10) NT.reg 150,
    Attempt.mk [([1], 1094)] [([0], NT.reg), ([1, 0], NT.addr)] (CostBase.const 1) NT.reg 152],
  /- DIVI1 -/ OpEntry.mk 1477 2 [Attempt.mk [] [([0], NT.reg), ([1], NT.reg)] (CostBase.const 3) NT.reg 119],
  /- DIVU1 -/ OpEntry.mk 1478 2 [Attempt.mk [] [([0], NT.reg), ([1], NT.reg)] (CostBase.const 3) NT.reg 120],
  /- MULI1 -/ OpEntry.mk 1493 2 [Attempt.mk [] [([0], NT.reg), ([1], NT.reg)] (CostBase.const 3) NT.reg 115],
  /- MULU1 -/ OpEntry.mk 1494 2 [Attempt.mk [] [([0], NT.reg), ([1], NT.reg)] (CostBase.const 3) NT.reg 116],
  /- EQI1 -/ OpEntry.mk 1509 2 [Attempt.mk [] [([0], NT.reg), ([1], NT.reg)] (CostBase.const 5) NT.stmt 31,
    Attempt.mk [([1], 1093)] [([0], NT.reg), ([1, 0], NT.addr)] (CostBase.const 3) NT.stmt 33],
  /- EQU1 -/ OpEntry.mk 1510 2 [Attempt.mk [] [([0], NT.reg), ([1], NT.reg)] (CostBase.const 5) NT.stmt 32,
    Attempt.mk [([1], 1094)] [([0], NT.reg), ([1, 0], NT.addr)] (CostBase.const 3) NT.stmt 34],
  /- GEI1 -/ OpEntry.mk 1525 2 [Attempt.mk [] [([0], NT.reg), ([1], NT.reg)] (CostBase.const 5) NT.stmt 51,
    Attempt.mk [([1], 1093)] [([0], NT.reg), ([1, 0], NT.addr)] (CostBase.const 3) NT.stmt 52],
  /- GEU1 -/ OpEntry.mk 1526 2 [Attempt.mk [] [([0], NT.reg), ([1], NT.reg)] (CostBase.const 5) NT.stmt 53,
    Attempt.mk [([1], 1094)] [([0], NT.reg), ([1, 0], NT.addr)] (CostBase.const 3) NT.stmt 54],
  /- GTI1 -/ OpEntry.mk 1541 2 [Attempt.mk [] [([0], NT.reg), ([1], NT.reg)] (CostBase.const 5) NT.stmt 47,
    Attempt.mk [([1], 1093)] [([0], NT.reg), ([1, 0], NT.addr)] (CostBase.const 3) NT.stmt 48],
  /- GTU1 -/ OpEntry.mk 1542 2 [Attempt.mk [] [([0], NT.reg), ([1], NT.reg)] (CostBase.const 5) NT.stmt 49,
    Attempt.mk [([1], 1094)] [([0], NT.reg), ([1, 0], NT.addr)] (CostBase.const 3) NT.stmt 50],
  /- LEI1 -/ OpEntry.mk 1557 2 [Attempt.mk [] [([0], NT.reg), ([1], NT.reg)] (CostBase.const 5) NT.stmt 43,
    Attempt.mk [([1], 1093)] [([0], NT.reg), ([1, 0], NT.addr)] (CostBase.const 3) NT.stmt 44],
  /- LEU1 -/ OpEntry.mk 1558 2 [Attempt.mk [] [([0], NT.reg), ([1], NT.reg)] (CostBase.const 5) NT.stmt 45,
    Attempt.mk [([1], 1094)] [([0], NT.reg), ([1, 0], NT.addr)] (CostBase.const 3) NT.stmt 46],
  /- LTI1 -/ OpEntry.mk 1573 2 [Attempt.mk [] [([0], NT.reg), ([1], NT.reg)] (CostBase.const 5) NT.stmt 39,
    Attempt.mk [([1], 1093)] [([0], NT.reg), ([1, 0], NT.addr)] (CostBase.const 3) NT.stmt 40],
  /- LTU1 -/ OpEntry.mk 1574 2 [Attempt.mk [] [([0], NT.reg), ([1], NT.reg)] (CostBase.const 5) NT.stmt 41,
    Attempt.mk [([1], 1094)] [([0], NT.reg), ([1, 0], NT.addr)] (CostBase.const 3) NT.stmt 42],
  /- NEI1 -/ OpEntry.mk 1589 2 [Attempt.mk [] [([0], NT.reg), ([1], NT.reg)] (CostBase.const 5) NT.stmt 35,
    Attempt.mk [([1], 1093)] [([0], NT.reg), ([1, 0], NT.addr)] (CostBase.const 3) NT.stmt 37],
  /- NEU1 -/ OpEntry.mk 1590 2 [Attempt.mk [] [([0], NT.reg), ([1], NT.reg)] (CostBase.const 5) NT.stmt 36,
    Attempt.mk [([1], 1094)] [([0], NT.reg), ([1, 0], NT.addr)] (CostBase.const 3) NT.stmt 38],
  /- CNSTI2 -/ OpEntry.mk 2069 0 [Attempt.mk [] [] (CostBase.const 0) NT.con2 1],
  /- CNSTU2 -/ OpEntry.mk 2070 0 [Attempt.mk [] [] (CostBase.const 0) NT.con2 2],
  /- CNSTP2 -/ OpEntry.mk 2071 0 [Attempt.mk [] [] (CostBase.const 0) NT.con2 3],
  /- ARGI2 -/ OpEntry.mk 2085 1 [Attempt.mk [] [([0], NT.reg)] (CostBase.const 1) NT.stmt 117],
  /- ARGU2 -/ OpEntry.mk 2086 1 [Attempt.mk [] [([0], NT.reg)] (CostBase.const 1) NT.stmt 118],
  /- ARGP2 -/ OpEntry.mk 2087 1 [Attempt.mk [] [([0], NT.reg)] (CostBase.const 1) NT.stmt 119],
  /- ASGNI2 -/ OpEntry.mk 2101 2 [Attempt.mk [([0], 711)] [([1], NT.reg)] (CostBase.const 0) NT.stmt 3,
    Attempt.mk [] [([0], NT.faddr), ([1], NT.reg)] (CostBase.const 1) NT.stmt 11,
    Attempt.mk [] [([0], NT.addr), ([1], NT.reg)] (CostBase.const 2) NT.stmt 16],
  /- ASGNU2 -/ OpEntry.mk 2102 2 [Attempt.mk [([0], 711)] [([1], NT.reg)] (CostBase.const 0) NT.stmt 4,
    Attempt.mk [] [([0], NT.faddr), ([1], NT.reg)] (CostBase.const 1) NT.stmt 12,
    Attempt.mk [] [([0], NT.addr), ([1], NT.reg)] (CostBase.const 2) NT.stmt 17],
  /- ASGNP2 -/ OpEntry.mk 2103 2 [Attempt.mk [([0], 711)] [([1], NT.reg)] (CostBase.const 0) NT.stmt 5,
    Attempt.mk [] [([0], NT.faddr), ([1], NT.reg)] (CostBase.const 1) NT.stmt 13,
    Attempt.mk [] [([0], NT.addr), ([1], NT.reg)] (CostBase.const 2) NT.stmt 18],
  /- INDIRI2 -/ OpEntry.mk 2117 1 [Attempt.mk [([0], 711)] [] (CostBase.const 0) NT.reg 3,
    Attempt.mk [] [([0], NT.faddr)] (CostBase.const 1) NT.reg 32,
    Attempt.mk [] [([0], NT.addr)] (CostBase.const 2) NT.reg 37],
  /- INDIRU2 -/ OpEntry.mk 2118 1 [Attempt.mk [([0], 711)] [] (CostBase.const 0) NT.reg 4,
    Attempt.mk [] [([0], NT.faddr)] (CostBase.const 1) NT.reg 33,
    Attempt.mk [] [([0], NT.addr)] (CostBase.const 2) NT.reg 38],
  /- INDIRP2 -/ OpEntry.mk 2119 1 [Attempt.mk [([0], 711)] [] (CostBase.const 0) NT.reg 5,
    Attempt.mk [] [([0], NT.faddr)] (CostBase.const 1) NT.reg 34,
    Attempt.mk [] [([0], NT.addr)] (CostBase.const 2) NT.reg 39],
  /- CVII2 -/ OpEntry.mk 2181 1 [Attempt.mk [] [([0], NT.reg)] (CostBase.const 0) NT.reg 219],
  /- CVIU2 -/ OpEntry.mk 2182 1 [Attempt.mk [] [([0], NT.reg)] (CostBase.const 0) NT.reg 220],
  /- CVPU2 -/ OpEntry.mk 2198 1 [Attempt.mk [] [([0], NT.reg)] (CostBase.const 0) NT.reg 225],
  /- CVUI2 -/ OpEntry.mk 2229 1 [Attempt.mk [] [([0], NT.reg)] (CostBase.const 0) NT.reg 221],
  /- CVUU2 -/ OpEntry.mk 2230 1 [Attempt.mk [] [([0], NT.reg)] (CostBase.const 0) NT.reg 222],
  /- CVUP2 -/ OpEntry.mk 2231 1 [Attempt.mk [] [([0], NT.reg)] (CostBase.const 0) NT.reg 226],
  /- NEGI2 -/ OpEntry.mk 2245 1 [Attempt.mk [] [([0], NT.reg)] (CostBase.const 1) NT.reg 110],
  /- CALLI2 -/ OpEntry.mk 2261 1 [Attempt.mk [] [([0], NT.addr)] (CostBase.const 5) NT.reg 235],
  /- CALLU2 -/ OpEntry.mk 2262 1 [Attempt.mk [] [([0], NT.addr)] (CostBase.const 5) NT.reg 236],
  /- CALLP2 -/ OpEntry.mk 2263 1 [Attempt.mk [] [([0], NT.addr)] (CostBase.const 5) NT.reg 237],
  /- LOADI2 -/ OpEntry.mk 2277 1 [Attempt.mk [] [([0], NT.reg)] (CostBase.move) NT.reg 243],
  /- LOADU2 -/ OpEntry.mk 2278 1 [Attempt.mk [] [([0], NT.reg)] (CostBase.move) NT.reg 244],
  /- LOADP2 -/ OpEntry.mk 2279 1 [Attempt.mk [] [([0], NT.reg)] (CostBase.move) NT.reg 245],
  /- RETI2 -/ OpEntry.mk 2293 1 [Attempt.mk [] [([0], NT.reg)] (CostBase.const 0) NT.stmt 126],
  /- RETU2 -/ OpEntry.mk 2294 1 [Attempt.mk [] [([0], NT.reg)] (CostBase.const 0) NT.stmt 127],
  /- RETP2 -/ OpEntry.mk 2295 1 [Attempt.mk [] [([0], NT.reg)] (CostBase.const 0) NT.stmt 128],
  /- ADDRGP2 -/ OpEntry.mk 2311 0 [Attempt.mk [] [] (CostBase.const 0) NT.addr 1,
    Attempt.mk [] [] (CostBase.const 1) NT.reg 27],
  /- ADDRFP2 -/ OpEntry.mk 2327 0 [Attempt.mk [] [] (CostBase.const 0) NT.faddr 1,
    Attempt.mk [] [] (CostBase.const 1) NT.reg 28],
  /- ADDRLP2 -/ OpEntry.mk 2343 0 [Attempt.mk [] [] (CostBase.const 0) NT.faddr 2,
    Attempt.mk [] [] (CostBase.const 1) NT.reg 29],
  /- ADDI2 -/ OpEntry.mk 2357 2 [Attempt.mk [([0], 2117), ([0, 0], 711), ([1], 2117), ([1, 0], 711)] [] (CostBase.const 3) NT.reg 9,
    Attempt.mk [([0], 2117), ([0, 0], 711)] [([1], NT.con2)] (CostBase.const 2) NT.reg 12,
    Attempt.mk [([0], 2117)] [([0, 0], NT.faddr), ([1], NT.con2)] (CostBase.const 3) NT.reg 74,
    Attempt.mk [([0], 2117), ([1], 2117)] [([0, 0], NT.faddr), ([1, 0], NT.faddr)] (CostBase.const 4) NT.reg 77,
    Attempt.mk [([0], 2117)] [([0, 0], NT.addr), ([1], NT.con2)] (CostBase.const 3) NT.reg 80,
    Attempt.mk [([0], 2117), ([1], 2117)] [([0, 0], NT.addr), ([1, 0], NT.addr)] (CostBase.const 4) NT.reg 82,
    Attempt.mk [([1], 2117)] [([0], NT.reg), ([1, 0], NT.addr)] (CostBase.const 3) NT.reg 84,
    Attempt.mk [([1], 2117)] [([0], NT.reg), ([1, 0], NT.faddr)] (CostBase.const 3) NT.reg 86,
    Attempt.mk [] [([0], NT.reg), ([1], NT.con2)] (CostBase.const 3) NT.reg 89,
    Attempt.mk [] [([0], NT.reg), ([1], NT.reg)] (CostBase.const 8) NT.reg 91],
  /- ADDU2 -/ OpEntry.mk 2358 2 [Attempt.mk [([0], 2118), ([0, 0], 711), ([1], 2118), ([1, 0], 711)] [] (CostBase.const 3) NT.reg 10,
    Attempt.mk [([0], 2118), ([0, 0], 711)] [([1], NT.con2)] (CostBase.const 2) NT.reg 13,
    Attempt.mk [([0], 2118)] [([0, 0], NT.faddr), ([1], NT.con2)] (CostBase.const 3) NT.reg 75,
    Attempt.mk [([0], 2118), ([1], 2118)] [([0, 0], NT.faddr), ([1, 0], NT.faddr)] (CostBase.const 4) NT.reg 78,
    Attempt.mk [([0], 2118)] [([0, 0], NT.addr), ([1], NT.con2)] (CostBase.const 3) NT.reg 81,
    Attempt.mk [([0], 2118), ([1], 2118)] [([0, 0], NT.addr), ([1, 0], NT.addr)] (CostBase.const 4) NT.reg 83,
    Attempt.mk [([1], 2118)] [([0], NT.reg), ([1, 0], NT.addr)] (CostBase.const 3) NT.reg 85,
    Attempt.mk [([1], 2118)] [([0], NT.reg), ([1, 0], NT.faddr)] (CostBase.const 3) NT.reg 87,
    Attempt.mk [] [([0], NT.reg), ([1], NT.con2)] (CostBase.const 3) NT.reg 90,
    Attempt.mk [] [([0], NT.reg), ([1], NT.reg)] (CostBase.const 8) NT.reg 92],
  /- ADDP2 -/ OpEntry.mk 2359 2 [Attempt.mk [([0], 2119), ([0, 0], 711), ([1], 2117), ([1, 0], 711)] [] (CostBase.const 3) NT.reg 11,
    Attempt.mk [([0], 2119)] [([0, 0], NT.faddr), ([1], NT.con2)] (CostBase.const 3) NT.reg 76,
    Attempt.mk [([0], 2119), ([1], 2117)] [([0, 0], NT.faddr), ([1, 0], NT.faddr)] (CostBase.const 4) NT.reg 79,
    Attempt.mk [([1], 2119)] [([0], NT.reg), ([1, 0], NT.faddr)] (CostBase.const 3) NT.reg 88,
    Attempt.mk [] [([0], NT.reg), ([1], NT.reg)] (CostBase.const 8) NT.reg 93,
    Attempt.mk [] [([0], NT.addr), ([1], NT.reg)] (CostBase.const 1) NT.addr 4],
  /- SUBI2 -/ OpEntry.mk 2373 2 [Attempt.mk [([0], 2117), ([0, 0], 711), ([1], 2117), ([1, 0], 711)] [] (CostBase.const 3) NT.reg 16,
    Attempt.mk [([0], 2117)] [([0, 0], NT.faddr), ([1], NT.con2)] (CostBase.const 3) NT.reg 94,
    Attempt.mk [([0], 2117), ([1], 2117)] [([0, 0], NT.faddr), ([1, 0], NT.faddr)] (CostBase.const 4) NT.reg 96,
    Attempt.mk [([0], 2117)] [([0, 0], NT.addr), ([1], NT.con2)] (CostBase.const 3) NT.reg 98,
    Attempt.mk [([0], 2117), ([1], 2117)] [([0, 0], NT.addr), ([1, 0], NT.addr)] (CostBase.const 4) NT.reg 100,
    Attempt.mk [([1], 2117)] [([0], NT.reg), ([1, 0], NT.addr)] (CostBase.const 5) NT.reg 102,
    Attempt.mk [([1], 2117)] [([0], NT.reg), ([1, 0], NT.faddr)] (CostBase.const 5) NT.reg 104,
    Attempt.mk [] [([0], NT.reg), ([1], NT.con2)] (CostBase.const 4) NT.reg 106,
    Attempt.mk [] [([0], NT.reg), ([1], NT.reg)] (CostBase.const 8) NT.reg 108],
  /- SUBU2 -/ OpEntry.mk 2374 2 [Attempt.mk [([0], 2118), ([0, 0], 711), ([1], 2118), ([1, 0], 711)] [] (CostBase.const 3) NT.reg 17,
    Attempt.mk [([0], 2118)] [([0, 0], NT.faddr), ([1], NT.con2)] (CostBase.const 3) NT.reg 95,
    Attempt.mk [([0], 2118), ([1], 2118)] [([0, 0], NT.faddr), ([1, 0], NT.faddr)] (CostBase.const 4) NT.reg 97,
    Attempt.mk [([0], 2118)] [([0, 0], NT.addr), ([1], NT.con2)] (CostBase.const 3) NT.reg 99,
    Attempt.mk [([0], 2118), ([1], 2118)] [([0, 0], NT.addr), ([1, 0], NT.addr)] (CostBase.const 4) NT.reg 101,
    Attempt.mk [([1], 2118)] [([0], NT.reg), ([1, 0], NT.addr)] (CostBase.const 5) NT.reg 103,
    Attempt.mk [([1], 2118)] [([0], NT.reg), ([1, 0], NT.faddr)] (CostBase.const 5) NT.reg 105,
    Attempt.mk [] [([0], NT.reg), ([1], NT.con2)] (CostBase.const 4) NT.reg 107,
    Attempt.mk [] [([0], NT.reg), ([1], NT.reg)] (CostBase.const 8) NT.reg 109],
  /- LSHI2 -/ OpEntry.mk 2389 2 [Attempt.mk [] [([0], NT.reg), ([1], NT.conN)] (CostBase.const 1) NT.reg 199,
    Attempt.mk [] [([0], NT.reg), ([1], NT.reg)] (CostBase.const 15) NT.reg 203],
  /- LSHU2 -/ OpEntry.mk 2390 2 [Attempt.mk [] [([0], NT.reg), ([1], NT.conN)] (CostBase.const 1) NT.reg 200,
    Attempt.mk [] [([0], NT.reg), ([1], NT.reg)] (CostBase.const 15) NT.reg 204],
  /- MODI2 -/ OpEntry.mk 2405 2 [Attempt.mk [] [([0], NT.reg), ([1], NT.reg)] (CostBase.const 3) NT.reg 129,
    Attempt.mk [([0], 2117), ([1], 2117)] [([0, 0], NT.faddr), ([1, 0], NT.faddr)] (CostBase.const 4) NT.reg 131,
    Attempt.mk [([1], 2117)] [([0], NT.reg), ([1, 0], NT.faddr)] (CostBase.const 5) NT.reg 133],
  /- MODU2 -/ OpEntry.mk 2406 2 [Attempt.mk [] [([0], NT.reg), ([1], NT.reg)] (CostBase.const 3) NT.reg 130,
    Attempt.mk [([0], 2118), ([1], 2118)] [([0, 0], NT.faddr), ([1, 0], NT.faddr)] (CostBase.const 4) NT.reg 132,
    Attempt.mk [([1], 2118)] [([0], NT.reg), ([1, 0], NT.faddr)] (CostBase.const 5) NT.reg 134],
  /- RSHI2 -/ OpEntry.mk 2421 2 [Attempt.mk [] [([0], NT.reg), ([1], NT.conN)] (CostBase.const 1) NT.reg 202,
    Attempt.mk [] [([0], NT.reg), ([1], NT.reg)] (CostBase.const 15) NT.reg 206],
  /- RSHU2 -/ OpEntry.mk 2422 2 [Attempt.mk [] [([0], NT.reg), ([1], NT.conN)] (CostBase.const 1) NT.reg 201,
    Attempt.mk [] [([0], NT.reg), ([1], NT.reg)] (CostBase.const 15) NT.reg 205],
  /- BANDI2 -/ OpEntry.mk 2437 2 [Attempt.mk [([0], 2117), ([0, 0], 711), ([1], 2117), ([1, 0], 711)] [] (CostBase.const 3) NT.reg 20,
    Attempt.mk [] [([0], NT.reg), ([1], NT.reg)] (CostBase.const 8) NT.reg 155,
    Attempt.mk [([0], 2117), ([1], 2117)] [([0, 0], NT.faddr), ([1, 0], NT.faddr)] (CostBase.const 2) NT.reg 157,
    Attempt.mk [([1], 2117)] [([0], NT.reg), ([1, 0], NT.faddr)] (CostBase.const 3) NT.reg 159,
    Attempt.mk [([0], 2117), ([1], 2117)] [([0, 0], NT.addr), ([1, 0], NT.addr)] (CostBase.const 4) NT.reg 161,
    Attempt.mk [] [([0], NT.reg), ([1], NT.con2)] (CostBase.const 3) NT.reg 163,
    Attempt.mk [([0], 2117)] [([0, 0], NT.faddr), ([1], NT.con2)] (CostBase.const 4) NT.reg 165,
    Attempt.mk [([1], 2117)] [([0], NT.reg), ([1, 0], NT.addr)] (CostBase.const 3) NT.reg 167],
  /- BANDU2 -/ OpEntry.mk 2438 2 [Attempt.mk [([0], 2118), ([0, 0], 711), ([1], 2118), ([1, 0], 711)] [] (CostBase.const 3) NT.reg 21,
    Attempt.mk [] [([0], NT.reg), ([1], NT.reg)] (CostBase.const 8) NT.reg 156,
    Attempt.mk [([0], 2118), ([1], 2118)] [([0, 0], NT.faddr), ([1, 0], NT.faddr)] (CostBase.const 2) NT.reg 158,
    Attempt.mk [([1], 2118)] [([0], NT.reg), ([1, 0], NT.faddr)] (CostBase.const 3) NT.reg 160,
    Attempt.mk [([0], 2118), ([1], 2118)] [([0, 0], NT.addr), ([1, 0], NT.addr)] (CostBase.const 4) NT.reg 162,
    Attempt.mk [] [([0], NT.reg), ([1], NT.con2)] (CostBase.const 3) NT.reg 164,
    Attempt.mk [([0], 2118)] [([0, 0], NT.faddr), ([1], NT.con2)] (CostBase.const 4) NT.reg 166,
    Attempt.mk [([1], 2118)] [([0], NT.reg), ([1, 0], NT.addr)] (CostBase.const 3) NT.reg 168],
  /- BCOMI2 -/ OpEntry.mk 2453 1 [Attempt.mk [] [([0], NT.reg)] (CostBase.const 1) NT.reg 197],
  /- BCOMU2 -/ OpEntry.mk 2454 1 [Attempt.mk [] [([0], NT.reg)] (CostBase.const 1) NT.reg 198],
  /- BORI2 -/ OpEntry.mk 2469 2 [Attempt.mk [([0], 2117), ([0, 0], 711), ([1], 2117), ([1, 0], 711)] [] (CostBase.const 3) NT.reg 22,
    Attempt.mk [] [([0], NT.reg), ([1], NT.reg)] (CostBase.const 8) NT.reg 169,
    Attempt.mk [([0], 2117), ([1], 2117)] [([0, 0], NT.faddr), ([1, 0], NT.faddr)] (CostBase.const 2) NT.reg 171,
    Attempt.mk [([1], 2117)] [([0], NT.reg), ([1, 0], NT.faddr)] (CostBase.const 3) NT.reg 173,
    Attempt.mk [([0], 2117), ([1], 2117)] [([0, 0], NT.addr), ([1, 0], NT.addr)] (CostBase.const 4) NT.reg 175,
    Attempt.mk [] [([0], NT.reg), ([1], NT.con2)] (CostBase.const 3) NT.reg 177,
    Attempt.mk [([0], 2117)] [([0, 0], NT.faddr), ([1], NT.con2)] (CostBase.const 4) NT.reg 179,
    Attempt.mk [([1], 2117)] [([0], NT.reg), ([1, 0], NT.addr)] (CostBase.const 3) NT.reg 181],
  /- BORU2 -/ OpEntry.mk 2470 2 [Attempt.mk [([0], 2118), ([0, 0], 711), ([1], 2118), ([1, 0], 711)] [] (CostBase.const 3) NT.reg 23,
    Attempt.mk [] [([0], NT.reg), ([1], NT.reg)] (CostBase.const 8) NT.reg 170,
    Attempt.mk [([0], 2118), ([1], 2118)] [([0, 0], NT.faddr), ([1, 0], NT.faddr)] (CostBase.const 2) NT.reg 172,
    Attempt.mk [([1], 2118)] [([0], NT.reg), ([1, 0], NT.faddr)] (CostBase.const 3) NT.reg 174,
    Attempt.mk [([0], 2118), ([1], 2118)] [([0, 0], NT.addr), ([1, 0], NT.addr)] (CostBase.const 4) NT.reg 176,
    Attempt.mk [] [([0], NT.reg), ([1], NT.con2)] (CostBase.const 3) NT.reg 178,
    Attempt.mk [([0], 2118)] [([0, 0], NT.faddr), ([1], NT.con2)] (CostBase.const 4) NT.reg 180,
    Attempt.mk [([1], 2118)] [([0], NT.reg), ([1, 0], NT.addr)] (CostBase.const 3) NT.reg 182],
  /- BXORI2 -/ OpEntry.mk 2485 2 [Attempt.mk [([0], 2117), ([0, 0], 711), ([1], 2117), ([1, 0], 711)] [] (CostBase.const 3) NT.reg 18,
    Attempt.mk [] [([0], NT.reg), ([1], NT.reg)] (CostBase.const 8) NT.reg 183,
    Attempt.mk [([0], 2117), ([1], 2117)] [([0, 0], NT.faddr), ([1, 0], NT.faddr)] (CostBase.const 2) NT.reg 185,
    Attempt.mk [([1], 2117)] [([0], NT.reg), ([1, 0], NT.faddr)] (CostBase.const 3) NT.reg 187,
    Attempt.mk [([0], 2117), ([1], 2117)] [([0, 0], NT.addr), ([1, 0], NT.addr)] (CostBase.const 4) NT.reg 189,
    Attempt.mk [] [([0], NT.reg), ([1], NT.con2)] (CostBase.const 3) NT.reg 191,
    Attempt.mk [([0], 2117)] [([0, 0], NT.faddr), ([1], NT.con2)] (CostBase.const 4) NT.reg 193,
    Attempt.mk [([1], 2117)] [([0], NT.reg), ([1, 0], NT.addr)] (CostBase.const 3) NT.reg 195],
  /- BXORU2 -/ OpEntry.mk 2486 2 [Attempt.mk [([0], 2118), ([0, 0], 711), ([1], 2118), ([1, 0], 711)] [] (CostBase.const 3) NT.reg 19,
    Attempt.mk [] [([0], NT.reg), ([1], NT.reg)] (CostBase.const 8) NT.reg 184,
    Attempt.mk [([0], 2118), ([1], 2118)] [([0, 0], NT.faddr), ([1, 0], NT.faddr)] (CostBase.const 2) NT.reg 186,
    Attempt.mk [([1], 2118)] [([0], NT.reg), ([1, 0], NT.faddr)] (CostBase.const 3) NT.reg 188,
    Attempt.mk [([0], 2118), ([1], 2118)] [([0, 0], NT.addr), ([1, 0], NT.addr)] (CostBase.const 4) NT.reg 190,
    Attempt.mk [] [([0], NT.reg), ([1], NT.con2)] (CostBase.const 3) NT.reg 192,
    Attempt.mk [([0], 2118)] [([0, 0], NT.faddr), ([1], NT.con2)] (CostBase.const 4) NT.reg 194,
    Attempt.mk [([1], 2118)] [([0], NT.reg), ([1, 0], NT.addr)] (CostBase.const 3) NT.reg 196],
  /- DIVI2 -/ OpEntry.mk 2501 2 [Attempt.mk [] [([0], NT.reg), ([1], NT.reg)] (CostBase.const 3) NT.reg 121,
    Attempt.mk [([0], 2117), ([1], 2117)] [([0, 0], NT.faddr), ([1, 0], NT.faddr)] (CostBase.const 4) NT.reg 123,
    Attempt.mk [([1], 2117)] [([0], NT.reg), ([1, 0], NT.faddr)] (CostBase.const 5) NT.reg 125],
  /- DIVU2 -/ OpEntry.mk 2502 2 [Attempt.mk [] [([0], NT.reg), ([1], NT.reg)] (CostBase.const 3) NT.reg 122,
    Attempt.mk [([0], 2118), ([1], 2118)] [([0, 0], NT.faddr), ([1, 0], NT.faddr)] (CostBase.const 4) NT.reg 124,
    Attempt.mk [([1], 2118)] [([0], NT.reg), ([1, 0], NT.faddr)] (CostBase.const 5) NT.reg 126],
  /- MULI2 -/ OpEntry.mk 2517 2 [Attempt.mk [([0], 2117), ([0, 0], 711), ([1], 2117), ([1, 0], 711)] [] (CostBase.const 3) NT.reg 14,
    Attempt.mk [] [([0], NT.reg), ([1], NT.reg)] (CostBase.const 3) NT.reg 117],
  /- MULU2 -/ OpEntry.mk 2518 2 [Attempt.mk [([0], 2118), ([0, 0], 711), ([1], 2118), ([1, 0], 711)] [] (CostBase.const 3) NT.reg 15,
    Attempt.mk [] [([0], NT.reg), ([1], NT.reg)] (CostBase.const 3) NT.reg 118],
  /- EQI2 -/ OpEntry.mk 2533 2 [Attempt.mk [([0], 2117), ([1], 2117)] [([0, 0], NT.faddr), ([1, 0], NT.faddr)] (CostBase.const 3) NT.stmt 55,
    Attempt.mk [([1], 2117)] [([0], NT.reg), ([1, 0], NT.faddr)] (CostBase.const 4) NT.stmt 57,
    Attempt.mk [] [([0], NT.reg), ([1], NT.reg)] (CostBase.const 10) NT.stmt 59,
    Attempt.mk [([0], 2117)] [([0, 0], NT.faddr), ([1], NT.con2)] (CostBase.const 2) NT.stmt 107,
    Attempt.mk [] [([0], NT.reg), ([1], NT.con2)] (CostBase.const 3) NT.stmt 109],
  /- EQU2 -/ OpEntry.mk 2534 2 [Attempt.mk [([0], 2118), ([1], 2118)] [([0, 0], NT.faddr), ([1, 0], NT.faddr)] (CostBase.const 3) NT.stmt 56,
    Attempt.mk [([1], 2118)] [([0], NT.reg), ([1, 0], NT.faddr)] (CostBase.const 4) NT.stmt 58,
    Attempt.mk [] [([0], NT.reg), ([1], NT.reg)] (CostBase.const 10) NT.stmt 60,
    Attempt.mk [([0], 2118)] [([0, 0], NT.faddr), ([1], NT.con2)] (CostBase.const 2) NT.stmt 108,
    Attempt.mk [] [([0], NT.reg), ([1], NT.con2)] (CostBase.const 3) NT.stmt 110],
  /- GEI2 -/ OpEntry.mk 2549 2 [Attempt.mk [([0], 2117), ([1], 2117)] [([0, 0], NT.faddr), ([1, 0], NT.faddr)] (CostBase.const 3) NT.stmt 85,
    Attempt.mk [([1], 2117)] [([0], NT.reg), ([1, 0], NT.faddr)] (CostBase.const 4) NT.stmt 87,
    Attempt.mk [] [([0], NT.reg), ([1], NT.reg)] (CostBase.const 10) NT.stmt 89,
    Attempt.mk [([0], 2117)] [([0, 0], NT.faddr), ([1], NT.con2)] (CostBase.const 2) NT.stmt 99,
    Attempt.mk [] [([0], NT.reg), ([1], NT.con2)] (CostBase.const 3) NT.stmt 101],
  /- GEU2 -/ OpEntry.mk 2550 2 [Attempt.mk [([0], 2118), ([1], 2118)] [([0, 0], NT.faddr), ([1, 0], NT.faddr)] (CostBase.const 3) NT.stmt 86,
    Attempt.mk [([1], 2118)] [([0], NT.reg), ([1, 0], NT.faddr)] (CostBase.const 4) NT.stmt 88,
    Attempt.mk [] [([0], NT.reg), ([1], NT.reg)] (CostBase.const 10) NT.stmt 90,
    Attempt.mk [([0], 2118)] [([0, 0], NT.faddr), ([1], NT.con2)] (CostBase.const 2) NT.stmt 100,
    Attempt.mk [] [([0], NT.reg), ([1], NT.con2)] (CostBase.const 3) NT.stmt 102],
  /- GTI2 -/ OpEntry.mk 2565 2 [Attempt.mk [([0], 2117), ([1], 2117)] [([0, 0], NT.faddr), ([1, 0], NT.faddr)] (CostBase.const 3) NT.stmt 79,
    Attempt.mk [([1], 2117)] [([0], NT.reg), ([1, 0], NT.faddr)] (CostBase.const 4) NT.stmt 81,
    Attempt.mk [] [([0], NT.reg), ([1], NT.reg)] (CostBase.const 10) NT.stmt 83,
    Attempt.mk [([0], 2117)] [([0, 0], NT.faddr), ([1], NT.con2)] (CostBase.const 2) NT.stmt 95,
    Attempt.mk [] [([0], NT.reg), ([1], NT.con2)] (CostBase.const 3) NT.stmt 97],
  /- GTU2 -/ OpEntry.mk 2566 2 [Attempt.mk [([0], 2118), ([1], 2118)] [([0, 0], NT.faddr), ([1, 0], NT.faddr)] (CostBase.const 3) NT.stmt 80,
    Attempt.mk [([1], 2118)] [([0], NT.reg), ([1, 0], NT.faddr)] (CostBase.const 4) NT.stmt 82,
    Attempt.mk [] [([0], NT.reg), ([1], NT.reg)] (CostBase.const 10) NT.stmt 84,
    Attempt.mk [([0], 2118)] [([0, 0], NT.faddr), ([1], NT.con2)] (CostBase.const 2) NT.stmt 96,
    Attempt.mk [] [([0], NT.reg), ([1], NT.con2)] (CostBase.const 3) NT.stmt 98],
  /- LEI2 -/ OpEntry.mk 2581 2 [Attempt.mk [([0], 2117), ([1], 2117)] [([0, 0], NT.faddr), ([1, 0], NT.faddr)] (CostBase.const 3) NT.stmt 73,
    Attempt.mk [([1], 2117)] [([0], NT.reg), ([1, 0], NT.faddr)] (CostBase.const 4) NT.stmt 75,
    Attempt.mk [] [([0], NT.reg), ([1], NT.reg)] (CostBase.const 10) NT.stmt 77,
    Attempt.mk [([0], 2117)] [([0, 0], NT.faddr), ([1], NT.con2)] (CostBase.const 2) NT.stmt 91,
    Attempt.mk [] [([0], NT.reg), ([1], NT.con2)] (CostBase.const 3) NT.stmt 93],
  /- LEU2 -/ OpEntry.mk 2582 2 [Attempt.mk [([0], 2118), ([1], 2118)] [([0, 0], NT.faddr), ([1, 0], NT.faddr)] (CostBase.const 3) NT.stmt 74,
    Attempt.mk [([1], 2118)] [([0], NT.reg), ([1, 0], NT.faddr)] (CostBase.const 4) NT.stmt 76,
    Attempt.mk [] [([0], NT.reg), ([1], NT.reg)] (CostBase.const 10) NT.stmt 78,
    Attempt.mk [([0], 2118)] [([0, 0], NT.faddr), ([1], NT.con2)] (CostBase.const 2) NT.stmt 92,
    Attempt.mk [] [([0], NT.reg), ([1], NT.con2)] (CostBase.const 3) NT.stmt 94],
  /- LTI2 -/ OpEntry.mk 2597 2 [Attempt.mk [([0], 2117), ([1], 2117)] [([0, 0], NT.faddr), ([1, 0], NT.faddr)] (CostBase.const 3) NT.stmt 67,
    Attempt.mk [([1], 2117)] [([0], NT.reg), ([1, 0], NT.faddr)] (CostBase.const 4) NT.stmt 69,
    Attempt.mk [] [([0], NT.reg), ([1], NT.reg)] (CostBase.const 10) NT.stmt 71,
    Attempt.mk [([0], 2117)] [([0, 0], NT.faddr), ([1], NT.con2)] (CostBase.const 2) NT.stmt 103,
    Attempt.mk [] [([0], NT.reg), ([1], NT.con2)] (CostBase.const 3) NT.stmt 105],
  /- LTU2 -/ OpEntry.mk 2598 2 [Attempt.mk [([0], 2118), ([1], 2118)] [([0, 0], NT.faddr), ([1, 0], NT.faddr)] (CostBase.const 3) NT.stmt 68,
    Attempt.mk [([1], 2118)] [([0], NT.reg), ([1, 0], NT.faddr)] (CostBase.const 4) NT.stmt 70,
    Attempt.mk [] [([0], NT.reg), ([1], NT.reg)] (CostBase.const 10) NT.stmt 72,
    Attempt.mk [([0], 2118)] [([0, 0], NT.faddr), ([1], NT.con2)] (CostBase.const 2) NT.stmt 104,
    Attempt.mk [] [([0], NT.reg), ([1], NT.con2)] (CostBase.const 3) NT.stmt 106],
  /- NEI2 -/ OpEntry.mk 2613 2 [Attempt.mk [([0], 2117), ([1], 2117)] [([0, 0], NT.faddr), ([1, 0], NT.faddr)] (CostBase.const 3) NT.stmt 61,
    Attempt.mk [([1], 2117)] [([0], NT.reg), ([1, 0], NT.faddr)] (CostBase.const 4) NT.stmt 63,
    Attempt.mk [] [([0], NT.reg), ([1], NT.reg)] (CostBase.const 10) NT.stmt 65,
    Attempt.mk [([0], 2117)] [([0, 0], NT.faddr), ([1], NT.con2)] (CostBase.const 2) NT.stmt 111,
    Attempt.mk [] [([0], NT.reg), ([1], NT.con2)] (CostBase.const 3) NT.stmt 113],
  /- NEU2 -/ OpEntry.mk 2614 2 [Attempt.mk [([0], 2118), ([1], 2118)] [([0, 0], NT.faddr), ([1, 0], NT.faddr)] (CostBase.const 3) NT.stmt 62,
    Attempt.mk [([1], 2118)] [([0], NT.reg), ([1, 0], NT.faddr)] (CostBase.const 4) NT.stmt 64,
    Attempt.mk [] [([0], NT.reg), ([1], NT.reg)] (CostBase.const 10) NT.stmt 66,
    Attempt.mk [([0], 2118)] [([0, 0], NT.faddr), ([1], NT.con2)] (CostBase.const 2) NT.stmt 112,
    Attempt.mk [] [([0], NT.reg), ([1], NT.con2)] (CostBase.const 3) NT.stmt 114],
  /- CNSTI4 -/ OpEntry.mk 4117 0 [Attempt.mk [] [] (CostBase.const 0) NT.con4 1],
  /- CNSTU4 -/ OpEntry.mk 4118 0 [Attempt.mk [] [] (CostBase.const 0) NT.con4 2],
  /- CNSTP4 -/ OpEntry.mk 4119 0 [Attempt.mk [] [] (CostBase.const 0) NT.con4 3],
  /- ARGI4 -/ OpEntry.mk 4133 1 [Attempt.mk [] [([0], NT.reg)] (CostBase.const 2) NT.stmt 120],
  /- ARGU4 -/ OpEntry.mk 4134 1 [Attempt.mk [] [([0], NT.reg)] (CostBase.const 2) NT.stmt 121],
  /- ARGP4 -/ OpEntry.mk 4135 1 [Attempt.mk [] [([0], NT.reg)] (CostBase.const 2) NT.stmt 122],
  /- ASGNI4 -/ OpEntry.mk 4149 2 [Attempt.mk [([0], 711)] [([1], NT.reg)] (CostBase.const 0) NT.stmt 6,
    Attempt.mk [] [([0], NT.addr), ([1], NT.reg)] (CostBase.const 4) NT.stmt 19],
  /- ASGNU4 -/ OpEntry.mk 4150 2 [Attempt.mk [([0], 711)] [([1], NT.reg)] (CostBase.const 0) NT.stmt 7,
    Attempt.mk [] [([0], NT.addr), ([1], NT.reg)] (CostBase.const 4) NT.stmt 20],
  /- ASGNP4 -/ OpEntry.mk 4151 2 [Attempt.mk [([0], 711)] [([1], NT.reg)] (CostBase.const 0) NT.stmt 8,
    Attempt.mk [] [([0], NT.addr), ([1], NT.reg)] (CostBase.const 4) NT.stmt 21],
  /- INDIRI4 -/ OpEntry.mk 4165 1 [Attempt.mk [([0], 711)] [] (CostBase.const 0) NT.reg 6,
    Attempt.mk [] [([0], NT.addr)] (CostBase.const 4) NT.reg 40],
  /- INDIRU4 -/ OpEntry.mk 4166 1 [Attempt.mk [([0], 711)] [] (CostBase.const 0) NT.reg 7,
    Attempt.mk [] [([0], NT.addr)] (CostBase.const 4) NT.reg 41],
  /- INDIRP4 -/ OpEntry.mk 4167 1 [Attempt.mk [([0], 711)] [] (CostBase.const 0) NT.reg 8,
    Attempt.mk [] [([0], NT.addr)] (CostBase.const 4) NT.reg 42],
  /- CVII4 -/ OpEntry.mk 4229 1 [Attempt.mk [] [([0], NT.reg)] (CostBase.const 8) NT.reg 227],
  /- CVIU4 -/ OpEntry.mk 4230 1 [Attempt.mk [] [([0], NT.reg)] (CostBase.const 2) NT.reg 228],
  /- CVPU4 -/ OpEntry.mk 4246 1 [Attempt.mk [] [([0], NT.reg)] (CostBase.const 2) NT.reg 231],
  /- CVUI4 -/ OpEntry.mk 4277 1 [Attempt.mk [] [([0], NT.reg)] (CostBase.const 2) NT.reg 229],
  /- CVUU4 -/ OpEntry.mk 4278 1 [Attempt.mk [] [([0], NT.reg)] (CostBase.const 2) NT.reg 230],
  /- CVUP4 -/ OpEntry.mk 4279 1 [Attempt.mk [] [([0], NT.reg)] (CostBase.const 0) NT.reg 232],
  /- CALLI4 -/ OpEntry.mk 4309 1 [Attempt.mk [] [([0], NT.addr)] (CostBase.const 8) NT.reg 238],
  /- CALLU4 -/ OpEntry.mk 4310 1 [Attempt.mk [] [([0], NT.addr)] (CostBase.const 8) NT.reg 239],
  /- CALLP4 -/ OpEntry.mk 4311 1 [Attempt.mk [] [([0], NT.addr)] (CostBase.const 8) NT.reg 240],
  /- LOADI4 -/ OpEntry.mk 4325 1 [Attempt.mk [] [([0], NT.reg)] (CostBase.move) NT.reg 246],
  /- LOADU4 -/ OpEntry.mk 4326 1 [Attempt.mk [] [([0], NT.reg)] (CostBase.move) NT.reg 247],
  /- LOADP4 -/ OpEntry.mk 4327 1 [Attempt.mk [] [([0], NT.reg)] (CostBase.move) NT.reg 248],
  /- RETI4 -/ OpEntry.mk 4341 1 [Attempt.mk [] [([0], NT.reg)] (CostBase.const 0) NT.stmt 129],
  /- RETU4 -/ OpEntry.mk 4342 1 [Attempt.mk [] [([0], NT.reg)] (CostBase.const 0) NT.stmt 130],
  /- RETP4 -/ OpEntry.mk 4343 1 [Attempt.mk [] [([0], NT.reg)] (CostBase.const 0) NT.stmt 131],
  /- ADDRGP4 -/ OpEntry.mk 4359 0 [Attempt.mk [] [] (CostBase.const 0) NT.addr 2],
  /- ADDRFP4 -/ OpEntry.mk 4375 0 [Attempt.mk [] [] (CostBase.const 0) NT.faddr 3],
  /- ADDRLP4 -/ OpEntry.mk 4391 0 [Attempt.mk [] [] (CostBase.const 0) NT.faddr 4],
  /- ADDI4 -/ OpEntry.mk 4405 2 [Attempt.mk [] [([0], NT.reg), ([1], NT.reg)] (CostBase.const 10) NT.reg 111],
  /- ADDU4 -/ OpEntry.mk 4406 2 [Attempt.mk [] [([0], NT.reg), ([1], NT.reg)] (CostBase.const 10) NT.reg 112],
  /- SUBI4 -/ OpEntry.mk 4421 2 [Attempt.mk [] [([0], NT.reg), ([1], NT.reg)] (CostBase.const 10) NT.reg 113],
  /- SUBU4 -/ OpEntry.mk 4422 2 [Attempt.mk [] [([0], NT.reg), ([1], NT.reg)] (CostBase.const 10) NT.reg 114]
]

/-- Find the switch arm for an operator. -/
def opFind (op : Nat) : Option OpEntry := opTableList.find? fun e => e.op == op

/-- How many children `_label` visits for an operator (0 for operators it
does not handle at all; those abort before reaching any child). -/
def labelArity (op : Nat) : Nat :=
  match opFind op with
  | some e => e.arity
  | none => 0

/-- The recording sites `_label` evaluates at a node, in source order. -/
def attemptsOf (t : Tree) : List Attempt :=
  match opFind t.op with
  | some e => e.attempts
  | none => []

/-! ## The labeling pass -/

/-- The labeled mirror of (the labeled region of) a tree: each visited node
carries its `struct _state`. -/
inductive LTree where
  | node0 (st : LState)
  | node1 (st : LState) (k0 : LTree)
  | node2 (st : LState) (k0 k1 : LTree)

def LTree.st : LTree → LState
  | node0 s | node1 s _ | node2 s _ _ => s

def LTree.sub : LTree → Path → Option LTree
  | l, [] => some l
  | node1 _ k0, 0 :: p => k0.sub p
  | node2 _ k0 _, 0 :: p => k0.sub p
  | node2 _ _ k1, 1 :: p => k1.sub p
  | _, _ => none

/-- Read `((struct _state *)(PATH->x.state))->cost[n]` while labeling a
node whose labeled children are `l0`, `l1`.  On grammar-shaped input the
generated guards ensure every such read hits a labeled node; a read outside
the labeled region is modelled as the unreachable cost. -/
def readCost (l0 l1 : Option LTree) (p : Path) (n : NT) : Nat :=
  match p with
  | 0 :: q =>
      match l0.bind (fun l => l.sub q) with
      | some l => l.st.cost n
      | none => LBURG_MAX
  | 1 :: q =>
      match l1.bind (fun l => l.sub q) with
      | some l => l.st.cost n
      | none => LBURG_MAX
  | _ => LBURG_MAX

/-- The conjunction of `PATH->op == N` tests guarding a recording site. -/
def guardsHold (t : Tree) (gs : List (Path × Nat)) : Bool :=
  gs.all fun g =>
    match t.sub g.1 with
    | some u => u.op == g.2
    | none => false

/-- The constant part of the cost expression `c = ...`, as a function of
the node's constant value (`range` reads `p->syms[0]->u.c.v.i`). -/
def baseCost (v : Int) : CostBase → Nat
  | CostBase.const k => k
  | CostBase.range lo hi => if lo ≤ v ∧ v ≤ hi then 0 else LBURG_MAX
  | CostBase.move => move_cost

/-- The full cost expression `c = cost[..] + ... + k` of a recording
site. -/
def candCost (t : Tree) (l0 l1 : Option LTree) (A : Attempt) : Nat :=
  (A.summands.map fun pn => readCost l0 l1 pn.1 pn.2).sum + baseCost t.val A.base

/-- One recording site: if the guards pass and the candidate cost strictly
beats the recorded one, record cost and rule and run the target's
closure. -/
def tryAttempt (t : Tree) (l0 l1 : Option LTree) (s : LState) (A : Attempt) : LState :=
  if guardsHold t A.guards then
    if candCost t l0 l1 A < s.cost A.target then
      closure A.target (s.upd A.target (candCost t l0 l1 A) A.rule) (candCost t l0 l1 A)
    else s
  else s

/-- All recording sites of one switch arm, in source order, from the fresh
state. -/
def runAttempts (t : Tree) (l0 l1 : Option LTree) (atts : List Attempt) : LState :=
  atts.foldl (tryAttempt t l0 l1) initState

/-- The two fatal exits of `_label`: an operator without a switch arm
(`Bad terminal %d`, carrying the operator), and a missing child
(`Null tree`). -/
inductive LFatal where
  | badTerminal (op : Nat)
  | nullTree
deriving DecidableEq

/-- `_label(a)`: label the children the switch arm labels (a missing child
is the `Null tree` fatal), then fold the arm's recording sites over the
fresh state.  An operator without an arm is the `Bad terminal` fatal. -/
def labelTree : Tree → Except LFatal LTree
  | Tree.node0 op v =>
      match opFind op with
      | none => Except.error (LFatal.badTerminal op)
      | some e =>
          match e.arity with
          | 0 => Except.ok (LTree.node0 (runAttempts (Tree.node0 op v) none none e.attempts))
          | _ + 1 => Except.error LFatal.nullTree
  | Tree.node1 op v k0 =>
      match opFind op with
      | none => Except.error (LFatal.badTerminal op)
      | some e =>
          match e.arity with
          | 0 => Except.ok (LTree.node0 (runAttempts (Tree.node1 op v k0) none none e.attempts))
          | 1 =>
              match labelTree k0 with
              | Except.error f => Except.error f
              | Except.ok l0 =>
                  Except.ok (LTree.node1
                    (runAttempts (Tree.node1 op v k0) (some l0) none e.attempts) l0)
          | _ + 2 =>
              match labelTree k0 with
              | Except.error f => Except.error f
              | Except.ok _ => Except.error LFatal.nullTree
  | Tree.node2 op v k0 k1 =>
      match opFind op with
      | none => Except.error (LFatal.badTerminal op)
      | some e =>
          match e.arity with
          | 0 => Except.ok (LTree.node0 (runAttempts (Tree.node2 op v k0 k1) none none e.attempts))
          | 1 =>
              match labelTree k0 with
              | Except.error f => Except.error f
              | Except.ok l0 =>
                  Except.ok (LTree.node1
                    (runAttempts (Tree.node2 op v k0 k1) (some l0) none e.attempts) l0)
          | _ + 2 =>
              match labelTree k0 with
              | Except.error f => Except.error f
              | Except.ok l0 =>
                  match labelTree k1 with
                  | Except.error f => Except.error f
                  | Except.ok l1 =>
                      Except.ok (LTree.node2
                        (runAttempts (Tree.node2 op v k0 k1) (some l0) (some l1) e.attempts) l0 l1)

/-- Whether `_label` completes without a fatal error. -/
def labelOk (t : Tree) : Bool :=
  match labelTree t with
  | Except.ok _ => true
  | Except.error _ => false

/-- The labeled tree (meaningful when `labelOk`). -/
def finalLT (t : Tree) : LTree :=
  match labelTree t with
  | Except.ok lt => lt
  | Except.error _ => LTree.node0 initState

/-- The root state recorded for `t` (meaningful when `labelOk`). -/
def finalState (t : Tree) : LState := (finalLT t).st

/-- The recorded cost for a (node, nonterminal) pair. -/
def finalCost (t : Tree) (n : NT) : Nat := (finalState t).cost n

/-- The recorded rule index for a (node, nonterminal) pair. -/
def finalRule (t : Tree) (n : NT) : Nat := (finalState t).rule n



/-- The case groups of the `_kids` switch: the shared case labels of each
arm, with the paths its body assigns into `kids[]` in order (the empty
path is `p` itself), extracted mechanically from the generated C. -/
def kidsGroups : List (List Nat × List Path) := [
  ([390,278,54,53,52,50,49,48,47,46,45,41,40,39,38,37,36,35,34,33,32,23,22,21,20,19,18,17,16,15,14,11,10,9,8,7,6,5,4,3,2,1],
   []),
  ([31,30,29,28,27,26,25,24,13,12],
   [[1]]),
  ([399,51,44,43,42],
   [[]]),
  ([398,397,396,395,394,393,392,391,389,388,387,386,385,384,383,382,381,380,379,378,377,376,375,374,373,372,371,370,369,368,367,366,365,280,279,277,276,275,274,273,272,271,270,267,266,265,264,263,262,261,260,243,242,199,198,155,117,72,71,70,69,68,67,66,65,59,58,57,56,55],
   [[0]]),
  ([364,363,360,359,356,355,352,351,348,347,344,343,340,339,334,333,328,327,322,321,316,315,310,309,303,301,299,297,295,293,291,289,286,285,282,281,259,258,257,256,255,254,253,252,251,250,249,248,247,246,245,244,237,236,229,228,223,222,215,214,209,208,201,200,195,194,189,188,183,182,175,174,173,172,167,166,165,164,163,162,161,160,159,158,157,156,154,153,152,151,138,137,136,135,134,133,116,115,111,110,104,103,99,98,80,79,78,77,76,75,74,73,64,63,62,61,60],
   [[0], [1]]),
  ([86,85,84,83,82,81],
   [[0, 0], [0, 1]]),
  ([92,91,90,89,88,87],
   [[0, 0], [0, 1], [1]]),
  ([336,335,330,329,324,323,318,317,312,311,306,305,235,234,231,230,221,220,217,216,207,206,203,202,193,192,187,186,181,180,177,176,169,168,146,145,142,141,127,126,123,122,121,107,106,105,95,94,93],
   [[0, 0], [1, 0]]),
  ([109,108,97,96],
   [[0, 0, 0], [1, 0, 0]]),
  ([338,337,332,331,326,325,320,319,314,313,308,307,304,302,300,298,296,294,292,290,288,287,284,283,241,240,233,232,227,226,219,218,213,212,205,204,197,196,191,190,185,184,179,178,171,170,150,149,148,147,132,131,130,129,128,114,113,112,102,101,100],
   [[0], [1, 0]]),
  ([362,361,358,357,354,353,350,349,346,345,342,341,239,238,225,224,211,210,144,143,140,139,125,124,120,119,118],
   [[0, 0], [1]]),
  ([269,268],
   [[0, 0]])
]

/-- The `_nts` table: for each external rule number, the nonterminals its
operands must satisfy, extracted mechanically from the generated C
(index 0 is the C null entry). -/
def ntsTable : List (List NT) := [
  [],  /- 0 -/
  [],  /- 1 -/
  [],  /- 2 -/
  [],  /- 3 -/
  [],  /- 4 -/
  [],  /- 5 -/
  [],  /- 6 -/
  [],  /- 7 -/
  [],  /- 8 -/
  [],  /- 9 -/
  [],  /- 10 -/
  [],  /- 11 -/
  [NT.con2],  /- 12 -/
  [NT.con2],  /- 13 -/
  [],  /- 14 -/
  [],  /- 15 -/
  [],  /- 16 -/
  [],  /- 17 -/
  [],  /- 18 -/
  [],  /- 19 -/
  [],  /- 20 -/
  [],  /- 21 -/
  [],  /- 22 -/
  [],  /- 23 -/
  [NT.reg],  /- 24 -/
  [NT.reg],  /- 25 -/
  [NT.reg],  /- 26 -/
  [NT.reg],  /- 27 -/
  [NT.reg],  /- 28 -/
  [NT.reg],  /- 29 -/
  [NT.reg],  /- 30 -/
  [NT.reg],  /- 31 -/
  [],  /- 32 -/
  [],  /- 33 -/
  [],  /- 34 -/
  [],  /- 35 -/
  [],  /- 36 -/
  [],  /- 37 -/
  [],  /- 38 -/
  [],  /- 39 -/
  [],  /- 40 -/
  [],  /- 41 -/
  [NT.con1],  /- 42 -/
  [NT.con2],  /- 43 -/
  [NT.con4],  /- 44 -/
  [],  /- 45 -/
  [],  /- 46 -/
  [],  /- 47 -/
  [],  /- 48 -/
  [],  /- 49 -/
  [],  /- 50 -/
  [NT.faddr],  /- 51 -/
  [],  /- 52 -/
  [],  /- 53 -/
  [],  /- 54 -/
  [NT.faddr],  /- 55 -/
  [NT.faddr],  /- 56 -/
  [NT.faddr],  /- 57 -/
  [NT.faddr],  /- 58 -/
  [NT.faddr],  /- 59 -/
  [NT.faddr, NT.reg],  /- 60 -/
  [NT.faddr, NT.reg],  /- 61 -/
  [NT.faddr, NT.reg],  /- 62 -/
  [NT.faddr, NT.reg],  /- 63 -/
  [NT.faddr, NT.reg],  /- 64 -/
  [NT.addr],  /- 65 -/
  [NT.addr],  /- 66 -/
  [NT.addr],  /- 67 -/
  [NT.addr],  /- 68 -/
  [NT.addr],  /- 69 -/
  [NT.addr],  /- 70 -/
  [NT.addr],  /- 71 -/
  [NT.addr],  /- 72 -/
  [NT.addr, NT.reg],  /- 73 -/
  [NT.addr, NT.reg],  /- 74 -/
  [NT.addr, NT.reg],  /- 75 -/
  [NT.addr, NT.reg],  /- 76 -/
  [NT.addr, NT.reg],  /- 77 -/
  [NT.addr, NT.reg],  /- 78 -/
  [NT.addr, NT.reg],  /- 79 -/
  [NT.addr, NT.reg],  /- 80 -/
  [NT.addr, NT.reg],  /- 81 -/
  [NT.addr, NT.reg],  /- 82 -/
  [NT.addr, NT.reg],  /- 83 -/
  [NT.addr, NT.reg],  /- 84 -/
  [NT.reg, NT.addr],  /- 85 -/
  [NT.reg, NT.addr],  /- 86 -/
  [NT.addr, NT.reg, NT.reg],  /- 87 -/
  [NT.addr, NT.reg, NT.reg],  /- 88 -/
  [NT.addr, NT.reg, NT.reg],  /- 89 -/
  [NT.addr, NT.reg, NT.reg],  /- 90 -/
  [NT.reg, NT.addr, NT.reg],  /- 91 -/
  [NT.reg, NT.addr, NT.reg],  /- 92 -/
  [NT.addr, NT.addr],  /- 93 -/
  [NT.addr, NT.addr],  /- 94 -/
  [NT.addr, NT.addr],  /- 95 -/
  [NT.addr, NT.addr],  /- 96 -/
  [NT.addr, NT.addr],  /- 97 -/
  [NT.reg, NT.reg],  /- 98 -/
  [NT.reg, NT.reg],  /- 99 -/
  [NT.reg, NT.addr],  /- 100 -/
  [NT.reg, NT.addr],  /- 101 -/
  [NT.reg, NT.addr],  /- 102 -/
  [NT.reg, NT.conN],  /- 103 -/
  [NT.reg, NT.conN],  /- 104 -/
  [NT.addr, NT.addr],  /- 105 -/
  [NT.addr, NT.addr],  /- 106 -/
  [NT.addr, NT.addr],  /- 107 -/
  [NT.addr, NT.addr],  /- 108 -/
  [NT.addr, NT.addr],  /- 109 -/
  [NT.reg, NT.reg],  /- 110 -/
  [NT.reg, NT.reg],  /- 111 -/
  [NT.reg, NT.addr],  /- 112 -/
  [NT.reg, NT.addr],  /- 113 -/
  [NT.reg, NT.addr],  /- 114 -/
  [NT.reg, NT.conN],  /- 115 -/
  [NT.reg, NT.conN],  /- 116 -/
  [NT.reg],  /- 117 -/
  [NT.faddr, NT.con2],  /- 118 -/
  [NT.faddr, NT.con2],  /- 119 -/
  [NT.faddr, NT.con2],  /- 120 -/
  [NT.faddr, NT.faddr],  /- 121 -/
  [NT.faddr, NT.faddr],  /- 122 -/
  [NT.faddr, NT.faddr],  /- 123 -/
  [NT.addr, NT.con2],  /- 124 -/
  [NT.addr, NT.con2],  /- 125 -/
  [NT.addr, NT.addr],  /- 126 -/
  [NT.addr, NT.addr],  /- 127 -/
  [NT.reg, NT.addr],  /- 128 -/
  [NT.reg, NT.addr],  /- 129 -/
  [NT.reg, NT.faddr],  /- 130 -/
  [NT.reg, NT.faddr],  /- 131 -/
  [NT.reg, NT.faddr],  /- 132 -/
  [NT.reg, NT.con2],  /- 133 -/
  [NT.reg, NT.con2],  /- 134 -/
  [NT.reg, NT.reg],  /- 135 -/
  [NT.reg, NT.reg],  /- 136 -/
  [NT.reg, NT.reg],  /- 137 -/
  [NT.addr, NT.reg],  /- 138 -/
  [NT.faddr, NT.con2],  /- 139 -/
  [NT.faddr, NT.con2],  /- 140 -/
  [NT.faddr, NT.faddr],  /- 141 -/
  [NT.faddr, NT.faddr],  /- 142 -/
  [NT.addr, NT.con2],  /- 143 -/
  [NT.addr, NT.con2],  /- 144 -/
  [NT.addr, NT.addr],  /- 145 -/
  [NT.addr, NT.addr],  /- 146 -/
  [NT.reg, NT.addr],  /- 147 -/
  [NT.reg, NT.addr],  /- 148 -/
  [NT.reg, NT.faddr],  /- 149 -/
  [NT.reg, NT.faddr],  /- 150 -/
  [NT.reg, NT.con2],  /- 151 -/
  [NT.reg, NT.con2],  /- 152 -/
  [NT.reg, NT.reg],  /- 153 -/
  [NT.reg, NT.reg],  /- 154 -/
  [NT.reg],  /- 155 -/
  [NT.reg, NT.reg],  /- 156 -/
  [NT.reg, NT.reg],  /- 157 -/
  [NT.reg, NT.reg],  /- 158 -/
  [NT.reg, NT.reg],  /- 159 -/
  [NT.reg, NT.reg],  /- 160 -/
  [NT.reg, NT.reg],  /- 161 -/
  [NT.reg, NT.reg],  /- 162 -/
  [NT.reg, NT.reg],  /- 163 -/
  [NT.reg, NT.reg],  /- 164 -/
  [NT.reg, NT.reg],  /- 165 -/
  [NT.reg, NT.reg],  /- 166 -/
  [NT.reg, NT.reg],  /- 167 -/
  [NT.faddr, NT.faddr],  /- 168 -/
  [NT.faddr, NT.faddr],  /- 169 -/
  [NT.reg, NT.faddr],  /- 170 -/
  [NT.reg, NT.faddr],  /- 171 -/
  [NT.reg, NT.reg],  /- 172 -/
  [NT.reg, NT.reg],  /- 173 -/
  [NT.reg, NT.reg],  /- 174 -/
  [NT.reg, NT.reg],  /- 175 -/
  [NT.faddr, NT.faddr],  /- 176 -/
  [NT.faddr, NT.faddr],  /- 177 -/
  [NT.reg, NT.faddr],  /- 178 -/
  [NT.reg, NT.faddr],  /- 179 -/
  [NT.addr, NT.addr],  /- 180 -/
  [NT.addr, NT.addr],  /- 181 -/
  [NT.reg, NT.reg],  /- 182 -/
  [NT.reg, NT.reg],  /- 183 -/
  [NT.reg, NT.addr],  /- 184 -/
  [NT.reg, NT.addr],  /- 185 -/
  [NT.addr, NT.addr],  /- 186 -/
  [NT.addr, NT.addr],  /- 187 -/
  [NT.reg, NT.reg],  /- 188 -/
  [NT.reg, NT.reg],  /- 189 -/
  [NT.reg, NT.addr],  /- 190 -/
  [NT.reg, NT.addr],  /- 191 -/
  [NT.addr, NT.addr],  /- 192 -/
  [NT.addr, NT.addr],  /- 193 -/
  [NT.reg, NT.reg],  /- 194 -/
  [NT.reg, NT.reg],  /- 195 -/
  [NT.reg, NT.addr],  /- 196 -/
  [NT.reg, NT.addr],  /- 197 -/
  [NT.reg],  /- 198 -/
  [NT.reg],  /- 199 -/
  [NT.reg, NT.reg],  /- 200 -/
  [NT.reg, NT.reg],  /- 201 -/
  [NT.faddr, NT.faddr],  /- 202 -/
  [NT.faddr, NT.faddr],  /- 203 -/
  [NT.reg, NT.faddr],  /- 204 -/
  [NT.reg, NT.faddr],  /- 205 -/
  [NT.addr, NT.addr],  /- 206 -/
  [NT.addr, NT.addr],  /- 207 -/
  [NT.reg, NT.con2],  /- 208 -/
  [NT.reg, NT.con2],  /- 209 -/
  [NT.faddr, NT.con2],  /- 210 -/
  [NT.faddr, NT.con2],  /- 211 -/
  [NT.reg, NT.addr],  /- 212 -/
  [NT.reg, NT.addr],  /- 213 -/
  [NT.reg, NT.reg],  /- 214 -/
  [NT.reg, NT.reg],  /- 215 -/
  [NT.faddr, NT.faddr],  /- 216 -/
  [NT.faddr, NT.faddr],  /- 217 -/
  [NT.reg, NT.faddr],  /- 218 -/
  [NT.reg, NT.faddr],  /- 219 -/
  [NT.addr, NT.addr],  /- 220 -/
  [NT.addr, NT.addr],  /- 221 -/
  [NT.reg, NT.con2],  /- 222 -/
  [NT.reg, NT.con2],  /- 223 -/
  [NT.faddr, NT.con2],  /- 224 -/
  [NT.faddr, NT.con2],  /- 225 -/
  [NT.reg, NT.addr],  /- 226 -/
  [NT.reg, NT.addr],  /- 227 -/
  [NT.reg, NT.reg],  /- 228 -/
  [NT.reg, NT.reg],  /- 229 -/
  [NT.faddr, NT.faddr],  /- 230 -/
  [NT.faddr, NT.faddr],  /- 231 -/
  [NT.reg, NT.faddr],  /- 232 -/
  [NT.reg, NT.faddr],  /- 233 -/
  [NT.addr, NT.addr],  /- 234 -/
  [NT.addr, NT.addr],  /- 235 -/
  [NT.reg, NT.con2],  /- 236 -/
  [NT.reg, NT.con2],  /- 237 -/
  [NT.faddr, NT.con2],  /- 238 -/
  [NT.faddr, NT.con2],  /- 239 -/
  [NT.reg, NT.addr],  /- 240 -/
  [NT.reg, NT.addr],  /- 241 -/
  [NT.reg],  /- 242 -/
  [NT.reg],  /- 243 -/
  [NT.reg, NT.conN],  /- 244 -/
  [NT.reg, NT.conN],  /- 245 -/
  [NT.reg, NT.conN],  /- 246 -/
  [NT.reg, NT.conN],  /- 247 -/
  [NT.reg, NT.reg],  /- 248 -/
  [NT.reg, NT.reg],  /- 249 -/
  [NT.reg, NT.reg],  /- 250 -/
  [NT.reg, NT.reg],  /- 251 -/
  [NT.reg, NT.conN],  /- 252 -/
  [NT.reg, NT.conN],  /- 253 -/
  [NT.reg, NT.conN],  /- 254 -/
  [NT.reg, NT.conN],  /- 255 -/
  [NT.reg, NT.reg],  /- 256 -/
  [NT.reg, NT.reg],  /- 257 -/
  [NT.reg, NT.reg],  /- 258 -/
  [NT.reg, NT.reg],  /- 259 -/
  [NT.reg],  /- 260 -/
  [NT.reg],  /- 261 -/
  [NT.reg],  /- 262 -/
  [NT.reg],  /- 263 -/
  [NT.reg],  /- 264 -/
  [NT.reg],  /- 265 -/
  [NT.reg],  /- 266 -/
  [NT.reg],  /- 267 -/
  [NT.addr],  /- 268 -/
  [NT.addr],  /- 269 -/
  [NT.reg],  /- 270 -/
  [NT.reg],  /- 271 -/
  [NT.reg],  /- 272 -/
  [NT.reg],  /- 273 -/
  [NT.reg],  /- 274 -/
  [NT.reg],  /- 275 -/
  [NT.reg],  /- 276 -/
  [NT.reg],  /- 277 -/
  [],  /- 278 -/
  [NT.addr],  /- 279 -/
  [NT.reg],  /- 280 -/
  [NT.reg, NT.reg],  /- 281 -/
  [NT.reg, NT.reg],  /- 282 -/
  [NT.reg, NT.addr],  /- 283 -/
  [NT.reg, NT.addr],  /- 284 -/
  [NT.reg, NT.reg],  /- 285 -/
  [NT.reg, NT.reg],  /- 286 -/
  [NT.reg, NT.addr],  /- 287 -/
  [NT.reg, NT.addr],  /- 288 -/
  [NT.reg, NT.reg],  /- 289 -/
  [NT.reg, NT.addr],  /- 290 -/
  [NT.reg, NT.reg],  /- 291 -/
  [NT.reg, NT.addr],  /- 292 -/
  [NT.reg, NT.reg],  /- 293 -/
  [NT.reg, NT.addr],  /- 294 -/
  [NT.reg, NT.reg],  /- 295 -/
  [NT.reg, NT.addr],  /- 296 -/
  [NT.reg, NT.reg],  /- 297 -/
  [NT.reg, NT.addr],  /- 298 -/
  [NT.reg, NT.reg],  /- 299 -/
  [NT.reg, NT.addr],  /- 300 -/
  [NT.reg, NT.reg],  /- 301 -/
  [NT.reg, NT.addr],  /- 302 -/
  [NT.reg, NT.reg],  /- 303 -/
  [NT.reg, NT.addr],  /- 304 -/
  [NT.faddr, NT.faddr],  /- 305 -/
  [NT.faddr, NT.faddr],  /- 306 -/
  [NT.reg, NT.faddr],  /- 307 -/
  [NT.reg, NT.faddr],  /- 308 -/
  [NT.reg, NT.reg],  /- 309 -/
  [NT.reg, NT.reg],  /- 310 -/
  [NT.faddr, NT.faddr],  /- 311 -/
  [NT.faddr, NT.faddr],  /- 312 -/
  [NT.reg, NT.faddr],  /- 313 -/
  [NT.reg, NT.faddr],  /- 314 -/
  [NT.reg, NT.reg],  /- 315 -/
  [NT.reg, NT.reg],  /- 316 -/
  [NT.faddr, NT.faddr],  /- 317 -/
  [NT.faddr, NT.faddr],  /- 318 -/
  [NT.reg, NT.faddr],  /- 319 -/
  [NT.reg, NT.faddr],  /- 320 -/
  [NT.reg, NT.reg],  /- 321 -/
  [NT.reg, NT.reg],  /- 322 -/
  [NT.faddr, NT.faddr],  /- 323 -/
  [NT.faddr, NT.faddr],  /- 324 -/
  [NT.reg, NT.faddr],  /- 325 -/
  [NT.reg, NT.faddr],  /- 326 -/
  [NT.reg, NT.reg],  /- 327 -/
  [NT.reg, NT.reg],  /- 328 -/
  [NT.faddr, NT.faddr],  /- 329 -/
  [NT.faddr, NT.faddr],  /- 330 -/
  [NT.reg, NT.faddr],  /- 331 -/
  [NT.reg, NT.faddr],  /- 332 -/
  [NT.reg, NT.reg],  /- 333 -/
  [NT.reg, NT.reg],  /- 334 -/
  [NT.faddr, NT.faddr],  /- 335 -/
  [NT.faddr, NT.faddr],  /- 336 -/
  [NT.reg, NT.faddr],  /- 337 -/
  [NT.reg, NT.faddr],  /- 338 -/
  [NT.reg, NT.reg],  /- 339 -/
  [NT.reg, NT.reg],  /- 340 -/
  [NT.faddr, NT.con2],  /- 341 -/
  [NT.faddr, NT.con2],  /- 342 -/
  [NT.reg, NT.con2],  /- 343 -/
  [NT.reg, NT.con2],  /- 344 -/
  [NT.faddr, NT.con2],  /- 345 -/
  [NT.faddr, NT.con2],  /- 346 -/
  [NT.reg, NT.con2],  /- 347 -/
  [NT.reg, NT.con2],  /- 348 -/
  [NT.faddr, NT.con2],  /- 349 -/
  [NT.faddr, NT.con2],  /- 350 -/
  [NT.reg, NT.con2],  /- 351 -/
  [NT.reg, NT.con2],  /- 352 -/
  [NT.faddr, NT.con2],  /- 353 -/
  [NT.faddr, NT.con2],  /- 354 -/
  [NT.reg, NT.con2],  /- 355 -/
  [NT.reg, NT.con2],  /- 356 -/
  [NT.faddr, NT.con2],  /- 357 -/
  [NT.faddr, NT.con2],  /- 358 -/
  [NT.reg, NT.con2],  /- 359 -/
  [NT.reg, NT.con2],  /- 360 -/
  [NT.faddr, NT.con2],  /- 361 -/
  [NT.faddr, NT.con2],  /- 362 -/
  [NT.reg, NT.con2],  /- 363 -/
  [NT.reg, NT.con2],  /- 364 -/
  [NT.reg],  /- 365 -/
  [NT.reg],  /- 366 -/
  [NT.reg],  /- 367 -/
  [NT.reg],  /- 368 -/
  [NT.reg],  /- 369 -/
  [NT.reg],  /- 370 -/
  [NT.reg],  /- 371 -/
  [NT.reg],  /- 372 -/
  [NT.addr],  /- 373 -/
  [NT.addr],  /- 374 -/
  [NT.addr],  /- 375 -/
  [NT.addr],  /- 376 -/
  [NT.addr],  /- 377 -/
  [NT.addr],  /- 378 -/
  [NT.addr],  /- 379 -/
  [NT.addr],  /- 380 -/
  [NT.addr],  /- 381 -/
  [NT.reg],  /- 382 -/
  [NT.reg],  /- 383 -/
  [NT.reg],  /- 384 -/
  [NT.reg],  /- 385 -/
  [NT.reg],  /- 386 -/
  [NT.reg],  /- 387 -/
  [NT.reg],  /- 388 -/
  [NT.reg],  /- 389 -/
  [],  /- 390 -/
  [NT.reg],  /- 391 -/
  [NT.reg],  /- 392 -/
  [NT.reg],  /- 393 -/
  [NT.reg],  /- 394 -/
  [NT.reg],  /- 395 -/
  [NT.reg],  /- 396 -/
  [NT.reg],  /- 397 -/
  [NT.reg],  /- 398 -/
  [NT.reg]  /- 399 -/
]

/-- The `_decode_*` arrays mapping per-nonterminal rule indices to
external rule numbers. -/
def decode_stmt : List Nat := [0,24,25,26,27,28,29,30,31,60,61,62,63,64,73,74,75,76,77,78,79,80,87,88,89,90,91,92,278,279,280,281,282,283,284,285,286,287,288,289,290,291,292,293,294,295,296,297,298,299,300,301,302,303,304,305,306,307,308,309,310,311,312,313,314,315,316,317,318,319,320,321,322,323,324,325,326,327,328,329,330,331,332,333,334,335,336,337,338,339,340,341,342,343,344,345,346,347,348,349,350,351,352,353,354,355,356,357,358,359,360,361,362,363,364,365,366,367,368,369,370,371,372,381,382,383,384,385,386,387,388,389,390,399]
def decode_reg : List Nat := [0,1,2,3,4,5,6,7,8,9,10,11,12,13,14,15,16,17,18,19,20,21,22,23,42,43,44,52,53,54,55,56,57,58,59,65,66,67,68,69,70,71,72,81,82,83,84,85,86,93,94,95,96,97,98,99,100,101,102,103,104,105,106,107,108,109,110,111,112,113,114,115,116,117,118,119,120,121,122,123,124,125,126,127,128,129,130,131,132,133,134,135,136,137,139,140,141,142,143,144,145,146,147,148,149,150,151,152,153,154,155,156,157,158,159,160,161,162,163,164,165,166,167,168,169,170,171,172,173,174,175,176,177,178,179,180,181,182,183,184,185,186,187,188,189,190,191,192,193,194,195,196,197,198,199,200,201,202,203,204,205,206,207,208,209,210,211,212,213,214,215,216,217,218,219,220,221,222,223,224,225,226,227,228,229,230,231,232,233,234,235,236,237,238,239,240,241,242,243,244,245,246,247,248,249,250,251,252,253,254,255,256,257,258,259,260,261,262,263,264,265,266,267,268,269,270,271,272,273,274,275,276,277,373,374,375,376,377,378,379,380,391,392,393,394,395,396,397,398]
def decode_con2 : List Nat := [0,34,35,36]
def decode_con1 : List Nat := [0,32,33]
def decode_con4 : List Nat := [0,37,38,39]
def decode_conN : List Nat := [0,40,41]
def decode_addr : List Nat := [0,45,46,51,138]
def decode_faddr : List Nat := [0,47,48,49,50]


/-! ## Rule metadata: _nts, _kids, _rule -/

/-- `_kids` rule lookup: find the case group carrying a rule number. -/
def kidsFind (r : Nat) : Option (List Path) :=
  (kidsGroups.find? fun g => decide (r ∈ g.1)).map (fun g => g.2)

/-- The fatal exit of `_kids` for an unhandled rule number
(`Bad rule number %d`, carrying the rule). -/
inductive KFatal where
  | badRule (r : Nat)
deriving DecidableEq

/-- `_kids(p, eruleno, kids)`: fill `kids[]` with the subtrees at the fixed
paths the rule's case assigns (the C stores whatever pointer sits at each
path, hence `Option`); an unhandled rule number is a fatal error naming
it. -/
def _kids (p : Tree) (eruleno : Nat) : Except KFatal (List (Option Tree)) :=
  match kidsFind eruleno with
  | some ps => Except.ok (ps.map fun q => p.sub q)
  | none => Except.error (KFatal.badRule eruleno)

/-- The arity `_nts[rule]` declares: the length of the nonterminal list
before its 0 terminator. -/
def ntsLen (r : Nat) : Nat := (ntsTable.getD r []).length

/-- `_rule(state, goalnt)`: decode the per-nonterminal rule index into the
external rule number. -/
def _rule (s : LState) : NT → Nat
  | NT.stmt => decode_stmt.getD (s.rule NT.stmt) 0
  | NT.reg => decode_reg.getD (s.rule NT.reg) 0
  | NT.con2 => decode_con2.getD (s.rule NT.con2) 0
  | NT.con1 => decode_con1.getD (s.rule NT.con1) 0
  | NT.con4 => decode_con4.getD (s.rule NT.con4) 0
  | NT.conN => decode_conN.getD (s.rule NT.conN) 0
  | NT.addr => decode_addr.getD (s.rule NT.addr) 0
  | NT.faddr => decode_faddr.getD (s.rule NT.faddr) 0


/-! ## Lemmas about the VREG slot table -/

theorem lookup_slot_lt {reg : Nat} {l : List Nat} :
    ∀ {i}, lookup_slot reg l = some i → i < l.length := by
  induction l with
  | nil => intro i h; simp [lookup_slot] at h
  | cons x xs ih =>
      intro i h
      rw [lookup_slot] at h
      by_cases hx : x = reg
      · rw [if_pos hx] at h
        injection h with h
        subst h
        simp
      · rw [if_neg hx] at h
        rcases hm : lookup_slot reg xs with _ | j
        · rw [hm] at h; simp at h
        · rw [hm] at h
          simp only [Option.map_some'] at h
          injection h with h
          subst h
          have := ih hm
          simp only [List.length_cons]
          omega

theorem lookup_slot_getD {reg : Nat} {l : List Nat} :
    ∀ {i}, lookup_slot reg l = some i → l.getD i 0 = reg := by
  induction l with
  | nil => intro i h; simp [lookup_slot] at h
  | cons x xs ih =>
      intro i h
      rw [lookup_slot] at h
      by_cases hx : x = reg
      · rw [if_pos hx] at h
        injection h with h
        subst h
        simp
        exact hx
      · rw [if_neg hx] at h
        rcases hm : lookup_slot reg xs with _ | j
        · rw [hm] at h; simp at h
        · rw [hm] at h
          simp only [Option.map_some'] at h
          injection h with h
          subst h
          simpa using ih hm

theorem lookup_slot_none_iff {reg : Nat} {l : List Nat} :
    lookup_slot reg l = none ↔ reg ∉ l := by
  induction l with
  | nil => simp [lookup_slot]
  | cons x xs ih =>
      rw [lookup_slot]
      by_cases hx : x = reg
      · simp [hx]
      · rw [if_neg hx, Option.map_eq_none', ih]
        simp only [List.mem_cons, not_or]
        constructor
        · intro h
          exact ⟨fun hr => hx hr.symm, h⟩
        · intro h
          exact h.2

theorem lookup_slot_append_self {reg : Nat} {l : List Nat}
    (h : lookup_slot reg l = none) :
    lookup_slot reg (l ++ [reg]) = some l.length := by
  induction l with
  | nil => simp [lookup_slot]
  | cons x xs ih =>
      rw [lookup_slot] at h
      by_cases hx : x = reg
      · rw [if_pos hx] at h; simp at h
      · rw [if_neg hx, Option.map_eq_none'] at h
        show lookup_slot reg (x :: (xs ++ [reg])) = _
        rw [lookup_slot, if_neg hx, ih h]
        simp

theorem getD_append_len (l : List Nat) (r : Nat) : (l ++ [r]).getD l.length 0 = r := by
  induction l with
  | nil => rfl
  | cons x xs ih =>
      simp only [List.cons_append, List.length_cons, List.getD_cons_succ]
      exact ih

theorem get_vreg_slot_found {s : VRegState} {r i : Nat}
    (h : lookup_slot r s.vreg_symbols = some i) :
    get_vreg_slot s r = (i, s) := by
  simp [get_vreg_slot, h]

theorem get_vreg_slot_alloc {s : VRegState} {r : Nat}
    (h : lookup_slot r s.vreg_symbols = none)
    (hroom : s.vreg_symbols.length < MAX_VREG_SLOTS) :
    get_vreg_slot s r = (s.vreg_symbols.length, ⟨s.vreg_symbols ++ [r]⟩) := by
  simp [get_vreg_slot, h, hroom]

theorem get_vreg_slot_full {s : VRegState} {r : Nat}
    (h : lookup_slot r s.vreg_symbols = none)
    (hfull : ¬ s.vreg_symbols.length < MAX_VREG_SLOTS) :
    get_vreg_slot s r = (0, s) := by
  simp [get_vreg_slot, h, hfull]

/-- C3: within one function, `get_vreg_slot` is stable (a second call with
the same symbol returns the same slot and leaves the table unchanged),
injective on distinct symbols while the table has room, and the table is
reset to empty at every `function` entry. -/
theorem vreg_slot_coherent (s : VRegState) (r r2 : Nat)
    (hroom : ((get_vreg_slot s r).2).vreg_symbols.length < MAX_VREG_SLOTS)
    (hne : r ≠ r2) :
    get_vreg_slot (get_vreg_slot s r).2 r = get_vreg_slot s r ∧
    (get_vreg_slot (get_vreg_slot s r).2 r2).1 ≠ (get_vreg_slot s r).1 ∧
    (∀ f ncalls ps mo body, (function f ncalls ps mo body).vstate = ⟨[]⟩) := by
  refine ⟨?_, ?_, fun _ _ _ _ _ => rfl⟩
  · -- stability
    rcases hl : lookup_slot r s.vreg_symbols with _ | i
    · by_cases hfull : s.vreg_symbols.length < MAX_VREG_SLOTS
      · rw [get_vreg_slot_alloc hl hfull]
        exact get_vreg_slot_found (lookup_slot_append_self hl)
      · rw [get_vreg_slot_full hl hfull, get_vreg_slot_full hl hfull]
    · rw [get_vreg_slot_found hl, get_vreg_slot_found hl]
  · -- injectivity on distinct symbols while the table has room
    rcases hl : lookup_slot r s.vreg_symbols with _ | i
    · by_cases hfull : s.vreg_symbols.length < MAX_VREG_SLOTS
      · rw [get_vreg_slot_alloc hl hfull] at hroom ⊢
        rcases hl2 : lookup_slot r2 (s.vreg_symbols ++ [r]) with _ | j
        · rw [get_vreg_slot_alloc hl2 hroom]
          simp
        · rw [get_vreg_slot_found hl2]
          have hj := lookup_slot_getD hl2
          have hi := getD_append_len s.vreg_symbols r
          intro hij
          replace hij : j = s.vreg_symbols.length := hij
          rw [hij, hi] at hj
          exact hne hj
      · rw [get_vreg_slot_full hl hfull] at hroom
        exact absurd hroom hfull
    · rw [get_vreg_slot_found hl] at hroom ⊢
      rcases hl2 : lookup_slot r2 s.vreg_symbols with _ | j
      · rw [get_vreg_slot_alloc hl2 hroom]
        have := lookup_slot_lt hl
        simp
        omega
      · rw [get_vreg_slot_found hl2]
        have hj := lookup_slot_getD hl2
        have hi := lookup_slot_getD hl
        intro hij
        replace hij : j = i := hij
        rw [hij, hi] at hj
        exact hne hj

/-- Witness for vreg_slot_coherent at a concrete state. -/
theorem vreg_slot_coherent_witness :
    get_vreg_slot (get_vreg_slot ⟨[5, 7]⟩ 7).2 7 = get_vreg_slot ⟨[5, 7]⟩ 7 ∧
    (get_vreg_slot (get_vreg_slot ⟨[5, 7]⟩ 7).2 9).1 ≠ (get_vreg_slot ⟨[5, 7]⟩ 7).1 ∧
    (∀ f ncalls ps mo body, (function f ncalls ps mo body).vstate = ⟨[]⟩) :=
  vreg_slot_coherent ⟨[5, 7]⟩ 7 9 (by decide) (by decide)

/-- C4: a lookup of an unseen symbol in a full table returns slot 0 and
leaves the table (symbols and counter) untouched, with no diagnostic. -/
theorem vreg_slot_full_fallback (s : VRegState) (r : Nat)
    (hfull : s.vreg_symbols.length = MAX_VREG_SLOTS)
    (hnot : r ∉ s.vreg_symbols) :
    get_vreg_slot s r = (0, s) :=
  get_vreg_slot_full (lookup_slot_none_iff.mpr hnot) (by omega)

/-- Witness for vreg_slot_full_fallback at a concrete full table. -/
theorem vreg_slot_full_fallback_witness :
    get_vreg_slot ⟨List.range 32⟩ 99 = (0, ⟨List.range 32⟩) :=
  vreg_slot_full_fallback ⟨List.range 32⟩ 99 (by decide) (by decide)

/-! ## Prologue and epilogue callee-save -/

/-- C2: a function with no call sites emits no callee-save pushes and no
callee-restore pops; one with at least one call site pushes exactly the
four slots _vreg0.._vreg3 ascending in the prologue and pops them in
reverse in the epilogue. -/
theorem callee_save_mirrored (f : String) (ncalls : Nat) :
    savePushes (prologue f ncalls) = (if ncalls = 0 then [] else [0, 1, 2, 3]) ∧
    restorePops (epilogue ncalls) = (if ncalls = 0 then [] else [3, 2, 1, 0]) ∧
    restorePops (prologue f ncalls) = [] ∧
    savePushes (epilogue ncalls) = [] := by
  rcases Nat.eq_zero_or_pos ncalls with h | h
  · subst h
    refine ⟨?_, ?_, ?_, ?_⟩ <;>
      simp [prologue, epilogue, save_vregs, savePushes, restorePops]
  · have h0 : ncalls ≠ 0 := Nat.pos_iff_ne_zero.mp h
    refine ⟨?_, ?_, ?_, ?_⟩ <;>
      simp [prologue, epilogue, save_vregs, savePushes, restorePops, h, h0,
        CALLEE_SAVE_VREGS, List.filterMap_cons, List.range_succ]

/-! ## Frame offsets -/

theorem roundup_ge (x : Nat) : x ≤ roundup x 2 := by
  rw [roundup]
  omega

theorem roundup_pos {x : Nat} (h : 1 ≤ x) : 0 < roundup x 2 := by
  rw [roundup]
  omega

theorem roundup_two_dvd (x : Nat) : 2 ∣ roundup x 2 :=
  ⟨(x + 2 - 1) / 2, by rw [roundup, Nat.mul_comm]⟩

theorem paramOffsetsFrom_length (off : Nat) (sizes : List Nat) :
    (paramOffsetsFrom off sizes).length = sizes.length := by
  induction sizes generalizing off with
  | nil => rfl
  | cons sz rest ih => simp [paramOffsetsFrom, ih]

theorem paramOffsetsFrom_head (off sz : Nat) (rest : List Nat) :
    paramOffsetsFrom off (sz :: rest) =
      off :: paramOffsetsFrom (off + roundup sz 2) rest := rfl

theorem paramOffsetsFrom_getD_succ (sizes : List Nat) :
    ∀ (off i : Nat), i + 1 < sizes.length →
      (paramOffsetsFrom off sizes).getD (i + 1) 0 =
        (paramOffsetsFrom off sizes).getD i 0 + roundup (sizes.getD i 0) 2 := by
  induction sizes with
  | nil => intro off i h; simp at h
  | cons sz rest ih =>
      intro off i h
      match i with
      | 0 =>
          rw [paramOffsetsFrom_head]
          rcases rest with _ | ⟨sz2, rest2⟩
          · simp at h
          · rw [paramOffsetsFrom_head]
            simp
      | Nat.succ i' =>
          rw [paramOffsetsFrom_head]
          simp only [List.getD_cons_succ, List.getD_cons_succ]
          exact ih _ i' (by simpa using h)

theorem paramOffsetsFrom_chain (sizes : List Nat) (hsz : ∀ x ∈ sizes, 1 ≤ x) :
    ∀ off : Nat, (paramOffsetsFrom off sizes).Chain' (· < ·) := by
  induction sizes with
  | nil => intro off; simp [paramOffsetsFrom]
  | cons sz rest ih =>
      intro off
      rw [paramOffsetsFrom_head]
      have hrest := ih (fun x hx => hsz x (List.mem_cons_of_mem _ hx))
      apply List.chain'_cons'.mpr
      refine ⟨?_, hrest _⟩
      intro y hy
      rcases rest with _ | ⟨sz2, rest2⟩
      · simp [paramOffsetsFrom] at hy
      · rw [paramOffsetsFrom_head] at hy
        simp at hy
        have h1 : 0 < roundup sz 2 := roundup_pos (hsz sz (by simp))
        omega

theorem localOffsets_facts (locals : List (Nat × Nat))
    (hloc : ∀ la ∈ locals, 1 ≤ la.1 ∧ la.2 ≤ 2) :
    ∀ off : Nat,
      (localOffsets off locals).Chain' (· > ·) ∧
      ∀ x ∈ localOffsets off locals, x < -(off : Int) ∧ x < 0 ∧ (2 : Int) ∣ x := by
  induction locals with
  | nil => intro off; simp [localOffsets]
  | cons la rest ih =>
      intro off
      obtain ⟨sz, al⟩ := la
      have hla := hloc (sz, al) (by simp)
      have hdiv : (if al < 2 then 2 else al) = 2 := by
        rcases Nat.lt_or_ge al 2 with h | h
        · simp [h]
        · have : al = 2 := by omega
          simp [this]
      have hone : localAlloc off sz al = (roundup (off + sz) 2, -(roundup (off + sz) 2 : Int)) := by
        rw [localAlloc, hdiv]
      have hstep : localOffsets off ((sz, al) :: rest) =
          -(roundup (off + sz) 2 : Int) :: localOffsets (roundup (off + sz) 2) rest := by
        rw [localOffsets, hone]
      have hrest := ih (fun x hx => hloc x (List.mem_cons_of_mem _ hx)) (roundup (off + sz) 2)
      have hlt : off < roundup (off + sz) 2 := by
        have := roundup_ge (off + sz)
        omega
      constructor
      · rw [hstep]
        apply List.chain'_cons'.mpr
        refine ⟨?_, hrest.1⟩
        intro y hy
        have hymem : y ∈ localOffsets (roundup (off + sz) 2) rest :=
          List.mem_of_mem_head? hy
        have := (hrest.2 y hymem).1
        omega
      · rw [hstep]
        intro x hx
        rcases List.mem_cons.mp hx with h | h
        · subst h
          have h2 : 2 ∣ roundup (off + sz) 2 := roundup_two_dvd _
          refine ⟨by omega, by omega, ?_⟩
          exact dvd_neg.mpr (Int.natCast_dvd_natCast.mpr h2)
        · have := hrest.2 x h
          exact ⟨by omega, this.2.1, this.2.2⟩

/-- C8: parameters get strictly increasing offsets starting at
`4 + 2 * save_vregs` (4 with no calls, 12 with calls), each advancing by
the previous size rounded up to 2; locals get strictly decreasing negative
offsets below the frame pointer, each a multiple of 2 (every alignment this
target declares is at most 2). -/
theorem frame_offsets (ncalls : Nat) (sizes : List Nat) (locals : List (Nat × Nat))
    (hsz : ∀ x ∈ sizes, 1 ≤ x) (hloc : ∀ la ∈ locals, 1 ≤ la.1 ∧ la.2 ≤ 2) :
    (4 + save_vregs ncalls * 2 = if ncalls = 0 then 4 else 12) ∧
    (paramOffsets ncalls sizes).length = sizes.length ∧
    (sizes ≠ [] → (paramOffsets ncalls sizes).getD 0 0 = 4 + save_vregs ncalls * 2) ∧
    (∀ i, i + 1 < sizes.length →
      (paramOffsets ncalls sizes).getD (i + 1) 0 =
        (paramOffsets ncalls sizes).getD i 0 + roundup (sizes.getD i 0) 2) ∧
    (paramOffsets ncalls sizes).Chain' (· < ·) ∧
    (localOffsets 0 locals).Chain' (· > ·) ∧
    (∀ x ∈ localOffsets 0 locals, x < 0 ∧ (2 : Int) ∣ x) := by
  refine ⟨?_, paramOffsetsFrom_length _ _, ?_,
    fun i h => paramOffsetsFrom_getD_succ sizes _ i h,
    paramOffsetsFrom_chain sizes hsz _, (localOffsets_facts locals hloc 0).1,
    fun x hx => ⟨((localOffsets_facts locals hloc 0).2 x hx).2.1,
      ((localOffsets_facts locals hloc 0).2 x hx).2.2⟩⟩
  · rcases Nat.eq_zero_or_pos ncalls with h | h
    · simp [h, save_vregs]
    · have h0 : ncalls ≠ 0 := Nat.pos_iff_ne_zero.mp h
      simp [save_vregs, h, h0, CALLEE_SAVE_VREGS]
  · intro hne
    rcases sizes with _ | ⟨sz, rest⟩
    · exact absurd rfl hne
    · rw [paramOffsets, paramOffsetsFrom_head]
      rfl

/-- Witness for frame_offsets at concrete parameter and local lists. -/
theorem frame_offsets_witness :
    (4 + save_vregs 2 * 2 = if 2 = 0 then 4 else 12) ∧
    (paramOffsets 2 [2, 1, 4]).length = [2, 1, 4].length ∧
    ([2, 1, 4] ≠ [] → (paramOffsets 2 [2, 1, 4]).getD 0 0 = 4 + save_vregs 2 * 2) ∧
    (∀ i, i + 1 < [2, 1, 4].length →
      (paramOffsets 2 [2, 1, 4]).getD (i + 1) 0 =
        (paramOffsets 2 [2, 1, 4]).getD i 0 + roundup ([2, 1, 4].getD i 0) 2) ∧
    (paramOffsets 2 [2, 1, 4]).Chain' (· < ·) ∧
    (localOffsets 0 [(2, 2), (1, 1), (4, 2)]).Chain' (· > ·) ∧
    (∀ x ∈ localOffsets 0 [(2, 2), (1, 1), (4, 2)], x < 0 ∧ (2 : Int) ∣ x) :=
  frame_offsets 2 [2, 1, 4] [(2, 2), (1, 1), (4, 2)] (by decide) (by decide)

/-! ## Operand arity: _kids against _nts -/

/-- Decidable core of the arity check: every rule number 1..399 has a
`_kids` case whose assignment count equals the arity `_nts` declares. -/
def kidsArityOK : Bool :=
  (List.range 400).all fun r =>
    (r == 0) || ((kidsFind r).map List.length == some (ntsLen r))

set_option maxRecDepth 100000 in
set_option maxHeartbeats 4000000 in
theorem kidsArityOK_true : kidsArityOK = true := by decide

/-- Every case label of the `_kids` switch is below 400. -/
def kidsBound : Bool := kidsGroups.all fun g => g.1.all (fun r => decide (r < 400))

set_option maxRecDepth 100000 in
set_option maxHeartbeats 4000000 in
theorem kidsBound_true : kidsBound = true := by decide

theorem kidsFind_none_of_ge {r : Nat} (h : 400 ≤ r) : kidsFind r = none := by
  rw [kidsFind, Option.map_eq_none', List.find?_eq_none]
  intro g hg
  simp only [decide_eq_true_eq]
  intro hmem
  have hb := kidsBound_true
  rw [kidsBound, List.all_eq_true] at hb
  have hb2 := hb g hg
  rw [List.all_eq_true] at hb2
  have := hb2 r hmem
  simp only [decide_eq_true_eq] at this
  omega

/-- C5: for every rule number from 1 to 399, `_kids` assigns exactly as
many operand subtrees as the rule's `_nts` list declares, for every tree;
for every rule number outside 1..399 it aborts with a fatal error naming
the rule number. -/
theorem kids_arity (r : Nat) (p : Tree) (hlo : 1 ≤ r) (hhi : r ≤ 399) :
    (∃ l, _kids p r = Except.ok l ∧ l.length = ntsLen r) ∧
    (∀ r2 p2, r2 = 0 ∨ 400 ≤ r2 →
      _kids p2 r2 = Except.error (KFatal.badRule r2)) := by
  constructor
  · have hall := kidsArityOK_true
    rw [kidsArityOK, List.all_eq_true] at hall
    have hr := hall r (List.mem_range.mpr (by omega))
    have hr0 : (r == 0) = false := by
      simp only [beq_eq_false_iff_ne, ne_eq]
      omega
    rw [hr0, Bool.false_or, beq_iff_eq, Option.map_eq_some'] at hr
    obtain ⟨ps, hps, hlen⟩ := hr
    refine ⟨ps.map fun q => p.sub q, ?_, ?_⟩
    · rw [_kids, hps]
    · rw [List.length_map, hlen]
  · intro r2 p2 h
    have hnone : kidsFind r2 = none := by
      rcases h with h | h
      · subst h; rfl
      · exact kidsFind_none_of_ge h
    rw [_kids, hnone]

/-- Witness for kids_arity at a concrete rule. -/
theorem kids_arity_witness :
    (∃ l, _kids (Tree.node0 600 0) 87 = Except.ok l ∧ l.length = ntsLen 87) ∧
    (∀ r2 p2, r2 = 0 ∨ 400 ≤ r2 →
      _kids p2 r2 = Except.error (KFatal.badRule r2)) :=
  kids_arity 87 (Tree.node0 600 0) (by decide) (by decide)

/-! ## Unmatched operators -/

/-- C6 counterexample: a VREGP node (operator 711) has no applicable rule
(its switch arm is empty), yet labeling completes without any fatal error,
leaving every nonterminal at infinite cost.  Only operators without a
switch arm abort. -/
theorem unmatched_op_counterexample :
    attemptsOf (Tree.node0 711 0) = [] ∧
    labelOk (Tree.node0 711 0) = true ∧
    (∀ n : NT, finalCost (Tree.node0 711 0) n = LBURG_MAX) := by
  refine ⟨rfl, rfl, ?_⟩
  intro n
  cases n <;> rfl

/-- C6 (amended): labeling aborts, with a fatal error carrying the
operator, exactly for operators with no arm in the `_label` switch; a
handled operator with an empty arm (ARGB, ASGNB, INDIRB, CALLB, VREGP) has
no applicable rule either but completes silently with every cost
infinite. -/
theorem unmatched_op_fatal (op : Nat) (v : Int) (hop : opFind op = none) :
    labelTree (Tree.node0 op v) = Except.error (LFatal.badTerminal op) ∧
    (∀ k0, labelTree (Tree.node1 op v k0) = Except.error (LFatal.badTerminal op)) ∧
    (∀ k0 k1, labelTree (Tree.node2 op v k0 k1) = Except.error (LFatal.badTerminal op)) ∧
    labelOk (Tree.node0 711 0) = true ∧
    (∀ n : NT, finalCost (Tree.node0 711 0) n = LBURG_MAX) := by
  refine ⟨?_, ?_, ?_, rfl, fun n => by cases n <;> rfl⟩
  · rw [labelTree, hop]
  · intro k0; rw [labelTree, hop]
  · intro k0 k1; rw [labelTree, hop]

/-- Witness for unmatched_op_fatal at a concrete unknown operator. -/
theorem unmatched_op_fatal_witness :
    labelTree (Tree.node0 9999 0) = Except.error (LFatal.badTerminal 9999) ∧
    (∀ k0, labelTree (Tree.node1 9999 0 k0) = Except.error (LFatal.badTerminal 9999)) ∧
    (∀ k0 k1, labelTree (Tree.node2 9999 0 k0 k1) =
      Except.error (LFatal.badTerminal 9999)) ∧
    labelOk (Tree.node0 711 0) = true ∧
    (∀ n : NT, finalCost (Tree.node0 711 0) n = LBURG_MAX) :=
  unmatched_op_fatal 9999 0 (by decide)

/-- The state used by the tie-break witness: stmt already achieved at cost
0 by rule 7, reg at 3, addr at 2. -/
def tieState : LState :=
  ((initState.upd NT.stmt 0 7).upd NT.reg 3 9).upd NT.addr 2 11

/-! ## Tie-breaking -/

theorem closure_rule_self (n : NT) (s : LState) (c : Nat) :
    (closure n s c).rule n = s.rule n := by
  cases n <;>
    simp only [closure, closure_reg, closure_con2, closure_con1, closure_con4,
      closure_faddr] <;>
    split <;>
    simp [LState.upd, closure_reg] <;>
    split <;>
    simp [LState.upd]

/-- C9: rule evaluation order is the tie-break.  A candidate that does not
strictly beat the recorded cost leaves the state (cost and rule) untouched,
so a later rule with an equal total never replaces the recorded one; a
strict improvement records this site's own rule; each closure chain rule
behaves the same way. -/
theorem tie_keeps_first_rule (t : Tree) (l0 l1 : Option LTree) (s : LState)
    (A : Attempt) (c : Nat)
    (hge : s.cost A.target ≤ candCost t l0 l1 A)
    (hr : s.cost NT.stmt ≤ c) (hc2 : s.cost NT.reg ≤ c + 1)
    (hc4 : s.cost NT.reg ≤ c + 3) (ha : s.cost NT.addr ≤ c) :
    tryAttempt t l0 l1 s A = s ∧
    closure_reg s c = s ∧ closure_con2 s c = s ∧ closure_con1 s c = s ∧
    closure_con4 s c = s ∧ closure_faddr s c = s ∧
    (∀ s2 : LState, candCost t l0 l1 A < s2.cost A.target →
      guardsHold t A.guards = true →
      (tryAttempt t l0 l1 s2 A).rule A.target = A.rule) := by
  refine ⟨?_, ?_, ?_, ?_, ?_, ?_, ?_⟩
  · rw [tryAttempt]
    by_cases hg : guardsHold t A.guards
    · rw [if_pos hg, if_neg (by omega)]
    · rw [if_neg hg]
  · rw [closure_reg, if_neg (by omega)]
  · rw [closure_con2, if_neg (by omega)]
  · rw [closure_con1, if_neg (by omega)]
  · rw [closure_con4, if_neg (by omega)]
  · rw [closure_faddr, if_neg (by omega)]
  · intro s2 hlt hg
    rw [tryAttempt, if_pos hg, if_pos hlt, closure_rule_self]
    simp [LState.upd]

/-- Witness for tie_keeps_first_rule: at a LABELV node whose stmt cost is
already 0 with rule 7 recorded, the zero-cost LABELV rule ties and does not
replace it. -/
theorem tie_keeps_first_rule_witness :
    tryAttempt (Tree.node0 600 0) none none tieState
        (Attempt.mk [] [] (CostBase.const 0) NT.stmt 28) = tieState ∧
    closure_reg tieState 5 = tieState ∧ closure_con2 tieState 5 = tieState ∧
    closure_con1 tieState 5 = tieState ∧ closure_con4 tieState 5 = tieState ∧
    closure_faddr tieState 5 = tieState ∧
    (∀ s2 : LState,
      candCost (Tree.node0 600 0) none none
          (Attempt.mk [] [] (CostBase.const 0) NT.stmt 28) < s2.cost NT.stmt →
      guardsHold (Tree.node0 600 0) [] = true →
      (tryAttempt (Tree.node0 600 0) none none s2
          (Attempt.mk [] [] (CostBase.const 0) NT.stmt 28)).rule NT.stmt = 28) :=
  tie_keeps_first_rule (Tree.node0 600 0) none none tieState
    (Attempt.mk [] [] (CostBase.const 0) NT.stmt 28) 5
    (by decide) (by decide) (by decide) (by decide) (by decide)

/-! ## Labeling over a node arena (shared nodes) -/

/-- A node of an IR graph held in an arena: two parents sharing a child
hold the same child index.  Ordinary trees are arenas in which every index
has one parent. -/
structure DagNode where
  op : Nat
  val : Int
  kids : List Nat
deriving DecidableEq

structure Dag where
  nodes : List DagNode
deriving DecidableEq

/-- The arena-wide labeling state: the `STATE_LABEL` pointer of each node,
plus how many times `_label` allocated a fresh state at the node. -/
structure DagSt where
  state : Nat → Option LState
  allocs : Nat → Nat

/-- The empty labeling state: no node labeled yet. -/
def emptyDagSt : DagSt := ⟨fun _ => none, fun _ => 0⟩

def updState (m : DagSt) (id : Nat) (s : LState) : DagSt :=
  ⟨fun j => if j = id then some s else m.state j, m.allocs⟩

def bumpAlloc (m : DagSt) (id : Nat) : DagSt :=
  ⟨m.state, fun j => if j = id then m.allocs j + 1 else m.allocs j⟩

/-- Follow a LEFT/RIGHT path through the arena from node `id`. -/
def dagSub (d : Dag) : Nat → Path → Option Nat
  | id, [] => some id
  | id, i :: p =>
      match d.nodes.get? id with
      | some nd =>
          match nd.kids.get? i with
          | some c => dagSub d c p
          | none => none
      | none => none

/-- Read a recorded cost through the arena's state table. -/
def readCostDag (d : Dag) (m : DagSt) (id : Nat) (p : Path) (n : NT) : Nat :=
  match dagSub d id p with
  | some j =>
      match m.state j with
      | some st => st.cost n
      | none => LBURG_MAX
  | none => LBURG_MAX

/-- The operator guards of a recording site, read through the arena. -/
def guardsHoldDag (d : Dag) (id : Nat) (gs : List (Path × Nat)) : Bool :=
  gs.all fun g =>
    match dagSub d id g.1 with
    | some j =>
        match d.nodes.get? j with
        | some nd => nd.op == g.2
        | none => false
    | none => false

/-- The cost expression of a recording site, read through the arena. -/
def candCostDag (d : Dag) (m : DagSt) (id : Nat) (nd : DagNode) (A : Attempt) : Nat :=
  (A.summands.map fun pn => readCostDag d m id pn.1 pn.2).sum + baseCost nd.val A.base

/-- One recording site of `_label`, reading other nodes' states through the
arena. -/
def tryAttemptD (d : Dag) (m : DagSt) (id : Nat) (nd : DagNode)
    (s : LState) (A : Attempt) : LState :=
  if guardsHoldDag d id A.guards then
    if candCostDag d m id nd A < s.cost A.target then
      closure A.target (s.upd A.target (candCostDag d m id nd A) A.rule) (candCostDag d m id nd A)
    else s
  else s

/-- The fatal exits of the arena labeler; `outOfFuel` is a modelling
artifact (the C recursion is unbounded), never reached with enough fuel on
an acyclic arena. -/
inductive DFatal where
  | badTerminal (op : Nat)
  | nullTree
  | outOfFuel
deriving DecidableEq

/-- `_label(a)` over the arena.  The `Sum.inl id` form labels one node: it
allocates a fresh state for the node (bumping its allocation count and
resetting its table entry, as `STATE_LABEL(a) = allocate(...)` does before
anything else), labels the children its switch arm labels, then folds the
arm's recording sites and stores the result.  The `Sum.inr (kids, k)` form
labels the first `k` children in order.  Fuel decreases on every call so
that the recursion is structural; the C recursion is unbounded. -/
def runDag (d : Dag) : Nat → Nat ⊕ (List Nat × Nat) → DagSt → Except DFatal DagSt
  | 0, _, _ => Except.error DFatal.outOfFuel
  | fuel + 1, Sum.inl id, m =>
      match d.nodes.get? id with
      | none => Except.error DFatal.nullTree
      | some nd =>
          match opFind nd.op with
          | none => Except.error (DFatal.badTerminal nd.op)
          | some e =>
              match runDag d fuel (Sum.inr (nd.kids, e.arity))
                  (updState (bumpAlloc m id) id initState) with
              | Except.error f => Except.error f
              | Except.ok m2 =>
                  Except.ok (updState m2 id
                    (e.attempts.foldl (tryAttemptD d m2 id nd) initState))
  | _ + 1, Sum.inr (_, 0), m => Except.ok m
  | _ + 1, Sum.inr ([], _ + 1), _ => Except.error DFatal.nullTree
  | fuel + 1, Sum.inr (c :: cs, k + 1), m =>
      match runDag d fuel (Sum.inl c) m with
      | Except.error f => Except.error f
      | Except.ok m2 => runDag d fuel (Sum.inr (cs, k)) m2

/-- Label node `id` of the arena. -/
def labelDag (d : Dag) (fuel id : Nat) (m : DagSt) : Except DFatal DagSt :=
  runDag d fuel (Sum.inl id) m

/-- Whether the arena labeling completes. -/
def dagOk (d : Dag) (fuel id : Nat) (m : DagSt) : Bool :=
  match labelDag d fuel id m with
  | Except.ok _ => true
  | Except.error _ => false

/-- Allocation count of node `j` after labeling node `id` (0 on a fatal). -/
def allocsAfter (d : Dag) (fuel id : Nat) (m : DagSt) (j : Nat) : Nat :=
  match labelDag d fuel id m with
  | Except.ok m2 => m2.allocs j
  | Except.error _ => 0

/-- Recorded state of node `j` after labeling node `id`. -/
def stateAfter (d : Dag) (fuel id : Nat) (m : DagSt) (j : Nat) : Option LState :=
  match labelDag d fuel id m with
  | Except.ok m2 => m2.state j
  | Except.error _ => none

/-- Switch arms that label no children carry no guards and no cost
summands: their recording sites read nothing from other nodes. -/
def leafEntriesOK : Bool :=
  opTableList.all fun e =>
    (e.arity != 0) || e.attempts.all fun a => a.guards.isEmpty && a.summands.isEmpty

theorem leafEntriesOK_true : leafEntriesOK = true := by decide

theorem DagSt.ext' {a b : DagSt} (h1 : ∀ j, a.state j = b.state j)
    (h2 : ∀ j, a.allocs j = b.allocs j) : a = b := by
  obtain ⟨s1, a1⟩ := a
  obtain ⟨s2, a2⟩ := b
  congr 1
  · exact funext h1
  · exact funext h2

theorem updState_updState (m : DagSt) (id : Nat) (s1 s2 : LState) :
    updState (updState m id s1) id s2 = updState m id s2 := by
  refine DagSt.ext' (fun j => ?_) (fun j => rfl)
  by_cases h : j = id <;> simp [updState, h]

theorem opFind_mem {op : Nat} {e : OpEntry} (h : opFind op = some e) :
    e ∈ opTableList :=
  List.mem_of_find?_eq_some h

theorem leaf_entry_empty {op : Nat} {e : OpEntry} (he : opFind op = some e)
    (har : e.arity = 0) : ∀ a ∈ e.attempts, a.guards = [] ∧ a.summands = [] := by
  have hb := leafEntriesOK_true
  rw [leafEntriesOK, List.all_eq_true] at hb
  have h1 := hb e (opFind_mem he)
  rw [har] at h1
  simp only [bne_self_eq_false, Bool.false_or, List.all_eq_true] at h1
  intro a ha
  have h2 := h1 a ha
  rw [Bool.and_eq_true, List.isEmpty_iff, List.isEmpty_iff] at h2
  exact h2

theorem leaf_fold_eq {d : Dag} {m : DagSt} {id : Nat} {nd : DagNode}
    {atts : List Attempt} (h : ∀ a ∈ atts, a.guards = [] ∧ a.summands = []) :
    ∀ s, atts.foldl (tryAttemptD d m id nd) s =
      atts.foldl (tryAttempt (Tree.node0 nd.op nd.val) none none) s := by
  induction atts with
  | nil => intro s; rfl
  | cons a rest ih =>
      intro s
      have ha := h a (List.mem_cons_self a rest)
      have hstep : tryAttemptD d m id nd s a =
          tryAttempt (Tree.node0 nd.op nd.val) none none s a := by
        rw [tryAttemptD, tryAttempt, ha.1]
        have hc : candCostDag d m id nd a =
            candCost (Tree.node0 nd.op nd.val) none none a := by
          rw [candCostDag, candCost, ha.2]
          rfl
        rw [hc]
        rfl
      rw [List.foldl_cons, List.foldl_cons, hstep,
        ih (fun a2 ha2 => h a2 (List.mem_cons_of_mem _ ha2))]

theorem finalState_leaf {op : Nat} {e : OpEntry} (v : Int) (he : opFind op = some e)
    (har : e.arity = 0) :
    finalState (Tree.node0 op v) =
      e.attempts.foldl (tryAttempt (Tree.node0 op v) none none) initState := by
  simp [finalState, finalLT, labelTree, he, har, runAttempts, LTree.st]

theorem runDag_leaf_char {d : Dag} {f j : Nat} {m m2 : DagSt} {nj : DagNode}
    {ej : OpEntry}
    (hj : d.nodes.get? j = some nj) (hej : opFind nj.op = some ej)
    (harj : ej.arity = 0)
    (hok : runDag d f (Sum.inl j) m = Except.ok m2) :
    m2 = updState (bumpAlloc m j) j (finalState (Tree.node0 nj.op nj.val)) := by
  rcases f with _ | f
  · simp [runDag] at hok
  simp only [runDag, hj, hej] at hok
  rcases f with _ | f
  · simp only [runDag] at hok
    exact absurd hok (by simp)
  rw [harj] at hok
  have hstep : runDag d (f + 1) (Sum.inr (nj.kids, 0))
      (updState (bumpAlloc m j) j initState) =
      Except.ok (updState (bumpAlloc m j) j initState) := by
    rcases nj.kids with _ | ⟨c, cs⟩ <;> rfl
  rw [hstep] at hok
  simp only [Except.ok.injEq] at hok
  rw [← hok, updState_updState,
    leaf_fold_eq (leaf_entry_empty hej harj) initState,
    finalState_leaf _ hej harj]

/-- The two-node arena ADDI2(n1, n1): node 1 (a CNSTI2 constant 5) is
shared by both operand slots of node 0. -/
def sharedDag : Dag := ⟨[⟨2357, 0, [1, 1]⟩, ⟨2069, 5, []⟩]⟩

/-- C7 counterexample: labeling the shared arena completes, but the shared
node is allocated a fresh state and labeled twice, once per reference, not
exactly once. -/
theorem shared_node_counterexample :
    dagOk sharedDag 6 0 emptyDagSt = true ∧
    allocsAfter sharedDag 6 0 emptyDagSt 1 = 2 :=
  ⟨rfl, rfl⟩

/-- C7 (amended): `_label` labels a shared node once per reference, not
once in total: a leaf referenced by both operand slots of one binary node
is allocated and labeled exactly twice, each visit recomputing the state
(to the very value the tree labeler computes for that leaf) rather than
reusing the already-recorded state. -/
theorem shared_node_relabeled (d : Dag) (fuel id j : Nat) (m : DagSt)
    (nd nj : DagNode) (e : OpEntry) (ej : OpEntry)
    (hid : d.nodes.get? id = some nd) (hkids : nd.kids = [j, j])
    (he : opFind nd.op = some e) (harI : e.arity = 2)
    (hne : j ≠ id)
    (hj : d.nodes.get? j = some nj) (hej : opFind nj.op = some ej)
    (harJ : ej.arity = 0)
    (hok : dagOk d fuel id m = true) :
    allocsAfter d fuel id m j = m.allocs j + 2 ∧
    stateAfter d fuel id m j = some (finalState (Tree.node0 nj.op nj.val)) := by
  rw [dagOk] at hok
  cases hrun : labelDag d fuel id m with
  | error f => rw [hrun] at hok; simp at hok
  | ok mfin =>
  rw [allocsAfter, stateAfter, hrun]
  show mfin.allocs j = m.allocs j + 2 ∧
    mfin.state j = some (finalState (Tree.node0 nj.op nj.val))
  rw [labelDag] at hrun
  rcases fuel with _ | fuel
  · simp [runDag] at hrun
  simp only [runDag, hid, he, hkids, harI] at hrun
  rcases fuel with _ | fuel
  · simp [runDag] at hrun
  rw [runDag] at hrun
  cases h1 : runDag d fuel (Sum.inl j) (updState (bumpAlloc m id) id initState) with
  | error f => rw [h1] at hrun; simp at hrun
  | ok mj1 =>
  rw [h1] at hrun
  dsimp only at hrun
  have hmj1 := runDag_leaf_char hj hej harJ h1
  rcases fuel with _ | fuel
  · simp [runDag] at hrun
  rw [runDag] at hrun
  cases h2 : runDag d fuel (Sum.inl j) mj1 with
  | error f => rw [h2] at hrun; simp at hrun
  | ok mj2 =>
  rw [h2] at hrun
  dsimp only at hrun
  have hmj2 := runDag_leaf_char hj hej harJ h2
  rcases fuel with _ | fuel
  · simp [runDag] at hrun
  have hstep : runDag d (fuel + 1) (Sum.inr (([] : List Nat), 0)) mj2 =
      Except.ok mj2 := rfl
  rw [hstep] at hrun
  simp only [Except.ok.injEq] at hrun
  rw [← hrun, hmj2, hmj1]
  constructor
  · simp [updState, bumpAlloc, hne]
  · simp [updState, bumpAlloc, hne]

/-- Witness for shared_node_relabeled at the concrete shared arena. -/
theorem shared_node_relabeled_witness :
    allocsAfter sharedDag 6 0 emptyDagSt 1 = emptyDagSt.allocs 1 + 2 ∧
    stateAfter sharedDag 6 0 emptyDagSt 1 =
      some (finalState (Tree.node0 2069 5)) :=
  shared_node_relabeled sharedDag 6 0 1 emptyDagSt ⟨2357, 0, [1, 1]⟩ ⟨2069, 5, []⟩
    (OpEntry.mk 2357 2 (attemptsOf (Tree.node0 2357 0)))
    (OpEntry.mk 2069 0 (attemptsOf (Tree.node0 2069 5)))
    (by rfl) (by rfl) (by rfl) (by rfl) (by decide) (by rfl) (by rfl) (by rfl)
    (by rfl)

/-! ## Derivations

A derivation of (node, nonterminal, cost) applies either a grammar rule of
the node's operator whose guards match, on top of derivations for its
operand nonterminals at its summand subtrees, or one of the five chain
rules the closure functions implement.  The recorded costs are proved to be
the (LBURG_MAX-capped) minima over all derivations. -/

/-- The chain rules of the closure functions:
(source, target, added cost, recorded target rule index). -/
def chainRules : List (NT × NT × Nat × Nat) :=
  [(NT.reg, NT.stmt, 0, 133), (NT.con2, NT.reg, 1, 25), (NT.con1, NT.reg, 1, 24),
   (NT.con4, NT.reg, 3, 26), (NT.faddr, NT.addr, 0, 3)]

/-- Subtree at a path, with the tree itself as a (never relevant)
default. -/
def Tree.subD (t : Tree) (p : Path) : Tree := (t.sub p).getD t

/-- Path of the i-th operand summand of an attempt. -/
def psum (A : Attempt) (i : Nat) : Path := (A.summands.getD i ([], NT.stmt)).1

/-- Nonterminal of the i-th operand summand of an attempt. -/
def nsum (A : Attempt) (i : Nat) : NT := (A.summands.getD i ([], NT.stmt)).2

inductive Deriv : Tree → NT → Nat → Prop where
  | rule {t : Tree} {A : Attempt} {cs : List Nat}
      (hA : A ∈ attemptsOf t)
      (hg : guardsHold t A.guards = true)
      (hlen : cs.length = A.summands.length)
      (hex : ∀ i, i < A.summands.length → (t.sub (psum A i)).isSome = true)
      (hrec : ∀ i, i < A.summands.length →
        Deriv (t.subD (psum A i)) (nsum A i) (cs.getD i 0)) :
      Deriv t A.target (cs.sum + baseCost t.val A.base)
  | chain {t : Tree} {f g : NT} {k r c : Nat}
      (hc : (f, g, k, r) ∈ chainRules) (hd : Deriv t f c) : Deriv t g (c + k)

/-! ## State update lemmas -/

theorem upd_cost (s : LState) (n : NT) (c r : Nat) (m : NT) :
    (s.upd n c r).cost m = if m = n then c else s.cost m := rfl

theorem upd_rule (s : LState) (n : NT) (c r : Nat) (m : NT) :
    (s.upd n c r).rule m = if m = n then r else s.rule m := rfl

theorem initState_cost (n : NT) : initState.cost n = LBURG_MAX := rfl

/-! ## Monotonicity: no update ever raises a recorded cost -/

theorem closure_reg_cost_le (s : LState) (c : Nat) (m : NT) :
    (closure_reg s c).cost m ≤ s.cost m := by
  rw [closure_reg]
  by_cases h : c + 0 < s.cost NT.stmt
  · rw [if_pos h, upd_cost]
    by_cases hm : m = NT.stmt
    · subst hm; rw [if_pos rfl]; omega
    · rw [if_neg hm]
  · rw [if_neg h]

theorem closure_con2_cost_le (s : LState) (c : Nat) (m : NT) :
    (closure_con2 s c).cost m ≤ s.cost m := by
  rw [closure_con2]
  by_cases h : c + 1 < s.cost NT.reg
  · rw [if_pos h]
    refine le_trans (closure_reg_cost_le _ _ _) ?_
    rw [upd_cost]
    by_cases hm : m = NT.reg
    · subst hm; rw [if_pos rfl]; omega
    · rw [if_neg hm]
  · rw [if_neg h]

theorem closure_con1_cost_le (s : LState) (c : Nat) (m : NT) :
    (closure_con1 s c).cost m ≤ s.cost m := by
  rw [closure_con1]
  by_cases h : c + 1 < s.cost NT.reg
  · rw [if_pos h]
    refine le_trans (closure_reg_cost_le _ _ _) ?_
    rw [upd_cost]
    by_cases hm : m = NT.reg
    · subst hm; rw [if_pos rfl]; omega
    · rw [if_neg hm]
  · rw [if_neg h]

theorem closure_con4_cost_le (s : LState) (c : Nat) (m : NT) :
    (closure_con4 s c).cost m ≤ s.cost m := by
  rw [closure_con4]
  by_cases h : c + 3 < s.cost NT.reg
  · rw [if_pos h]
    refine le_trans (closure_reg_cost_le _ _ _) ?_
    rw [upd_cost]
    by_cases hm : m = NT.reg
    · subst hm; rw [if_pos rfl]; omega
    · rw [if_neg hm]
  · rw [if_neg h]

theorem closure_faddr_cost_le (s : LState) (c : Nat) (m : NT) :
    (closure_faddr s c).cost m ≤ s.cost m := by
  rw [closure_faddr]
  by_cases h : c + 0 < s.cost NT.addr
  · rw [if_pos h, upd_cost]
    by_cases hm : m = NT.addr
    · subst hm; rw [if_pos rfl]; omega
    · rw [if_neg hm]
  · rw [if_neg h]

theorem closure_cost_le (n : NT) (s : LState) (c : Nat) (m : NT) :
    (closure n s c).cost m ≤ s.cost m := by
  cases n
  case stmt => exact le_refl _
  case reg => exact closure_reg_cost_le s c m
  case con2 => exact closure_con2_cost_le s c m
  case con1 => exact closure_con1_cost_le s c m
  case con4 => exact closure_con4_cost_le s c m
  case conN => exact le_refl _
  case addr => exact le_refl _
  case faddr => exact closure_faddr_cost_le s c m

theorem tryAttempt_cost_le (t : Tree) (l0 l1 : Option LTree) (s : LState)
    (A : Attempt) (m : NT) : (tryAttempt t l0 l1 s A).cost m ≤ s.cost m := by
  rw [tryAttempt]
  by_cases hg : guardsHold t A.guards
  · rw [if_pos hg]
    by_cases hlt : candCost t l0 l1 A < s.cost A.target
    · rw [if_pos hlt]
      refine le_trans (closure_cost_le _ _ _ _) ?_
      rw [upd_cost]
      by_cases hm : m = A.target
      · subst hm; rw [if_pos rfl]; omega
      · rw [if_neg hm]
    · rw [if_neg hlt]
  · rw [if_neg hg]

theorem fold_cost_le (t : Tree) (l0 l1 : Option LTree) (atts : List Attempt) :
    ∀ (s : LState) (m : NT),
      (atts.foldl (tryAttempt t l0 l1) s).cost m ≤ s.cost m := by
  induction atts with
  | nil => intro s m; exact le_refl _
  | cons a rest ih =>
      intro s m
      rw [List.foldl_cons]
      exact le_trans (ih _ m) (tryAttempt_cost_le t l0 l1 s a m)

/-! ## Closure-closedness of states -/

/-- A state is closed under the chain rules: no chain application can still
improve it. -/
def Closed (s : LState) : Prop :=
  s.cost NT.stmt ≤ s.cost NT.reg + 0 ∧
  s.cost NT.reg ≤ s.cost NT.con2 + 1 ∧
  s.cost NT.reg ≤ s.cost NT.con1 + 1 ∧
  s.cost NT.reg ≤ s.cost NT.con4 + 3 ∧
  s.cost NT.addr ≤ s.cost NT.faddr + 0

theorem initState_closed : Closed initState := by
  refine ⟨?_, ?_, ?_, ?_, ?_⟩ <;> decide

theorem record_closed (s : LState) (n : NT) (c r : Nat)
    (hlt : c < s.cost n) (hcl : Closed s) :
    Closed (closure n (s.upd n c r) c) := by
  obtain ⟨h1, h2, h3, h4, h5⟩ := hcl
  cases n <;>
    [skip; skip; skip; skip; skip; skip; skip; skip] <;>
  · refine ⟨?_, ?_, ?_, ?_, ?_⟩ <;>
      simp only [closure, closure_reg, closure_con2, closure_con1, closure_con4,
        closure_faddr] <;>
      (try split_ifs) <;>
      simp_all [upd_cost] <;>
      omega

theorem tryAttempt_closed (t : Tree) (l0 l1 : Option LTree) (s : LState)
    (A : Attempt) (hcl : Closed s) : Closed (tryAttempt t l0 l1 s A) := by
  rw [tryAttempt]
  by_cases hg : guardsHold t A.guards
  · rw [if_pos hg]
    by_cases hlt : candCost t l0 l1 A < s.cost A.target
    · rw [if_pos hlt]
      exact record_closed s A.target _ A.rule hlt hcl
    · rw [if_neg hlt]; exact hcl
  · rw [if_neg hg]; exact hcl

theorem fold_closed (t : Tree) (l0 l1 : Option LTree) (atts : List Attempt) :
    ∀ s : LState, Closed s → Closed (atts.foldl (tryAttempt t l0 l1) s) := by
  induction atts with
  | nil => intro s h; exact h
  | cons a rest ih =>
      intro s h
      rw [List.foldl_cons]
      exact ih _ (tryAttempt_closed t l0 l1 s a h)

/-! ## Table validity: every cost summand reads a node the guards prove
labeled -/

/-- One path step is within the labeled arity: from the root if the prefix
is empty, else from the operator a guard pins at the prefix. -/
def stepOK (op : Nat) (gs : List (Path × Nat)) (pre : Path) (i : Nat) : Bool :=
  match pre with
  | [] => decide (i < labelArity op)
  | _ => gs.any fun g => g.1 == pre && decide (i < labelArity g.2)

/-- All steps of a (depth ≤ 3) summand path are within labeled arity. -/
def pathOK (op : Nat) (gs : List (Path × Nat)) : Path → Bool
  | [i] => stepOK op gs [] i
  | [i, j] => stepOK op gs [] i && stepOK op gs [i] j
  | [i, j, k] => stepOK op gs [] i && stepOK op gs [i] j && stepOK op gs [i, j] k
  | _ => false

def tableOK : Bool :=
  opTableList.all fun e => e.attempts.all fun a =>
    a.summands.all fun pn => pathOK e.op a.guards pn.1

set_option maxRecDepth 100000 in
set_option maxHeartbeats 4000000 in
theorem tableOK_true : tableOK = true := by decide

/-! ## Structure of successful labelings -/

def LTree.kid0 : LTree → Option LTree
  | LTree.node0 _ => none
  | LTree.node1 _ k => some k
  | LTree.node2 _ k _ => some k

def LTree.kid1 : LTree → Option LTree
  | LTree.node2 _ _ k => some k
  | _ => none

theorem LTree.sub_zero (lt : LTree) : lt.sub [0] = lt.kid0 := by
  cases lt <;> simp [LTree.sub, LTree.kid0]

theorem LTree.sub_one (lt : LTree) : lt.sub [1] = lt.kid1 := by
  cases lt <;> simp [LTree.sub, LTree.kid1]

theorem Tree.sub_append : ∀ (p q : Path) (t : Tree),
    t.sub (p ++ q) = (t.sub p).bind (fun u => u.sub q) := by
  intro p
  induction p with
  | nil => intro q t; cases t <;> simp [Tree.sub]
  | cons i p' ih =>
      intro q t
      match t, i with
      | Tree.node0 _ _, _ => simp [Tree.sub]
      | Tree.node1 _ _ k0, 0 => simp only [Tree.sub, List.cons_append]; exact ih q k0
      | Tree.node1 _ _ _, 1 => simp [Tree.sub]
      | Tree.node1 _ _ _, Nat.succ (Nat.succ _) => simp [Tree.sub]
      | Tree.node2 _ _ k0 _, 0 => simp only [Tree.sub, List.cons_append]; exact ih q k0
      | Tree.node2 _ _ _ k1, 1 => simp only [Tree.sub, List.cons_append]; exact ih q k1
      | Tree.node2 _ _ _ _, Nat.succ (Nat.succ _) => simp [Tree.sub]

theorem LTree.sub_append' : ∀ (p q : Path) (lt : LTree),
    lt.sub (p ++ q) = (lt.sub p).bind (fun l => l.sub q) := by
  intro p
  induction p with
  | nil => intro q lt; cases lt <;> simp [LTree.sub]
  | cons i p' ih =>
      intro q lt
      match lt, i with
      | LTree.node0 _, _ => simp [LTree.sub]
      | LTree.node1 _ k0, 0 => simp only [LTree.sub, List.cons_append]; exact ih q k0
      | LTree.node1 _ _, 1 => simp [LTree.sub]
      | LTree.node1 _ _, Nat.succ (Nat.succ _) => simp [LTree.sub]
      | LTree.node2 _ k0 _, 0 => simp only [LTree.sub, List.cons_append]; exact ih q k0
      | LTree.node2 _ _ k1, 1 => simp only [LTree.sub, List.cons_append]; exact ih q k1
      | LTree.node2 _ _ _, Nat.succ (Nat.succ _) => simp [LTree.sub]

theorem tree_sub_size : ∀ (p : Path) (t u : Tree), t.sub p = some u →
    p = [] ∨ sizeOf u < sizeOf t := by
  intro p
  induction p with
  | nil => intro t u h; exact Or.inl rfl
  | cons i p' ih =>
      intro t u h
      right
      have step : ∀ (k : Tree), Tree.sub k p' = some u → sizeOf u ≤ sizeOf k := by
        intro k hk
        rcases ih k u hk with hnil | hlt
        · subst hnil
          simp [Tree.sub] at hk
          subst hk
          exact le_refl _
        · omega
      match t, i, h with
      | Tree.node1 op v k0, 0, h =>
          simp only [Tree.sub] at h
          have := step k0 h
          have h2 : sizeOf k0 < sizeOf (Tree.node1 op v k0) := by
            simp
            try omega
          omega
      | Tree.node2 op v k0 k1, 0, h =>
          simp only [Tree.sub] at h
          have := step k0 h
          have h2 : sizeOf k0 < sizeOf (Tree.node2 op v k0 k1) := by
            simp
            try omega
          omega
      | Tree.node2 op v k0 k1, 1, h =>
          simp only [Tree.sub] at h
          have := step k1 h
          have h2 : sizeOf k1 < sizeOf (Tree.node2 op v k0 k1) := by
            simp
            try omega
          omega

/-- The cost read of a nonempty path resolves through the labeled tree's
own lookup. -/
theorem readCost_sub (lt : LTree) (i : Nat) (q : Path) (n : NT) :
    readCost lt.kid0 lt.kid1 (i :: q) n =
      (match lt.sub (i :: q) with
       | some l' => l'.st.cost n
       | none => LBURG_MAX) := by
  match lt, i with
  | LTree.node0 _, 0 => simp [readCost, LTree.sub, LTree.kid0, LTree.kid1]
  | LTree.node0 _, 1 => simp [readCost, LTree.sub, LTree.kid0, LTree.kid1]
  | LTree.node0 _, Nat.succ (Nat.succ _) =>
      simp [readCost, LTree.sub, LTree.kid0, LTree.kid1]
  | LTree.node1 _ _, 0 => simp [readCost, LTree.sub, LTree.kid0, LTree.kid1]
  | LTree.node1 _ _, 1 => simp [readCost, LTree.sub, LTree.kid0, LTree.kid1]
  | LTree.node1 _ _, Nat.succ (Nat.succ _) =>
      simp [readCost, LTree.sub, LTree.kid0, LTree.kid1]
  | LTree.node2 _ _ _, 0 => simp [readCost, LTree.sub, LTree.kid0, LTree.kid1]
  | LTree.node2 _ _ _, 1 => simp [readCost, LTree.sub, LTree.kid0, LTree.kid1]
  | LTree.node2 _ _ _, Nat.succ (Nat.succ _) =>
      simp [readCost, LTree.sub, LTree.kid0, LTree.kid1]

theorem readCost_nil (l0 l1 : Option LTree) (n : NT) :
    readCost l0 l1 [] n = LBURG_MAX := rfl

/-- Shape of a successful labeling: the root state is the fold of the
operator's recording sites over the fresh state, reading the labeled
children. -/
theorem labelTree_st {t : Tree} {lt : LTree} (h : labelTree t = Except.ok lt) :
    ∃ e, opFind t.op = some e ∧
      lt.st = e.attempts.foldl (tryAttempt t lt.kid0 lt.kid1) initState := by
  match t with
  | Tree.node0 op v =>
      rw [labelTree] at h
      rcases hf : opFind op with _ | e
      · rw [hf] at h; exact absurd h (by simp)
      rw [hf] at h
      dsimp only at h
      refine ⟨e, hf, ?_⟩
      rcases har : e.arity with _ | n
      · rw [har] at h
        dsimp only at h
        injection h with h
        subst h
        rfl
      · rw [har] at h
        exact absurd h (by simp)
  | Tree.node1 op v k0 =>
      rw [labelTree] at h
      rcases hf : opFind op with _ | e
      · rw [hf] at h; exact absurd h (by simp)
      rw [hf] at h
      dsimp only at h
      refine ⟨e, hf, ?_⟩
      rcases har : e.arity with _ | n
      · rw [har] at h
        dsimp only at h
        injection h with h
        subst h
        rfl
      rcases n with _ | n
      · rw [har] at h
        dsimp only at h
        rcases hk : labelTree k0 with f | l0
        · rw [hk] at h; exact absurd h (by simp)
        · rw [hk] at h
          dsimp only at h
          injection h with h
          subst h
          rfl
      · rw [har] at h
        dsimp only at h
        rcases hk : labelTree k0 with f | l0
        · rw [hk] at h; exact absurd h (by simp)
        · rw [hk] at h; exact absurd h (by simp)
  | Tree.node2 op v k0 k1 =>
      rw [labelTree] at h
      rcases hf : opFind op with _ | e
      · rw [hf] at h; exact absurd h (by simp)
      rw [hf] at h
      dsimp only at h
      refine ⟨e, hf, ?_⟩
      rcases har : e.arity with _ | n
      · rw [har] at h
        dsimp only at h
        injection h with h
        subst h
        rfl
      rcases n with _ | n
      · rw [har] at h
        dsimp only at h
        rcases hk : labelTree k0 with f | l0
        · rw [hk] at h; exact absurd h (by simp)
        · rw [hk] at h
          dsimp only at h
          injection h with h
          subst h
          rfl
      · rw [har] at h
        dsimp only at h
        rcases hk : labelTree k0 with f | l0
        · rw [hk] at h; exact absurd h (by simp)
        rw [hk] at h
        dsimp only at h
        rcases hk1 : labelTree k1 with f | l1
        · rw [hk1] at h; exact absurd h (by simp)
        · rw [hk1] at h
          dsimp only at h
          injection h with h
          subst h
          rfl

/-- Every table arity is at most 2 (LEFT and RIGHT children only). -/
def aritiesOK : Bool := opTableList.all fun e => decide (e.arity ≤ 2)

theorem aritiesOK_true : aritiesOK = true := by decide

theorem labelArity_le (op : Nat) : labelArity op ≤ 2 := by
  rw [labelArity]
  rcases hf : opFind op with _ | e
  · dsimp only
    omega
  · dsimp only
    have hb := aritiesOK_true
    rw [aritiesOK, List.all_eq_true] at hb
    have h2 := hb e (opFind_mem hf)
    simp only [decide_eq_true_eq] at h2
    exact h2

/-- Shape of the labeled children of a successful labeling. -/
theorem labelTree_shape {t : Tree} {lt : LTree} (h : labelTree t = Except.ok lt) :
    (labelArity t.op = 0 ∧ lt.kid0 = none ∧ lt.kid1 = none) ∨
    (labelArity t.op = 1 ∧ lt.kid1 = none ∧
      ∃ k0 l0, t.sub [0] = some k0 ∧ lt.kid0 = some l0 ∧
        labelTree k0 = Except.ok l0) ∨
    (labelArity t.op = 2 ∧
      ∃ k0 k1 l0 l1, t.sub [0] = some k0 ∧ t.sub [1] = some k1 ∧
        lt.kid0 = some l0 ∧ lt.kid1 = some l1 ∧
        labelTree k0 = Except.ok l0 ∧ labelTree k1 = Except.ok l1) := by
  have hle := labelArity_le t.op
  match t with
  | Tree.node0 op v =>
      rw [labelTree] at h
      rcases hf : opFind op with _ | e
      · rw [hf] at h; exact absurd h (by simp)
      rw [hf] at h
      dsimp only at h
      have harw : labelArity (Tree.node0 op v).op = e.arity := by
        rw [labelArity]
        dsimp only [Tree.op]
        rw [hf]
      rcases har : e.arity with _ | n
      · rw [har] at h
        dsimp only at h
        injection h with h
        subst h
        exact Or.inl ⟨by rw [harw, har], rfl, rfl⟩
      · rw [har] at h
        exact absurd h (by simp)
  | Tree.node1 op v k0 =>
      rw [labelTree] at h
      rcases hf : opFind op with _ | e
      · rw [hf] at h; exact absurd h (by simp)
      rw [hf] at h
      dsimp only at h
      have harw : labelArity (Tree.node1 op v k0).op = e.arity := by
        rw [labelArity]
        dsimp only [Tree.op]
        rw [hf]
      rcases har : e.arity with _ | n
      · rw [har] at h
        dsimp only at h
        injection h with h
        subst h
        exact Or.inl ⟨by rw [harw, har], rfl, rfl⟩
      rcases n with _ | n
      · rw [har] at h
        dsimp only at h
        rcases hk : labelTree k0 with f | l0
        · rw [hk] at h; exact absurd h (by simp)
        · rw [hk] at h
          dsimp only at h
          injection h with h
          subst h
          exact Or.inr (Or.inl ⟨by rw [harw, har], rfl, k0, l0, by simp [Tree.sub], rfl, hk⟩)
      · rw [har] at h
        dsimp only at h
        rcases hk : labelTree k0 with f | l0
        · rw [hk] at h; exact absurd h (by simp)
        · rw [hk] at h; exact absurd h (by simp)
  | Tree.node2 op v k0 k1 =>
      rw [labelTree] at h
      rcases hf : opFind op with _ | e
      · rw [hf] at h; exact absurd h (by simp)
      rw [hf] at h
      dsimp only at h
      have harw : labelArity (Tree.node2 op v k0 k1).op = e.arity := by
        rw [labelArity]
        dsimp only [Tree.op]
        rw [hf]
      rcases har : e.arity with _ | n
      · rw [har] at h
        dsimp only at h
        injection h with h
        subst h
        exact Or.inl ⟨by rw [harw, har], rfl, rfl⟩
      rcases n with _ | n
      · rw [har] at h
        dsimp only at h
        rcases hk : labelTree k0 with f | l0
        · rw [hk] at h; exact absurd h (by simp)
        · rw [hk] at h
          dsimp only at h
          injection h with h
          subst h
          exact Or.inr (Or.inl ⟨by rw [harw, har], rfl, k0, l0, by simp [Tree.sub], rfl, hk⟩)
      rcases n with _ | n
      · rw [har] at h
        dsimp only at h
        rcases hk : labelTree k0 with f | l0
        · rw [hk] at h; exact absurd h (by simp)
        rw [hk] at h
        dsimp only at h
        rcases hk1 : labelTree k1 with f | l1
        · rw [hk1] at h; exact absurd h (by simp)
        · rw [hk1] at h
          dsimp only at h
          injection h with h
          subst h
          exact Or.inr (Or.inr ⟨by rw [harw, har], k0, k1, l0, l1,
            by simp [Tree.sub], by simp [Tree.sub], rfl, rfl, hk, hk1⟩)
      · rw [harw, har] at hle
        omega

/-- A kid of the labeled tree is the labeling of the matching kid of the
tree. -/
theorem labelTree_kid {t : Tree} {lt : LTree} (h : labelTree t = Except.ok lt) :
    ∀ i li, lt.sub [i] = some li →
      ∃ ki, t.sub [i] = some ki ∧ labelTree ki = Except.ok li := by
  intro i li hi
  rcases labelTree_shape h with ⟨_, hz, ho⟩ | ⟨_, ho, k0, l0, hk0, hl0, hlab⟩ |
      ⟨_, k0, k1, l0, l1, hk0, hk1, hl0, hl1, hlab0, hlab1⟩
  · match i with
    | 0 => rw [LTree.sub_zero, hz] at hi; exact absurd hi (by simp)
    | 1 => rw [LTree.sub_one, ho] at hi; exact absurd hi (by simp)
    | Nat.succ (Nat.succ m) =>
        exact absurd hi (by cases lt <;> simp [LTree.sub])
  · match i with
    | 0 =>
        rw [LTree.sub_zero, hl0] at hi
        injection hi with hi
        subst hi
        exact ⟨k0, hk0, hlab⟩
    | 1 => rw [LTree.sub_one, ho] at hi; exact absurd hi (by simp)
    | Nat.succ (Nat.succ m) =>
        exact absurd hi (by cases lt <;> simp [LTree.sub])
  · match i with
    | 0 =>
        rw [LTree.sub_zero, hl0] at hi
        injection hi with hi
        subst hi
        exact ⟨k0, hk0, hlab0⟩
    | 1 =>
        rw [LTree.sub_one, hl1] at hi
        injection hi with hi
        subst hi
        exact ⟨k1, hk1, hlab1⟩
    | Nat.succ (Nat.succ m) =>
        exact absurd hi (by cases lt <;> simp [LTree.sub])

/-- A labeled node at any path is the labeling of the subtree there. -/
theorem labelTree_sub {t : Tree} {lt : LTree} (h : labelTree t = Except.ok lt) :
    ∀ (p : Path) (l' : LTree), lt.sub p = some l' →
      ∃ u, t.sub p = some u ∧ labelTree u = Except.ok l' := by
  intro p
  induction p generalizing t lt with
  | nil =>
      intro l' hp
      have hp2 : lt = l' := by
        cases lt <;> simp [LTree.sub] at hp <;> exact hp
      subst hp2
      refine ⟨t, ?_, h⟩
      cases t <;> simp [Tree.sub]
  | cons i q ih =>
      intro l' hp
      have hsplit : lt.sub ([i] ++ q) = some l' := hp
      rw [LTree.sub_append'] at hsplit
      rcases hli : lt.sub [i] with _ | li
      · rw [hli] at hsplit; exact absurd hsplit (by simp)
      rw [hli] at hsplit
      simp only [Option.some_bind] at hsplit
      obtain ⟨ki, hki, hlab⟩ := labelTree_kid h i li hli
      obtain ⟨u, hu, hlu⟩ := ih hlab l' hsplit
      refine ⟨u, ?_, hlu⟩
      have h2 : t.sub ([i] ++ q) = (t.sub [i]).bind (fun w => w.sub q) :=
        Tree.sub_append [i] q t
      rw [show (i :: q : Path) = [i] ++ q from rfl, h2, hki,
        Option.some_bind]
      exact hu

/-! ## Coverage: every cost read of a firing site hits a labeled node -/

theorem guardsHold_spec {t : Tree} {gs : List (Path × Nat)}
    (h : guardsHold t gs = true) :
    ∀ g ∈ gs, ∃ u, t.sub g.1 = some u ∧ u.op = g.2 := by
  rw [guardsHold, List.all_eq_true] at h
  intro g hgm
  have h2 := h g hgm
  rcases hs : t.sub g.1 with _ | u
  · rw [hs] at h2
    dsimp only at h2
    exact Bool.noConfusion h2
  · rw [hs] at h2
    dsimp only at h2
    exact ⟨u, rfl, by simpa using h2⟩

theorem stepOK_nil {op : Nat} {gs : List (Path × Nat)} {i : Nat}
    (h : stepOK op gs [] i = true) : i < labelArity op := by
  rw [stepOK] at h
  exact of_decide_eq_true h

theorem stepOK_cons {op : Nat} {gs : List (Path × Nat)} {pre : Path}
    (hne : pre ≠ []) {i : Nat} (h : stepOK op gs pre i = true) :
    ∃ g ∈ gs, g.1 = pre ∧ i < labelArity g.2 := by
  rcases pre with _ | ⟨q, qs⟩
  · exact absurd rfl hne
  · have h2 : (gs.any fun g => g.1 == q :: qs && decide (i < labelArity g.2)) =
        true := h
    rw [List.any_eq_true] at h2
    obtain ⟨g, hgm, hgp⟩ := h2
    rw [Bool.and_eq_true] at hgp
    obtain ⟨hg1, hg2⟩ := hgp
    exact ⟨g, hgm, by simpa using hg1, of_decide_eq_true hg2⟩

theorem opFind_op {op : Nat} {e : OpEntry} (h : opFind op = some e) :
    e.op = op := by
  have h2 := List.find?_some h
  simpa using h2

theorem getD_mem_of_lt {α : Type} : ∀ (l : List α) (i : Nat) (d : α),
    i < l.length → l.getD i d ∈ l := by
  intro l
  induction l with
  | nil => intro i d hi; exact absurd hi (by simp)
  | cons x xs ih =>
      intro i d hi
      match i with
      | 0 => rw [List.getD_cons_zero]; exact List.mem_cons_self x xs
      | Nat.succ j =>
          rw [List.getD_cons_succ]
          exact List.mem_cons_of_mem _ (ih j d (by simpa using hi))

/-- Every summand path of an attempt of the table passes `pathOK`. -/
theorem table_pathOK {t : Tree} {A : Attempt} (hA : A ∈ attemptsOf t)
    {i : Nat} (hi : i < A.summands.length) :
    pathOK t.op A.guards (psum A i) = true := by
  rw [attemptsOf] at hA
  rcases hf : opFind t.op with _ | e
  · rw [hf] at hA
    dsimp only at hA
    exact absurd hA (by simp)
  rw [hf] at hA
  dsimp only at hA
  have hb := tableOK_true
  rw [tableOK, List.all_eq_true] at hb
  have h1 := hb e (opFind_mem hf)
  rw [List.all_eq_true] at h1
  have h2 := h1 A hA
  rw [List.all_eq_true] at h2
  have h3 := h2 (A.summands.getD i ([], NT.stmt)) (getD_mem_of_lt _ _ _ hi)
  rw [opFind_op hf] at h3
  exact h3

theorem Tree.sub_nil (t : Tree) : t.sub [] = some t := by
  cases t <;> simp [Tree.sub]

theorem LTree.sub_nil' (lt : LTree) : lt.sub [] = some lt := by
  cases lt <;> simp [LTree.sub]

/-- A labeled-arity child of a successfully labeled node exists and is
itself successfully labeled. -/
theorem labelTree_arity_kid {t : Tree} {lt : LTree}
    (h : labelTree t = Except.ok lt) {i : Nat} (hi : i < labelArity t.op) :
    ∃ ki li, t.sub [i] = some ki ∧ lt.sub [i] = some li ∧
      labelTree ki = Except.ok li := by
  rcases labelTree_shape h with ⟨h0, _, _⟩ | ⟨h1, _, k0, l0, hk0, hl0, hlab⟩ |
      ⟨h2, k0, k1, l0, l1, hk0, hk1, hl0, hl1, hlab0, hlab1⟩
  · rw [h0] at hi
    exact absurd hi (by omega)
  · rw [h1] at hi
    have hz : i = 0 := by omega
    subst hz
    exact ⟨k0, l0, hk0, by rw [LTree.sub_zero, hl0], hlab⟩
  · rw [h2] at hi
    match i, hi with
    | 0, _ => exact ⟨k0, l0, hk0, by rw [LTree.sub_zero, hl0], hlab0⟩
    | 1, _ => exact ⟨k1, l1, hk1, by rw [LTree.sub_one, hl1], hlab1⟩
    | Nat.succ (Nat.succ m), hi => exact absurd hi (by omega)

/-- Extend a labeled pair at a path by one labeled-arity step. -/
theorem label_cov_ext {t : Tree} {lt : LTree} {pre : Path} {u : Tree}
    {l' : LTree} (hu : t.sub pre = some u) (hl : lt.sub pre = some l')
    (hlab : labelTree u = Except.ok l') {i : Nat} (hi : i < labelArity u.op) :
    ∃ u2 l2, t.sub (pre ++ [i]) = some u2 ∧ lt.sub (pre ++ [i]) = some l2 ∧
      labelTree u2 = Except.ok l2 := by
  obtain ⟨ki, li, hki, hli, hlk⟩ := labelTree_arity_kid hlab hi
  refine ⟨ki, li, ?_, ?_, hlk⟩
  · rw [Tree.sub_append, hu, Option.some_bind]
    exact hki
  · rw [LTree.sub_append', hl, Option.some_bind]
    exact hli

/-- A path validated by `pathOK` under guards that hold leads, in a
successful labeling, to a subtree that is itself successfully labeled. -/
theorem label_covered {t : Tree} {lt : LTree} (h : labelTree t = Except.ok lt)
    {gs : List (Path × Nat)} (hg : guardsHold t gs = true) :
    ∀ p, pathOK t.op gs p = true →
      ∃ u l', t.sub p = some u ∧ lt.sub p = some l' ∧
        labelTree u = Except.ok l' := by
  have d1 : ∀ i, stepOK t.op gs [] i = true →
      ∃ u l', t.sub [i] = some u ∧ lt.sub [i] = some l' ∧
        labelTree u = Except.ok l' := by
    intro i hs
    have hi := stepOK_nil hs
    have h2 := label_cov_ext (Tree.sub_nil t) (LTree.sub_nil' lt) h hi
    simpa using h2
  have dstep : ∀ (pre : Path) (u : Tree) (l' : LTree), pre ≠ [] →
      t.sub pre = some u → lt.sub pre = some l' →
      labelTree u = Except.ok l' →
      ∀ j, stepOK t.op gs pre j = true →
        ∃ u2 l2, t.sub (pre ++ [j]) = some u2 ∧ lt.sub (pre ++ [j]) = some l2 ∧
          labelTree u2 = Except.ok l2 := by
    intro pre u l' hne hu hl hlab j hs
    obtain ⟨g, hgm, hg1, hjlt⟩ := stepOK_cons hne hs
    obtain ⟨w, hw, hwop⟩ := guardsHold_spec hg g hgm
    rw [hg1, hu] at hw
    injection hw with hw
    subst hw
    rw [← hwop] at hjlt
    exact label_cov_ext hu hl hlab hjlt
  intro p hp
  match p, hp with
  | [], hp => exact Bool.noConfusion (show false = true from hp)
  | [i], hp => exact d1 i hp
  | [i, j], hp =>
      have hp2 : (stepOK t.op gs [] i && stepOK t.op gs [i] j) = true := hp
      rw [Bool.and_eq_true] at hp2
      obtain ⟨u1, l1, hu1, hl1, hlab1⟩ := d1 i hp2.1
      have h12 := dstep [i] u1 l1 (by simp) hu1 hl1 hlab1 j hp2.2
      simpa using h12
  | [i, j, k], hp =>
      have hp3 : ((stepOK t.op gs [] i && stepOK t.op gs [i] j) &&
          stepOK t.op gs [i, j] k) = true := hp
      rw [Bool.and_eq_true, Bool.and_eq_true] at hp3
      obtain ⟨⟨hpa, hpb⟩, hpc⟩ := hp3
      obtain ⟨u1, l1, hu1, hl1, hlab1⟩ := d1 i hpa
      have h12 := dstep [i] u1 l1 (by simp) hu1 hl1 hlab1 j hpb
      obtain ⟨u2, l2, hu2, hl2, hlab2⟩ := h12
      have h123 := dstep [i, j] u2 l2 (by simp)
        (by simpa using hu2) (by simpa using hl2) hlab2 k hpc
      simpa using h123
  | i :: j :: k :: m :: rest, hp =>
      exact Bool.noConfusion (show false = true from hp)

/-! ## The recorded state is capped and chain-closed -/

theorem label_cap {t : Tree} {lt : LTree} (h : labelTree t = Except.ok lt)
    (n : NT) : lt.st.cost n ≤ LBURG_MAX := by
  obtain ⟨e, _, hst⟩ := labelTree_st h
  rw [hst]
  exact fold_cost_le t lt.kid0 lt.kid1 e.attempts initState n

theorem label_closed {t : Tree} {lt : LTree}
    (h : labelTree t = Except.ok lt) : Closed lt.st := by
  obtain ⟨e, _, hst⟩ := labelTree_st h
  rw [hst]
  exact fold_closed t lt.kid0 lt.kid1 e.attempts initState initState_closed

/-! ## Soundness: every finite recorded cost is realized by a derivation -/

/-- The soundness invariant on a state being computed for `t`: every cost
is capped, and every cost below the cap is the cost of a derivation. -/
def SInv (t : Tree) (s : LState) : Prop :=
  ∀ n, s.cost n ≤ LBURG_MAX ∧ (s.cost n < LBURG_MAX → Deriv t n (s.cost n))

theorem upd_sinv {t : Tree} {s : LState} {n0 : NT} {c r : Nat}
    (hle : c ≤ LBURG_MAX) (hd : c < LBURG_MAX → Deriv t n0 c)
    (hs : SInv t s) : SInv t (s.upd n0 c r) := by
  intro n
  rw [upd_cost]
  by_cases hn : n = n0
  · rw [if_pos hn]
    subst hn
    exact ⟨hle, hd⟩
  · rw [if_neg hn]
    exact hs n

theorem closure_reg_sinv {t : Tree} {s : LState} {c : Nat}
    (hd : Deriv t NT.reg c) (hs : SInv t s) : SInv t (closure_reg s c) := by
  rw [closure_reg]
  by_cases h : c + 0 < s.cost NT.stmt
  · rw [if_pos h]
    have hmem : (NT.reg, NT.stmt, 0, 133) ∈ chainRules := by decide
    have hds : Deriv t NT.stmt (c + 0) := Deriv.chain hmem hd
    refine upd_sinv ?_ (fun _ => hds) hs
    have := (hs NT.stmt).1
    omega
  · rw [if_neg h]
    exact hs

theorem closure_con2_sinv {t : Tree} {s : LState} {c : Nat}
    (hd : Deriv t NT.con2 c) (hs : SInv t s) : SInv t (closure_con2 s c) := by
  rw [closure_con2]
  by_cases h : c + 1 < s.cost NT.reg
  · rw [if_pos h]
    have hmem : (NT.con2, NT.reg, 1, 25) ∈ chainRules := by decide
    have hr : Deriv t NT.reg (c + 1) := Deriv.chain hmem hd
    refine closure_reg_sinv hr (upd_sinv ?_ (fun _ => hr) hs)
    have := (hs NT.reg).1
    omega
  · rw [if_neg h]
    exact hs

theorem closure_con1_sinv {t : Tree} {s : LState} {c : Nat}
    (hd : Deriv t NT.con1 c) (hs : SInv t s) : SInv t (closure_con1 s c) := by
  rw [closure_con1]
  by_cases h : c + 1 < s.cost NT.reg
  · rw [if_pos h]
    have hmem : (NT.con1, NT.reg, 1, 24) ∈ chainRules := by decide
    have hr : Deriv t NT.reg (c + 1) := Deriv.chain hmem hd
    refine closure_reg_sinv hr (upd_sinv ?_ (fun _ => hr) hs)
    have := (hs NT.reg).1
    omega
  · rw [if_neg h]
    exact hs

theorem closure_con4_sinv {t : Tree} {s : LState} {c : Nat}
    (hd : Deriv t NT.con4 c) (hs : SInv t s) : SInv t (closure_con4 s c) := by
  rw [closure_con4]
  by_cases h : c + 3 < s.cost NT.reg
  · rw [if_pos h]
    have hmem : (NT.con4, NT.reg, 3, 26) ∈ chainRules := by decide
    have hr : Deriv t NT.reg (c + 3) := Deriv.chain hmem hd
    refine closure_reg_sinv hr (upd_sinv ?_ (fun _ => hr) hs)
    have := (hs NT.reg).1
    omega
  · rw [if_neg h]
    exact hs

theorem closure_faddr_sinv {t : Tree} {s : LState} {c : Nat}
    (hd : Deriv t NT.faddr c) (hs : SInv t s) : SInv t (closure_faddr s c) := by
  rw [closure_faddr]
  by_cases h : c + 0 < s.cost NT.addr
  · rw [if_pos h]
    have hmem : (NT.faddr, NT.addr, 0, 3) ∈ chainRules := by decide
    have hda : Deriv t NT.addr (c + 0) := Deriv.chain hmem hd
    refine upd_sinv ?_ (fun _ => hda) hs
    have := (hs NT.addr).1
    omega
  · rw [if_neg h]
    exact hs

theorem record_sinv {t : Tree} {s : LState} {n0 : NT} {c r : Nat}
    (hlt : c < s.cost n0) (hd : Deriv t n0 c) (hs : SInv t s) :
    SInv t (closure n0 (s.upd n0 c r) c) := by
  have hcap : c ≤ LBURG_MAX := by
    have := (hs n0).1
    omega
  have hs1 : SInv t (s.upd n0 c r) := upd_sinv hcap (fun _ => hd) hs
  cases n0
  case stmt => exact hs1
  case reg => exact closure_reg_sinv hd hs1
  case con2 => exact closure_con2_sinv hd hs1
  case con1 => exact closure_con1_sinv hd hs1
  case con4 => exact closure_con4_sinv hd hs1
  case conN => exact hs1
  case addr => exact hs1
  case faddr => exact closure_faddr_sinv hd hs1

theorem getD_map_lt {α β : Type} (f : α → β) :
    ∀ (l : List α) (i : Nat), i < l.length → ∀ (d2 : β) (d : α),
      (l.map f).getD i d2 = f (l.getD i d) := by
  intro l
  induction l with
  | nil => intro i hi; exact absurd hi (by simp)
  | cons x xs ih =>
      intro i hi d2 d
      match i with
      | 0 => rw [List.map_cons, List.getD_cons_zero, List.getD_cons_zero]
      | Nat.succ j =>
          rw [List.map_cons, List.getD_cons_succ, List.getD_cons_succ]
          exact ih j (by simpa using hi) d2 d

theorem getD_le_sum : ∀ (l : List Nat) (i : Nat), i < l.length →
    l.getD i 0 ≤ l.sum := by
  intro l
  induction l with
  | nil => intro i hi; exact absurd hi (by simp)
  | cons x xs ih =>
      intro i hi
      match i with
      | 0 =>
          rw [List.getD_cons_zero, List.sum_cons]
          omega
      | Nat.succ j =>
          rw [List.getD_cons_succ, List.sum_cons]
          have := ih j (by simpa using hi)
          omega

theorem tryAttempt_sinv {t : Tree} {l0 l1 : Option LTree} {s : LState}
    {A : Attempt} (hA : A ∈ attemptsOf t)
    (hreads : ∀ p n2, readCost l0 l1 p n2 < LBURG_MAX →
      (t.sub p).isSome = true ∧ Deriv (t.subD p) n2 (readCost l0 l1 p n2))
    (hs : SInv t s) : SInv t (tryAttempt t l0 l1 s A) := by
  rw [tryAttempt]
  by_cases hg : guardsHold t A.guards
  case neg => rw [if_neg hg]; exact hs
  rw [if_pos hg]
  by_cases hlt : candCost t l0 l1 A < s.cost A.target
  case neg => rw [if_neg hlt]; exact hs
  rw [if_pos hlt]
  have hmax : candCost t l0 l1 A < LBURG_MAX := by
    have := (hs A.target).1
    omega
  have hev : ∀ i, i < A.summands.length →
      readCost l0 l1 (psum A i) (nsum A i) < LBURG_MAX := by
    intro i hi
    have h1 : (A.summands.map fun pn => readCost l0 l1 pn.1 pn.2).getD i 0 =
        readCost l0 l1 (psum A i) (nsum A i) :=
      getD_map_lt _ A.summands i hi 0 ([], NT.stmt)
    have h2 := getD_le_sum (A.summands.map fun pn => readCost l0 l1 pn.1 pn.2)
      i (by simpa using hi)
    have h3 : (A.summands.map fun pn => readCost l0 l1 pn.1 pn.2).sum ≤
        candCost t l0 l1 A := by
      rw [candCost]
      omega
    rw [h1] at h2
    omega
  have hder : Deriv t A.target (candCost t l0 l1 A) := by
    have hcc : candCost t l0 l1 A =
        (A.summands.map fun pn => readCost l0 l1 pn.1 pn.2).sum +
          baseCost t.val A.base := rfl
    rw [hcc]
    refine Deriv.rule hA hg (by simp) ?_ ?_
    · intro i hi
      exact (hreads (psum A i) (nsum A i) (hev i hi)).1
    · intro i hi
      have h1 : (A.summands.map fun pn => readCost l0 l1 pn.1 pn.2).getD i 0 =
          readCost l0 l1 (psum A i) (nsum A i) :=
        getD_map_lt _ A.summands i hi 0 ([], NT.stmt)
      rw [h1]
      exact (hreads (psum A i) (nsum A i) (hev i hi)).2
  exact record_sinv hlt hder hs

theorem initState_sinv (t : Tree) : SInv t initState := by
  intro n
  refine ⟨le_refl _, fun h => absurd h ?_⟩
  rw [initState_cost]
  omega

theorem fold_sinv {t : Tree} {l0 l1 : Option LTree}
    (hreads : ∀ p n2, readCost l0 l1 p n2 < LBURG_MAX →
      (t.sub p).isSome = true ∧ Deriv (t.subD p) n2 (readCost l0 l1 p n2)) :
    ∀ (atts : List Attempt), (∀ a ∈ atts, a ∈ attemptsOf t) →
      ∀ s, SInv t s → SInv t (atts.foldl (tryAttempt t l0 l1) s) := by
  intro atts
  induction atts with
  | nil => intro _ s hs; exact hs
  | cons a rest ih =>
      intro hmem s hs
      rw [List.foldl_cons]
      exact ih (fun b hb => hmem b (List.mem_cons_of_mem a hb)) _
        (tryAttempt_sinv (hmem a (List.mem_cons_self a rest)) hreads hs)

theorem label_sound_aux : ∀ (N : Nat) (t : Tree), sizeOf t < N →
    ∀ lt, labelTree t = Except.ok lt → SInv t lt.st := by
  intro N
  induction N with
  | zero => intro t h; exact absurd h (Nat.not_lt_zero _)
  | succ N ih =>
      intro t hN lt hok
      obtain ⟨e, he, hst⟩ := labelTree_st hok
      have hreads : ∀ p n2, readCost lt.kid0 lt.kid1 p n2 < LBURG_MAX →
          (t.sub p).isSome = true ∧
            Deriv (t.subD p) n2 (readCost lt.kid0 lt.kid1 p n2) := by
        intro p n2 hr
        match p with
        | [] =>
            rw [readCost_nil] at hr
            exact absurd hr (by omega)
        | i :: q =>
            rw [readCost_sub] at hr
            rcases hsub : lt.sub (i :: q) with _ | l'
            · rw [hsub] at hr
              dsimp only at hr
              exact absurd hr (by omega)
            · rw [hsub] at hr
              dsimp only at hr
              obtain ⟨u, hu, hlab⟩ := labelTree_sub hok (i :: q) l' hsub
              have hszlt : sizeOf u < N := by
                rcases tree_sub_size (i :: q) t u hu with hnil | hsz
                · exact absurd hnil (by simp)
                · omega
              have hS := ih u hszlt l' hlab n2
              have hsubD : t.subD (i :: q) = u := by
                rw [Tree.subD, hu]
                rfl
              constructor
              · rw [hu]
                rfl
              · rw [readCost_sub, hsub]
                dsimp only
                rw [hsubD]
                exact hS.2 hr
      rw [hst]
      refine fold_sinv hreads e.attempts (fun a ha => ?_) initState
        (initState_sinv t)
      rw [attemptsOf, he]
      exact ha

/-- Every finite cost `labelTree` records is realized by a derivation. -/
theorem label_sound {t : Tree} {lt : LTree}
    (hok : labelTree t = Except.ok lt) : SInv t lt.st :=
  label_sound_aux (sizeOf t + 1) t (Nat.lt_succ_self _) lt hok

/-! ## Upper bound: the recorded cost never exceeds any derivation's cost -/

theorem sum_le_sum_getD : ∀ (l1 l2 : List Nat), l1.length = l2.length →
    (∀ i, i < l1.length → l1.getD i 0 ≤ l2.getD i 0) → l1.sum ≤ l2.sum := by
  intro l1
  induction l1 with
  | nil => intro l2 hlen hle; simp
  | cons x xs ih =>
      intro l2 hlen hle
      match l2 with
      | [] => exact absurd hlen (by simp)
      | y :: ys =>
          rw [List.sum_cons, List.sum_cons]
          have h0 := hle 0 (by simp)
          rw [List.getD_cons_zero, List.getD_cons_zero] at h0
          have hrest : xs.sum ≤ ys.sum := by
            refine ih ys (by simpa using hlen) ?_
            intro i hi
            have h2 := hle (i + 1) (by simpa using hi)
            rw [List.getD_cons_succ, List.getD_cons_succ] at h2
            exact h2
          omega

/-- Once a site whose guards pass has been folded in, the recorded cost of
its target is at most its candidate cost. -/
theorem fold_upper (t : Tree) (l0 l1 : Option LTree) :
    ∀ (atts : List Attempt) (s : LState) (A : Attempt), A ∈ atts →
      guardsHold t A.guards = true →
      (atts.foldl (tryAttempt t l0 l1) s).cost A.target ≤
        candCost t l0 l1 A := by
  intro atts
  induction atts with
  | nil => intro s A hA _; exact absurd hA (by simp)
  | cons a rest ih =>
      intro s A hA hg
      rw [List.foldl_cons]
      rcases List.mem_cons.mp hA with heq | hmem
      · subst heq
        have hstep : (tryAttempt t l0 l1 s A).cost A.target ≤
            candCost t l0 l1 A := by
          rw [tryAttempt, if_pos hg]
          by_cases hlt : candCost t l0 l1 A < s.cost A.target
          · rw [if_pos hlt]
            refine le_trans (closure_cost_le _ _ _ _) ?_
            rw [upd_cost, if_pos rfl]
          · rw [if_neg hlt]
            omega
        exact le_trans (fold_cost_le t l0 l1 rest _ A.target) hstep
      · exact ih _ A hmem hg

/-- A nonempty path into the labeled tree resolves the cost read to the
labeled node's state. -/
theorem readCost_resolve {lt : LTree} {p : Path} {l' : LTree} (hne : p ≠ [])
    (hl : lt.sub p = some l') (n : NT) :
    readCost lt.kid0 lt.kid1 p n = l'.st.cost n := by
  rcases p with _ | ⟨i, q⟩
  · exact absurd rfl hne
  · rw [readCost_sub, hl]

theorem upper_of_deriv {t : Tree} {n : NT} {c : Nat} (hd : Deriv t n c) :
    ∀ lt, labelTree t = Except.ok lt → lt.st.cost n ≤ c := by
  induction hd with
  | @rule t A cs hA hg hlen hex hrec ih =>
      intro lt hok
      obtain ⟨e, he, hst⟩ := labelTree_st hok
      have hAe : A ∈ e.attempts := by
        have hattA : A ∈ attemptsOf t := hA
        rw [attemptsOf, he] at hattA
        exact hattA
      rw [hst]
      refine le_trans
        (fold_upper t lt.kid0 lt.kid1 e.attempts initState A hAe hg) ?_
      rw [candCost]
      refine Nat.add_le_add_right ?_ _
      refine sum_le_sum_getD _ _ (by simp [hlen]) ?_
      intro i hi
      have hi2 : i < A.summands.length := by simpa using hi
      have hpOK := table_pathOK hA hi2
      have hpne : psum A i ≠ [] := by
        intro hnil
        rw [hnil] at hpOK
        exact Bool.noConfusion (show false = true from hpOK)
      obtain ⟨u, l', hu, hl', hlab⟩ := label_covered hok hg (psum A i) hpOK
      have h1 : (A.summands.map fun pn =>
          readCost lt.kid0 lt.kid1 pn.1 pn.2).getD i 0 =
          readCost lt.kid0 lt.kid1 (psum A i) (nsum A i) :=
        getD_map_lt _ A.summands i hi2 0 ([], NT.stmt)
      rw [h1, readCost_resolve hpne hl' (nsum A i)]
      have hsubD : t.subD (psum A i) = u := by
        rw [Tree.subD, hu]
        rfl
      exact ih i hi2 l' (by rw [hsubD]; exact hlab)
  | @chain t f g k r c hc hd ih =>
      intro lt hok
      obtain ⟨h1, h2, h3, h4, h5⟩ := label_closed hok
      have hf := ih lt hok
      rw [chainRules] at hc
      simp only [List.mem_cons, Prod.mk.injEq, List.not_mem_nil,
        or_false] at hc
      rcases hc with ⟨hf2, hg2, hk2, _⟩ | ⟨hf2, hg2, hk2, _⟩ |
          ⟨hf2, hg2, hk2, _⟩ | ⟨hf2, hg2, hk2, _⟩ | ⟨hf2, hg2, hk2, _⟩ <;>
        subst hf2 <;> subst hg2 <;> subst hk2 <;> omega

/-- C1: for every tree the labeler accepts and every nonterminal, the
recorded cost is the minimum derivation cost, capped at LBURG_MAX: it never
exceeds LBURG_MAX, it is either the unreachable LBURG_MAX or itself the
cost of a derivation built from the grammar rules and the five chain-rule
closures, and it is a lower bound on the cost of every such derivation. -/
theorem label_cost_minimal (t : Tree) (h : labelOk t = true) (n : NT) :
    finalCost t n ≤ LBURG_MAX ∧
    (finalCost t n = LBURG_MAX ∨ Deriv t n (finalCost t n)) ∧
    (∀ c, Deriv t n c → finalCost t n ≤ c) := by
  rw [labelOk] at h
  rcases hok : labelTree t with f | lt
  · rw [hok] at h
    dsimp only at h
    exact Bool.noConfusion h
  · have hfc : finalCost t n = lt.st.cost n := by
      rw [finalCost, finalState, finalLT, hok]
    rw [hfc]
    have hcap := label_cap hok n
    have hs := label_sound hok n
    refine ⟨hcap, ?_, fun c hd => upper_of_deriv hd lt hok⟩
    rcases Nat.lt_or_ge (lt.st.cost n) LBURG_MAX with hlt | hge
    · exact Or.inr (hs.2 hlt)
    · exact Or.inl (by omega)

/-- Witness for label_cost_minimal: the labeler accepts a LABELV leaf, and
its recorded stmt cost is minimal over all derivations. -/
theorem label_cost_minimal_witness :
    labelOk (Tree.node0 600 0) = true ∧
    (finalCost (Tree.node0 600 0) NT.stmt ≤ LBURG_MAX ∧
      (finalCost (Tree.node0 600 0) NT.stmt = LBURG_MAX ∨
        Deriv (Tree.node0 600 0) NT.stmt
          (finalCost (Tree.node0 600 0) NT.stmt)) ∧
      (∀ c, Deriv (Tree.node0 600 0) NT.stmt c →
        finalCost (Tree.node0 600 0) NT.stmt ≤ c)) :=
  ⟨by rfl, label_cost_minimal (Tree.node0 600 0) (by rfl) NT.stmt⟩

/-! ## conN: the 1-byte shift-amount nonterminal -/

/-- A recording site whose candidate cost is already the unreachable
LBURG_MAX never changes a capped state. -/
theorem tryAttempt_max {t : Tree} {l0 l1 : Option LTree} {s : LState}
    {A : Attempt} (hc : candCost t l0 l1 A = LBURG_MAX)
    (hs : s.cost A.target ≤ LBURG_MAX) :
    tryAttempt t l0 l1 s A = s := by
  rw [tryAttempt]
  by_cases hg : guardsHold t A.guards
  · rw [if_pos hg, if_neg (by omega)]
  · rw [if_neg hg]

theorem conN_cost_aux (op ru : Nat) (v : Int) (hv : v ≠ 1)
    (hst : finalCost (Tree.node0 op v) NT.conN =
      (tryAttempt (Tree.node0 op v) none none
        (tryAttempt (Tree.node0 op v) none none initState
          (Attempt.mk [] [] (CostBase.const 0) NT.con1 ru))
        (Attempt.mk [] [] (CostBase.range 1 1) NT.conN ru)).cost NT.conN) :
    finalCost (Tree.node0 op v) NT.conN = LBURG_MAX := by
  rw [hst]
  have hno : ¬((1 : Int) ≤ v ∧ v ≤ 1) := by
    intro hc
    exact hv (by omega)
  have hb : baseCost v (CostBase.range 1 1) = LBURG_MAX := by
    rw [baseCost, if_neg hno]
  have hcand : candCost (Tree.node0 op v) none none
      (Attempt.mk [] [] (CostBase.range 1 1) NT.conN ru) = LBURG_MAX := by
    rw [candCost]
    simp only [List.map_nil, List.sum_nil, Nat.zero_add, Tree.val]
    exact hb
  have hS1c : (tryAttempt (Tree.node0 op v) none none initState
      (Attempt.mk [] [] (CostBase.const 0) NT.con1 ru)).cost NT.conN =
      LBURG_MAX := rfl
  rw [tryAttempt_max hcand (le_of_eq hS1c), hS1c]

/-- A CNSTI1/CNSTU1 constant reaches conN at cost 0 exactly when its value
is 1; any other value leaves conN at the unreachable LBURG_MAX. -/
theorem conN_cost_one_byte (op : Nat) (hop : op = 1045 ∨ op = 1046) (v : Int) :
    finalCost (Tree.node0 op v) NT.conN = if v = 1 then 0 else LBURG_MAX := by
  by_cases hv : v = 1
  · subst hv
    rw [if_pos rfl]
    rcases hop with h | h <;> subst h <;> rfl
  · rw [if_neg hv]
    rcases hop with h | h <;> subst h
    · exact conN_cost_aux 1045 1 v hv rfl
    · exact conN_cost_aux 1046 2 v hv rfl

/-- Derivation inversion: a derivation is a rule of the node's own switch
arm or a chain rule into its nonterminal. -/
theorem deriv_target_attempt {t : Tree} {n : NT} {c : Nat}
    (hd : Deriv t n c) :
    (∃ A, ∃ cs : List Nat, A ∈ attemptsOf t ∧ A.target = n ∧
      cs.length = A.summands.length ∧
      c = cs.sum + baseCost t.val A.base) ∨
    (∃ f k r c0, (f, n, k, r) ∈ chainRules ∧ c = c0 + k) := by
  cases hd with
  | rule hA hg hlen hex hrec => exact Or.inl ⟨_, _, hA, rfl, hlen, rfl⟩
  | chain hc2 hd2 => exact Or.inr ⟨_, _, _, _, hc2, rfl⟩

/-- The only sites of the whole table that target conN are the
`range(1,1)` sites of the two 1-byte constant operators, and they read no
other node's cost. -/
def conNTargetOK : Bool :=
  opTableList.all fun e =>
    e.attempts.all fun a =>
      (!decide (a.target = NT.conN)) ||
        ((decide (e.op = 1045) || decide (e.op = 1046)) &&
          decide (a.base = CostBase.range 1 1) && a.summands.isEmpty)

set_option maxRecDepth 100000 in
set_option maxHeartbeats 4000000 in
theorem conNTargetOK_true : conNTargetOK = true := by decide

/-- A finite-cost conN derivation exists only at a CNSTI1/CNSTU1 node of
value exactly 1. -/
theorem deriv_conN {t : Tree} {c : Nat} (hd : Deriv t NT.conN c)
    (hlt : c < LBURG_MAX) : (t.op = 1045 ∨ t.op = 1046) ∧ t.val = 1 := by
  rcases deriv_target_attempt hd with ⟨A, cs, hA, htgt, hlen, hc⟩ |
      ⟨f, k, r, c0, hmem, _⟩
  · rw [attemptsOf] at hA
    rcases hf : opFind t.op with _ | e
    · rw [hf] at hA
      dsimp only at hA
      exact absurd hA (by simp)
    rw [hf] at hA
    dsimp only at hA
    have hb := conNTargetOK_true
    rw [conNTargetOK, List.all_eq_true] at hb
    have h1 := hb e (opFind_mem hf)
    rw [List.all_eq_true] at h1
    have h2 := h1 A hA
    rw [Bool.or_eq_true] at h2
    rcases h2 with h2 | h2
    · rw [Bool.not_eq_true', decide_eq_false_iff_not] at h2
      exact absurd htgt h2
    · rw [Bool.and_eq_true, Bool.and_eq_true, Bool.or_eq_true] at h2
      obtain ⟨⟨hxy, hz⟩, hw⟩ := h2
      have hop3 : t.op = 1045 ∨ t.op = 1046 := by
        rcases hxy with hx | hx
        · have hx2 := of_decide_eq_true hx
          rw [opFind_op hf] at hx2
          exact Or.inl hx2
        · have hx2 := of_decide_eq_true hx
          rw [opFind_op hf] at hx2
          exact Or.inr hx2
      have hbase2 : A.base = CostBase.range 1 1 := of_decide_eq_true hz
      have hsum2 : A.summands = [] := by
        rw [List.isEmpty_iff] at hw
        exact hw
      have hcs : cs = [] := by
        rw [hsum2] at hlen
        simpa using hlen
      rw [hcs, hbase2] at hc
      simp only [List.sum_nil, Nat.zero_add] at hc
      rw [baseCost] at hc
      by_cases hv : (1 : Int) ≤ t.val ∧ t.val ≤ 1
      · rw [if_pos hv] at hc
        exact ⟨hop3, by omega⟩
      · rw [if_neg hv] at hc
        exact absurd hlt (by omega)
  · simp [chainRules] at hmem

/-- The generated code records `A.rule` for reg at a guard-free reg-target
site exactly when the candidate beats the recorded cost; the reg closure
touches only stmt. -/
theorem tryAttempt_rule_reg (t : Tree) (l0 l1 : Option LTree) (s : LState)
    (A : Attempt) (hT : A.target = NT.reg) (hG : A.guards = []) :
    (tryAttempt t l0 l1 s A).rule NT.reg =
      if candCost t l0 l1 A < s.cost NT.reg then A.rule
      else s.rule NT.reg := by
  rw [tryAttempt, hG]
  have hgt : guardsHold t [] = true := rfl
  rw [if_pos hgt, hT]
  by_cases hlt : candCost t l0 l1 A < s.cost NT.reg
  · rw [if_pos hlt, if_pos hlt]
    show (closure_reg (s.upd NT.reg (candCost t l0 l1 A) A.rule)
      (candCost t l0 l1 A)).rule NT.reg = A.rule
    rw [closure_reg]
    by_cases h2 : candCost t l0 l1 A + 0 <
        (s.upd NT.reg (candCost t l0 l1 A) A.rule).cost NT.stmt
    · rw [if_pos h2, upd_rule, if_neg (by decide), upd_rule, if_pos rfl]
    · rw [if_neg h2, upd_rule, if_pos rfl]
  · rw [if_neg hlt, if_neg hlt]

/-- If labeling a LSHI2 node records rule 199 (the shift-by-conN rule) for
reg, the right operand is a 1-byte constant of value exactly 1. -/
theorem lsh_rule199_inv (w : Int) (l r : Tree)
    (hok : labelOk (Tree.node2 2389 w l r) = true)
    (hrule : finalRule (Tree.node2 2389 w l r) NT.reg = 199) :
    (r.op = 1045 ∨ r.op = 1046) ∧ r.val = 1 := by
  rw [labelOk] at hok
  rcases hok2 : labelTree (Tree.node2 2389 w l r) with f | lt
  · rw [hok2] at hok
    dsimp only at hok
    exact Bool.noConfusion hok
  rcases labelTree_shape hok2 with ⟨h0, _, _⟩ |
      ⟨h1a, _, _, _, _, _, _⟩ |
      ⟨h2a, ka, kb, la, lb, hka, hkb, hla, hlb, hlaba, hlabb⟩
  · exact absurd (show labelArity 2389 = 0 from h0) (by decide)
  · exact absurd (show labelArity 2389 = 1 from h1a) (by decide)
  have hstep : (Tree.node2 2389 w l r).sub [1] = r.sub [] := rfl
  rw [hstep, Tree.sub_nil] at hkb
  injection hkb with hkb
  subst hkb
  obtain ⟨e, he, hst⟩ := labelTree_st hok2
  have hE : some (OpEntry.mk 2389 2
      [Attempt.mk [] [([0], NT.reg), ([1], NT.conN)] (CostBase.const 1)
        NT.reg 199,
       Attempt.mk [] [([0], NT.reg), ([1], NT.reg)] (CostBase.const 15)
        NT.reg 203]) = some e := he
  injection hE with hE
  subst hE
  have hfr : finalRule (Tree.node2 2389 w l r) NT.reg =
      lt.st.rule NT.reg := by
    rw [finalRule, finalState, finalLT, hok2]
  rw [hfr, hst, List.foldl_cons, List.foldl_cons, List.foldl_nil] at hrule
  rw [tryAttempt_rule_reg (Tree.node2 2389 w l r) lt.kid0 lt.kid1 _
    (Attempt.mk [] [([0], NT.reg), ([1], NT.reg)] (CostBase.const 15)
      NT.reg 203) rfl rfl] at hrule
  by_cases h2 : candCost (Tree.node2 2389 w l r) lt.kid0 lt.kid1
      (Attempt.mk [] [([0], NT.reg), ([1], NT.reg)] (CostBase.const 15)
        NT.reg 203) <
      (tryAttempt (Tree.node2 2389 w l r) lt.kid0 lt.kid1 initState
        (Attempt.mk [] [([0], NT.reg), ([1], NT.conN)] (CostBase.const 1)
          NT.reg 199)).cost NT.reg
  · rw [if_pos h2] at hrule
    exact absurd hrule (by decide)
  rw [if_neg h2] at hrule
  rw [tryAttempt_rule_reg (Tree.node2 2389 w l r) lt.kid0 lt.kid1 initState
    (Attempt.mk [] [([0], NT.reg), ([1], NT.conN)] (CostBase.const 1)
      NT.reg 199) rfl rfl] at hrule
  by_cases h1 : candCost (Tree.node2 2389 w l r) lt.kid0 lt.kid1
      (Attempt.mk [] [([0], NT.reg), ([1], NT.conN)] (CostBase.const 1)
        NT.reg 199) < initState.cost NT.reg
  case neg =>
    rw [if_neg h1] at hrule
    exact absurd hrule (by decide)
  rw [if_pos h1] at hrule
  have h1m : candCost (Tree.node2 2389 w l r) lt.kid0 lt.kid1
      (Attempt.mk [] [([0], NT.reg), ([1], NT.conN)] (CostBase.const 1)
        NT.reg 199) < LBURG_MAX := h1
  have hbound : readCost lt.kid0 lt.kid1 [1] NT.conN ≤
      candCost (Tree.node2 2389 w l r) lt.kid0 lt.kid1
        (Attempt.mk [] [([0], NT.reg), ([1], NT.conN)] (CostBase.const 1)
          NT.reg 199) := by
    rw [candCost]
    simp only [List.map_cons, List.map_nil, List.sum_cons, List.sum_nil]
    omega
  have hread : readCost lt.kid0 lt.kid1 [1] NT.conN = lb.st.cost NT.conN :=
    readCost_resolve (by simp) (by rw [LTree.sub_one, hlb]) NT.conN
  have hcost : lb.st.cost NT.conN < LBURG_MAX := by
    rw [← hread]
    omega
  have hs := label_sound hlabb NT.conN
  exact deriv_conN (hs.2 hcost) hcost

/-- C10: a 1-byte constant (CNSTI1 op 1045 / CNSTU1 op 1046) reaches the
conN nonterminal at finite cost iff its value is exactly 1 — cost 0 when
v = 1 and the unreachable LBURG_MAX otherwise — and consequently the
LSHI2 shift-by-constant rule (reg rule index 199, `reg: LSHI2(reg,conN)`)
is only ever recorded when the right operand is such a constant of value
exactly 1; every other accepted shift keeps the register-operand rule. -/
theorem conN_shift_constant_one (op : Nat) (hop : op = 1045 ∨ op = 1046)
    (v w : Int) (l r : Tree) :
    finalCost (Tree.node0 op v) NT.conN =
      (if v = 1 then 0 else LBURG_MAX) ∧
    (labelOk (Tree.node2 2389 w l r) = true →
      finalRule (Tree.node2 2389 w l r) NT.reg = 199 →
      (r.op = 1045 ∨ r.op = 1046) ∧ r.val = 1) :=
  ⟨conN_cost_one_byte op hop v, fun hok hr => lsh_rule199_inv w l r hok hr⟩

/-- Witness for conN_shift_constant_one: the value-3 1-byte constant has
conN cost LBURG_MAX, and the LSHI2 consequence holds at a concrete tree. -/
theorem conN_shift_constant_one_witness :
    ((1045 : Nat) = 1045 ∨ (1045 : Nat) = 1046) ∧
    (finalCost (Tree.node0 1045 3) NT.conN =
      (if (3 : Int) = 1 then 0 else LBURG_MAX) ∧
    (labelOk (Tree.node2 2389 0 (Tree.node0 600 0) (Tree.node0 600 0)) =
        true →
      finalRule (Tree.node2 2389 0 (Tree.node0 600 0) (Tree.node0 600 0))
          NT.reg = 199 →
      ((Tree.node0 600 0).op = 1045 ∨ (Tree.node0 600 0).op = 1046) ∧
        (Tree.node0 600 0).val = 1)) :=
  ⟨Or.inl rfl,
    conN_shift_constant_one 1045 (Or.inl rfl) 3 0 (Tree.node0 600 0)
      (Tree.node0 600 0)⟩

end NeanderX
